import Mathlib

/-!
Verification development for a Game Boy Advance emulator written in C.

The development shallowly embeds the emulator state and the operations the
frozen claims are about: the timer update (`updateTimer`), the IRQ check
(`cpuCheckIRQ`, `cpuInterrupt`), the banked register file (`regToBank`,
`bankToReg`, `cpuModeSet`), the bus (`memReadWord`, `memReadHalfWord`,
`memReadByte`, `memWriteWord`, `memWriteHalfWord`, `memWriteByte`,
`memWriteIo`), the DMA engine (`dmaLoad`, `dmaTransfer`,
`dmaTransferFIFO`) and the ARM-mode instruction step (`executeArm` with
the eleven ARM `proc` functions and the decoders).

Machine integers are modelled as `Nat` with explicit masking at every
assignment to a fixed-width C lvalue (`&&& 0xFF` for `Byte`,
`&&& 0xFFFF` for `HalfWord`, `&&& 0xFFFFFFFF` for `Word`), so overflow
behaves exactly as in the C source.  C arrays become functions
`Nat → Nat`; `bool` becomes `Bool`; fallible paths of the C code (paths
that call `exit`) return `Option`.  The unbounded recursion that the C
source permits between bus writes and DMA loads is cut by an explicit
`fuel` parameter: at fuel zero a write returns the state unchanged, and
every theorem below supplies enough fuel for the runs it talks about.
-/

set_option maxRecDepth 100000

set_option maxHeartbeats 4000000



namespace Gba

/-- Bit helper: rotate a 32-bit value right, exactly as the C macro
`ROR(operand, n) = (operand >> (n & 31)) | (operand << ((-n) & 31))`
computes it on `uint32_t` (the left shift truncates to 32 bits). -/
def rorC (x n : Nat) : Nat :=
  ((x >>> (n % 32)) ||| ((x <<< ((32 - n % 32) % 32)) &&& 0xFFFFFFFF)) &&& 0xFFFFFFFF

/-- Bit helper: arithmetic (sign propagating) right shift of a 32-bit
value by `k ≤ 31` places, as `(int32_t)x >> k` computes in C. -/
def sar32 (x k : Nat) : Nat :=
  if x &&& 0x80000000 = 0 then x >>> k
  else (x >>> k) ||| ((((1 <<< k) - 1) <<< (32 - k)) &&& 0xFFFFFFFF)

/-- Bit helper: two's-complement negation of a 32-bit value. -/
def neg32 (x : Nat) : Nat := (0x100000000 - (x &&& 0xFFFFFFFF)) &&& 0xFFFFFFFF

/-- Bit helper: 32-bit sign extension of a value already reduced mod 2^32,
viewed as a 64-bit two's-complement quantity (used for `(int32_t)` casts
widened to 64 bits). -/
def sext32to64 (x : Nat) : Nat :=
  if x &&& 0x80000000 = 0 then x else x ||| 0xFFFFFFFF00000000

/-- Map helper: read byte `k` (0-based, little endian) of a packed register. -/
def getByteN (r k : Nat) : Nat := (r >>> (8 * k)) &&& 0xFF

/-- Map helper: overwrite byte `k` (0-based, little endian) of a packed
register with `v`, as storing through a `Byte bytes[...]` union member does. -/
def setByteN (r k v : Nat) : Nat :=
  (r &&& (0xFFFFFFFFFFFFFFFF ^^^ (0xFF <<< (8 * k)))) ||| ((v &&& 0xFF) <<< (8 * k))

/-- Map helper: little-endian 16-bit read from a byte map, as
`*(HalfWord *)(arr + i)` performs on this little-endian target. -/
def read16 (m : Nat → Nat) (i : Nat) : Nat :=
  m i ||| (m (i + 1) <<< 8)

/-- Map helper: little-endian 32-bit read from a byte map, as
`*(Word *)(arr + i)` performs. -/
def read32 (m : Nat → Nat) (i : Nat) : Nat :=
  m i ||| (m (i + 1) <<< 8) ||| (m (i + 2) <<< 16) ||| (m (i + 3) <<< 24)

/-- Map helper: little-endian 16-bit store into a byte map. -/
def write16 (m : Nat → Nat) (i v : Nat) : Nat → Nat :=
  Function.update (Function.update m i (v &&& 0xFF)) (i + 1) ((v >>> 8) &&& 0xFF)

/-- Map helper: little-endian 32-bit store into a byte map. -/
def write32 (m : Nat → Nat) (i v : Nat) : Nat → Nat :=
  Function.update (Function.update (Function.update (Function.update m
    i (v &&& 0xFF)) (i + 1) ((v >>> 8) &&& 0xFF)) (i + 2) ((v >>> 16) &&& 0xFF))
    (i + 3) ((v >>> 24) &&& 0xFF)

/-- Flash state machine modes, from `memory.c`:
`typedef enum { IDLE, ERASE, WRITE, BANK_SWITCH } flashMode`. -/
inductive FlashMode where
  | IDLE
  | ERASE
  | WRITE
  | BANK_SWITCH
  deriving DecidableEq, Repr

/-- Timer channel registers, from `struct TIMERS` in `memory.h`: both
`counter` and `reload` are 16-bit (`HalfWord full`) unions and `control`
is a 16-bit union.  Every write to these fields below is masked to the
field width, exactly as storing through the C union does. -/
structure Timer where
  counter : Nat
  reload : Nat
  control : Nat
  deriving Repr

/-- DMA channel registers, from `struct DMA` in `memory.h`: 32-bit
`source` and `destination`, 16-bit `count` and `control`. -/
structure DmaChan where
  source : Nat
  destination : Nat
  count : Nat
  control : Nat
  deriving Repr

/-- Sound FIFO, from the `fifo[2]` member of `struct SOUND`: a 32-bit
data register, a 32-entry byte buffer, and read/write/size counters. -/
structure Fifo where
  reg : Nat
  capacity : Nat → Nat
  readIdx : Nat
  writeIdx : Nat
  size : Nat

/-- Per-channel APU state, from `channelState` in `apu.h`.  The C source
declares `samples`, `lengthTime`, `sweepTime` and `envelopeTime` as
`double`; the only operations on them reached from the embedded code
(the `channelNReset` functions) store zero, so they are modelled as
`Int` here. -/
structure ChannelState where
  phase : Nat
  lfsr : Nat
  samples : Int
  lengthTime : Int
  sweepTime : Int
  envelopeTime : Int

/-- Complete emulator state: the two process-wide singletons `cpu`
(`cpuCore`, `cpu.h`) and `mem` (`memoryCore`, `memory.h`) together with
the file-scope globals of `memory.c`, `dma.h`, `memory.h` and `ppu.h`
(`flashBank`, `modeFlash`, `timerTemps`, `dmaSrc`, ... ).  C arrays are
functions from the index; only in-bounds indices are ever used, except
for `regsUND` where the source itself writes index 2 of a 2-element
array (see `regToBank`), so `regsUND` is kept as an unbounded map. -/
structure Emu where
  -- cpuCore
  regs : Nat → Nat
  regsFIQ : Nat → Nat
  regsSVC : Nat → Nat
  regsABT : Nat → Nat
  regsIRQ : Nat → Nat
  regsUND : Nat → Nat
  cpsr : Nat
  spsr_fiq : Nat
  spsr_svc : Nat
  spsr_abt : Nat
  spsr_irq : Nat
  spsr_und : Nat
  carry : Nat
  pipeline : Nat
  cycle : Nat
  -- memoryCore: raw memories
  bios : Nat → Nat
  eWRAM : Nat → Nat
  iWRAM : Nat → Nat
  palRAM : Nat → Nat
  vram : Nat → Nat
  oam : Nat → Nat
  rom : Nat → Nat
  palette : Nat → Nat
  internalPX : Nat → Nat
  internalPY : Nat → Nat
  biosBus : Nat
  -- memoryCore: struct LCD
  dispcnt : Nat
  greenswp : Nat
  dispstat : Nat
  vcount : Nat
  bgcnt : Nat → Nat
  bghofs : Nat → Nat
  bgvofs : Nat → Nat
  bgpa : Nat → Nat
  bgpb : Nat → Nat
  bgpc : Nat → Nat
  bgpd : Nat → Nat
  bgx : Nat → Nat
  bgy : Nat → Nat
  winh : Nat → Nat
  winv : Nat → Nat
  winin : Nat
  winout : Nat
  mosaic : Nat
  bldcnt : Nat
  bldalpha : Nat
  bldy : Nat
  -- memoryCore: struct SOUND
  sound1cnt_l : Nat
  sound1cnt_h : Nat
  sound1cnt_x : Nat
  sound2cnt_l : Nat
  sound2cnt_h : Nat
  sound3cnt_l : Nat
  sound3cnt_h : Nat
  sound3cnt_x : Nat
  sound4cnt_l : Nat
  sound4cnt_h : Nat
  soundcnt_l : Nat
  soundcnt_h : Nat
  soundcnt_x : Nat
  soundbias : Nat
  waveRam : Nat → Nat → Nat
  fifos : Nat → Fifo
  -- memoryCore: timers and DMA register files
  timers : Nat → Timer
  dmaRegs : Nat → DmaChan
  -- memoryCore: struct COMM, struct KEYPAD
  siocnt : Nat
  rcnt : Nat
  keyinput : Nat
  keycnt : Nat
  -- memoryCore: struct IWPDC
  ime : Nat
  ie : Nat
  i_f : Nat
  waitcnt : Nat
  postflag : Nat
  haltcnt : Nat
  -- globals of dma.h
  dmaSrc : Nat → Nat
  dmaDest : Nat → Nat
  dmaCount : Nat → Nat
  -- globals of memory.h / memory.c
  timerTemps : Nat → Nat
  timerENB : Nat
  sram : Nat → Nat
  flash : Nat → Nat
  eeprom : Nat → Nat
  flashBank : Nat
  modeFlash : FlashMode
  modeIdFlash : Bool
  usedFlash : Bool
  usedEEPROM : Bool
  readEEPROM : Bool
  addrEEPROM : Nat
  readAddrEEPROM : Nat
  buffEEPROM : Nat → Nat
  eepromIdx : Nat
  -- the source compares the decayed `mem->rom` array pointer against
  -- 0x1000000 in the EEPROM guards; the outcome of that pointer
  -- comparison is address dependent, so it is carried as a boolean
  romPtrGt16M : Bool
  -- waitstate tables of memory.c (accessTime16 / accessTime32)
  accessTime16 : Nat → Nat → Nat
  accessTime32 : Nat → Nat → Nat
  -- globals of apu.h / ppu.h
  channelStates : Nat → ChannelState
  fifoSamp : Nat → Nat
  wavePosition : Nat
  waveSamples : Nat

/-- Prescaler shift table of `memory.c`:
`static const Byte pscaleShift[4] = {0, 6, 8, 10}`. -/
def pscaleShift (i : Nat) : Nat :=
  if i = 0 then 0 else if i = 1 then 6 else if i = 2 then 8 else 10

/-- Read from EEPROM (`eepromRead` in `memory.c`).  Returns the byte and
the successor state (the read-mode branch advances `eepromIdx`).  The
source reads the data bit with
`*(Word *)(eeprom[readAddrEEPROM | idx] >> (bit ^ 7)) & 1`, which casts
the shifted byte value to a pointer and dereferences it (undefined
behaviour); the evidently intended bit extraction
`(eeprom[readAddrEEPROM | idx] >> (bit ^ 7)) & 1` is modelled. -/
def eepromRead (s : Emu) (address offset : Nat) : Nat × Emu :=
  if s.usedEEPROM ∧
      ((s.romPtrGt16M ∧ (address >>> 8) = 0x0dffff) ∨
       (¬ s.romPtrGt16M ∧ (address >>> 24) = 0x0000000d)) then
    if offset = 0 then
      let mode := s.buffEEPROM 0 >>> 6
      if mode = 2 then (1, s)
      else if mode = 3 then
        let value :=
          if 4 ≤ s.eepromIdx then
            let idx := ((s.eepromIdx - 4) >>> 3) &&& 7
            let bit := (s.eepromIdx - 4) &&& 7
            (s.eeprom (s.readAddrEEPROM ||| idx) >>> (bit ^^^ 7)) &&& 1
          else 0
        (value, { s with eepromIdx := (s.eepromIdx + 1) &&& 0xFFFF })
      else (0, s)
    else (0, s)
  else
    (s.rom (address &&& 0x1FFFFFF), s)

/-- Read from flash / SRAM backup (`flashRead` in `memory.c`). -/
def flashRead (s : Emu) (address : Nat) : Nat :=
  if s.modeIdFlash then
    if address = 0x0e000000 then 0x62
    else if address = 0x0e000001 then 0x13
    else 0
  else if s.usedFlash then
    s.flash (s.flashBank ||| (address &&& 0xffff))
  else
    s.sram (address &&& 0xffff)

end Gba

namespace Gba

/-- Address of the LCD control register and friends (enum `IO_REGS`,
`memory.h`).  Only the registers the embedded dispatchers mention are
named here; values are the GBA I/O addresses from the source. -/
def REG_DISPCNT : Nat := 0x04000000

def REG_GREENSWP : Nat := 0x04000002

def REG_DISPSTAT : Nat := 0x04000004

def REG_VCOUNT : Nat := 0x04000006

def REG_BG0CNT : Nat := 0x04000008

def REG_BG1CNT : Nat := 0x0400000A

def REG_BG2CNT : Nat := 0x0400000C

def REG_BG3CNT : Nat := 0x0400000E

def REG_BG0HOFS : Nat := 0x04000010

def REG_BG0VOFS : Nat := 0x04000012

def REG_BG1HOFS : Nat := 0x04000014

def REG_BG1VOFS : Nat := 0x04000016

def REG_BG2HOFS : Nat := 0x04000018

def REG_BG2VOFS : Nat := 0x0400001A

def REG_BG3HOFS : Nat := 0x0400001C

def REG_BG3VOFS : Nat := 0x0400001E

def REG_BG2PA : Nat := 0x04000020

def REG_BG2PB : Nat := 0x04000022

def REG_BG2PC : Nat := 0x04000024

def REG_BG2PD : Nat := 0x04000026

def REG_BG2X : Nat := 0x04000028

def REG_BG2Y : Nat := 0x0400002C

def REG_BG3PA : Nat := 0x04000030

def REG_BG3PB : Nat := 0x04000032

def REG_BG3PC : Nat := 0x04000034

def REG_BG3PD : Nat := 0x04000036

def REG_BG3X : Nat := 0x04000038

def REG_BG3Y : Nat := 0x0400003C

def REG_WIN0H : Nat := 0x04000040

def REG_WIN1H : Nat := 0x04000042

def REG_WIN0V : Nat := 0x04000044

def REG_WIN1V : Nat := 0x04000046

def REG_WININ : Nat := 0x04000048

def REG_WINOUT : Nat := 0x0400004A

def REG_MOSAIC : Nat := 0x0400004C

def REG_BLDCNT : Nat := 0x04000050

def REG_BLDALPHA : Nat := 0x04000052

def REG_BLDY : Nat := 0x04000054

def REG_SOUND1CNT_L : Nat := 0x04000060

def REG_SOUND1CNT_H : Nat := 0x04000062

def REG_SOUND1CNT_X : Nat := 0x04000064

def REG_SOUND2CNT_L : Nat := 0x04000068

def REG_SOUND2CNT_H : Nat := 0x0400006C

def REG_SOUND3CNT_L : Nat := 0x04000070

def REG_SOUND3CNT_H : Nat := 0x04000072

def REG_SOUND3CNT_X : Nat := 0x04000074

def REG_SOUND4CNT_L : Nat := 0x04000078

def REG_SOUND4CNT_H : Nat := 0x0400007C

def REG_SOUNDCNT_L : Nat := 0x04000080

def REG_SOUNDCNT_H : Nat := 0x04000082

def REG_SOUNDCNT_X : Nat := 0x04000084

def REG_SOUNDBIAS : Nat := 0x04000088

def REG_WAVE_RAM0 : Nat := 0x04000090

def REG_WAVE_RAM1 : Nat := 0x04000094

def REG_WAVE_RAM2 : Nat := 0x04000098

def REG_WAVE_RAM3 : Nat := 0x0400009C

def REG_FIFO_A_L : Nat := 0x040000A0

def REG_FIFO_A_H : Nat := 0x040000A2

def REG_FIFO_B_L : Nat := 0x040000A4

def REG_FIFO_B_H : Nat := 0x040000A6

def REG_DMA0SAD : Nat := 0x040000B0

def REG_DMA0DAD : Nat := 0x040000B4

def REG_DMA0CNT_L : Nat := 0x040000B8

def REG_DMA0CNT_H : Nat := 0x040000BA

def REG_DMA1SAD : Nat := 0x040000BC

def REG_DMA1DAD : Nat := 0x040000C0

def REG_DMA1CNT_L : Nat := 0x040000C4

def REG_DMA1CNT_H : Nat := 0x040000C6

def REG_DMA2SAD : Nat := 0x040000C8

def REG_DMA2DAD : Nat := 0x040000CC

def REG_DMA2CNT_L : Nat := 0x040000D0

def REG_DMA2CNT_H : Nat := 0x040000D2

def REG_DMA3SAD : Nat := 0x040000D4

def REG_DMA3DAD : Nat := 0x040000D8

def REG_DMA3CNT_L : Nat := 0x040000DC

def REG_DMA3CNT_H : Nat := 0x040000DE

def REG_TM0CNT_L : Nat := 0x04000100

def REG_TM0CNT_H : Nat := 0x04000102

def REG_TM1CNT_L : Nat := 0x04000104

def REG_TM1CNT_H : Nat := 0x04000106

def REG_TM2CNT_L : Nat := 0x04000108

def REG_TM2CNT_H : Nat := 0x0400010A

def REG_TM3CNT_L : Nat := 0x0400010C

def REG_TM3CNT_H : Nat := 0x0400010E

def REG_SIOCNT : Nat := 0x04000128

def REG_KEYINPUT : Nat := 0x04000130

def REG_KEYCNT : Nat := 0x04000132

def REG_RCNT : Nat := 0x04000134

def REG_IE : Nat := 0x04000200

def REG_IF : Nat := 0x04000202

def REG_WAITCNT : Nat := 0x04000204

def REG_IME : Nat := 0x04000208

def REG_POSTFLG : Nat := 0x04000300

def REG_HALTCNT : Nat := 0x04000301

/-- Bank index used by the wave RAM dispatch: the source indexes
`wave_ram[!mem->sound.sound3cnt_l.bits.number]` where `number` is bit 6
of SOUND3CNT_L. -/
def waveBank (s : Emu) : Nat :=
  if (s.sound3cnt_l >>> 6) &&& 1 = 0 then 1 else 0

/-- Byte read of an I/O register (`memReadIO` in `memory.c`).  Renamed
from `memReadIO` for this development.  Undocumented offsets return 0
(the source also prints a warning). -/
def memReadIo (s : Emu) (addr : Nat) : Nat :=
  if addr = REG_DISPCNT then getByteN s.dispcnt 0
  else if addr = REG_DISPCNT + 1 then getByteN s.dispcnt 1
  else if addr = REG_GREENSWP then getByteN s.greenswp 0
  else if addr = REG_GREENSWP + 1 then getByteN s.greenswp 1
  else if addr = REG_DISPSTAT then getByteN s.dispstat 0
  else if addr = REG_DISPSTAT + 1 then getByteN s.dispstat 1
  else if addr = REG_VCOUNT then getByteN s.vcount 0
  else if addr = REG_VCOUNT + 1 then getByteN s.vcount 1
  else if addr = REG_BG0CNT then getByteN (s.bgcnt 0) 0
  else if addr = REG_BG0CNT + 1 then getByteN (s.bgcnt 0) 1
  else if addr = REG_BG1CNT then getByteN (s.bgcnt 1) 0
  else if addr = REG_BG1CNT + 1 then getByteN (s.bgcnt 1) 1
  else if addr = REG_BG2CNT then getByteN (s.bgcnt 2) 0
  else if addr = REG_BG2CNT + 1 then getByteN (s.bgcnt 2) 1
  else if addr = REG_BG3CNT then getByteN (s.bgcnt 3) 0
  else if addr = REG_BG3CNT + 1 then getByteN (s.bgcnt 3) 1
  else if addr = REG_WININ then getByteN s.winin 0
  else if addr = REG_WININ + 1 then getByteN s.winin 1
  else if addr = REG_WINOUT then getByteN s.winout 0
  else if addr = REG_WINOUT + 1 then getByteN s.winout 1
  else if addr = REG_BLDCNT then getByteN s.bldcnt 0
  else if addr = REG_BLDCNT + 1 then getByteN s.bldcnt 1
  else if addr = REG_BLDALPHA then getByteN s.bldalpha 0
  else if addr = REG_BLDALPHA + 1 then getByteN s.bldalpha 1
  else if addr = REG_SOUND1CNT_L then getByteN s.sound1cnt_l 0
  else if addr = REG_SOUND1CNT_L + 1 then getByteN s.sound1cnt_l 1
  else if addr = REG_SOUND1CNT_H then getByteN s.sound1cnt_h 0 &&& 0xC0
  else if addr = REG_SOUND1CNT_H + 1 then getByteN s.sound1cnt_h 1
  else if addr = REG_SOUND1CNT_X + 1 then getByteN s.sound1cnt_x 1 &&& 0x40
  else if addr = REG_SOUND2CNT_L then getByteN s.sound2cnt_l 0 &&& 0xC0
  else if addr = REG_SOUND2CNT_L + 1 then getByteN s.sound2cnt_l 1
  else if addr = REG_SOUND2CNT_H + 1 then getByteN s.sound2cnt_h 1 &&& 0x40
  else if addr = REG_SOUND3CNT_L then getByteN s.sound3cnt_l 0 &&& 0xE0
  else if addr = REG_SOUND3CNT_H + 1 then getByteN s.sound3cnt_h 1 &&& 0xE0
  else if addr = REG_SOUND3CNT_X + 1 then getByteN s.sound3cnt_x 1 &&& 0x40
  else if addr = REG_SOUND4CNT_L + 1 then getByteN s.sound4cnt_l 1
  else if addr = REG_SOUND4CNT_H then getByteN s.sound4cnt_h 0
  else if addr = REG_SOUND4CNT_H + 1 then getByteN s.sound4cnt_h 1 &&& 0x40
  else if addr = REG_SOUNDCNT_L then getByteN s.soundcnt_l 0
  else if addr = REG_SOUNDCNT_L + 1 then getByteN s.soundcnt_l 1
  else if addr = REG_SOUNDCNT_H then getByteN s.soundcnt_h 0
  else if addr = REG_SOUNDCNT_H + 1 then getByteN s.soundcnt_h 1
  else if addr = REG_SOUNDCNT_X then getByteN s.soundcnt_x 0 &&& 0x8F
  else if addr = REG_SOUNDBIAS then getByteN s.soundbias 0
  else if addr = REG_SOUNDBIAS + 1 then getByteN s.soundbias 1
  else if addr = REG_WAVE_RAM0 then getByteN (s.waveRam (waveBank s) 0) 0
  else if addr = REG_WAVE_RAM0 + 1 then getByteN (s.waveRam (waveBank s) 0) 1
  else if addr = REG_WAVE_RAM0 + 2 then getByteN (s.waveRam (waveBank s) 1) 0
  else if addr = REG_WAVE_RAM0 + 3 then getByteN (s.waveRam (waveBank s) 1) 1
  else if addr = REG_WAVE_RAM1 then getByteN (s.waveRam (waveBank s) 2) 0
  else if addr = REG_WAVE_RAM1 + 1 then getByteN (s.waveRam (waveBank s) 2) 1
  else if addr = REG_WAVE_RAM1 + 2 then getByteN (s.waveRam (waveBank s) 3) 0
  else if addr = REG_WAVE_RAM1 + 3 then getByteN (s.waveRam (waveBank s) 3) 1
  else if addr = REG_WAVE_RAM2 then getByteN (s.waveRam (waveBank s) 4) 0
  else if addr = REG_WAVE_RAM2 + 1 then getByteN (s.waveRam (waveBank s) 4) 1
  else if addr = REG_WAVE_RAM2 + 2 then getByteN (s.waveRam (waveBank s) 5) 0
  else if addr = REG_WAVE_RAM2 + 3 then getByteN (s.waveRam (waveBank s) 5) 1
  else if addr = REG_WAVE_RAM3 then getByteN (s.waveRam (waveBank s) 6) 0
  else if addr = REG_WAVE_RAM3 + 1 then getByteN (s.waveRam (waveBank s) 6) 1
  else if addr = REG_WAVE_RAM3 + 2 then getByteN (s.waveRam (waveBank s) 7) 0
  else if addr = REG_WAVE_RAM3 + 3 then getByteN (s.waveRam (waveBank s) 7) 1
  else if addr = REG_DMA0CNT_H then getByteN (s.dmaRegs 0).control 0
  else if addr = REG_DMA0CNT_H + 1 then getByteN (s.dmaRegs 0).control 1
  else if addr = REG_DMA1CNT_H then getByteN (s.dmaRegs 1).control 0
  else if addr = REG_DMA1CNT_H + 1 then getByteN (s.dmaRegs 1).control 1
  else if addr = REG_DMA2CNT_H then getByteN (s.dmaRegs 2).control 0
  else if addr = REG_DMA2CNT_H + 1 then getByteN (s.dmaRegs 2).control 1
  else if addr = REG_DMA3CNT_H then getByteN (s.dmaRegs 3).control 0
  else if addr = REG_DMA3CNT_H + 1 then getByteN (s.dmaRegs 3).control 1
  else if addr = REG_TM0CNT_L then getByteN (s.timers 0).counter 0
  else if addr = REG_TM0CNT_L + 1 then getByteN (s.timers 0).counter 1
  else if addr = REG_TM0CNT_H then getByteN (s.timers 0).control 0
  else if addr = REG_TM1CNT_L then getByteN (s.timers 1).counter 0
  else if addr = REG_TM1CNT_L + 1 then getByteN (s.timers 1).counter 1
  else if addr = REG_TM1CNT_H then getByteN (s.timers 1).control 0
  else if addr = REG_TM2CNT_L then getByteN (s.timers 2).counter 0
  else if addr = REG_TM2CNT_L + 1 then getByteN (s.timers 2).counter 1
  else if addr = REG_TM2CNT_H then getByteN (s.timers 2).control 0
  else if addr = REG_TM3CNT_L then getByteN (s.timers 3).counter 0
  else if addr = REG_TM3CNT_L + 1 then getByteN (s.timers 3).counter 1
  else if addr = REG_TM3CNT_H then getByteN (s.timers 3).control 0
  else if addr = REG_KEYINPUT then getByteN s.keyinput 0
  else if addr = REG_KEYINPUT + 1 then getByteN s.keyinput 1
  else if addr = REG_KEYCNT then getByteN s.keycnt 0
  else if addr = REG_KEYCNT + 1 then getByteN s.keycnt 1
  else if addr = REG_SIOCNT then getByteN s.siocnt 0
  else if addr = REG_SIOCNT + 1 then getByteN s.siocnt 1
  else if addr = REG_RCNT then getByteN s.rcnt 0
  else if addr = REG_RCNT + 1 then getByteN s.rcnt 1
  else if addr = REG_IE then getByteN s.ie 0
  else if addr = REG_IE + 1 then getByteN s.ie 1
  else if addr = REG_IF then getByteN s.i_f 0
  else if addr = REG_IF + 1 then getByteN s.i_f 1
  else if addr = REG_WAITCNT then getByteN s.waitcnt 0
  else if addr = REG_WAITCNT + 1 then getByteN s.waitcnt 1
  else if addr = REG_IME then getByteN s.ime 0
  else if addr = REG_POSTFLG then s.postflag
  else 0

/-- Mirror mask applied to VRAM offsets: the source masks with 0x17FFF
when bit 16 of the address is set, else with 0x1FFFF. -/
def vramIdx (addr : Nat) : Nat :=
  addr &&& (if addr &&& 0x10000 ≠ 0 then 0x17fff else 0x1ffff)

/-- Word read from the bus (`memReadWord` in `memory.c`): aligns the
address down to 4, dispatches on the full top byte of the address, and
returns 0 for an unhandled top byte.  Returns the value together with
the successor state (only the EEPROM branch can mutate state). -/
def memReadWord (addr0 : Nat) (s : Emu) : Nat × Emu :=
  let addr := (addr0 &&& 0xFFFFFFFF) &&& 0xFFFFFFFC
  let tb := (addr >>> 24) &&& 0xFF
  if tb = 0x00 then
    if (addr ||| s.regs 15) < 0x4000 then (read32 s.bios (addr &&& 0x3FFF), s)
    else (s.biosBus, s)
  else if tb = 0x02 then (read32 s.eWRAM (addr &&& 0x3FFFF), s)
  else if tb = 0x03 then (read32 s.iWRAM (addr &&& 0x7FFF), s)
  else if tb = 0x04 then
    (memReadIo s (addr + 0) ||| (memReadIo s (addr + 1) <<< 8) |||
      (memReadIo s (addr + 2) <<< 16) ||| (memReadIo s (addr + 3) <<< 24), s)
  else if tb = 0x05 then (read32 s.palRAM (addr &&& 0x3FF), s)
  else if tb = 0x06 then (read32 s.vram (vramIdx addr), s)
  else if tb = 0x07 then (read32 s.oam (addr &&& 0x3FF), s)
  else if tb = 0x08 ∨ tb = 0x09 ∨ tb = 0x0A ∨ tb = 0x0B then
    (read32 s.rom (addr &&& 0x1FFFFFF), s)
  else if tb = 0x0C ∨ tb = 0x0D then
    let (b0, s0) := eepromRead s (addr ||| 0) 0
    let (b1, s1) := eepromRead s0 (addr ||| 1) 1
    let (b2, s2) := eepromRead s1 (addr ||| 2) 2
    let (b3, s3) := eepromRead s2 (addr ||| 3) 3
    ((b0 &&& 0xFF) ||| ((b1 &&& 0xFF) <<< 8) ||| ((b2 &&& 0xFF) <<< 16) |||
      ((b3 &&& 0xFF) <<< 24), s3)
  else if tb = 0x0E ∨ tb = 0x0F then
    (flashRead s (addr ||| 0) ||| (flashRead s (addr ||| 1) <<< 8) |||
      (flashRead s (addr ||| 2) <<< 16) ||| (flashRead s (addr ||| 3) <<< 24), s)
  else (0, s)

/-- Halfword read from the bus (`memReadHalfWord` in `memory.c`). -/
def memReadHalfWord (addr0 : Nat) (s : Emu) : Nat × Emu :=
  let addr := (addr0 &&& 0xFFFFFFFF) &&& 0xFFFFFFFE
  let tb := (addr >>> 24) &&& 0xFF
  if tb = 0x00 then
    if (addr ||| s.regs 15) < 0x4000 then (read16 s.bios (addr &&& 0x3FFF), s)
    else (s.biosBus &&& 0xFFFF, s)
  else if tb = 0x02 then (read16 s.eWRAM (addr &&& 0x3FFFF), s)
  else if tb = 0x03 then (read16 s.iWRAM (addr &&& 0x7FFF), s)
  else if tb = 0x04 then
    (memReadIo s (addr + 0) ||| (memReadIo s (addr + 1) <<< 8), s)
  else if tb = 0x05 then (read16 s.palRAM (addr &&& 0x3FF), s)
  else if tb = 0x06 then (read16 s.vram (vramIdx addr), s)
  else if tb = 0x07 then (read16 s.oam (addr &&& 0x3FF), s)
  else if tb = 0x08 ∨ tb = 0x09 ∨ tb = 0x0A ∨ tb = 0x0B then
    (read16 s.rom (addr &&& 0x1FFFFFF), s)
  else if tb = 0x0C ∨ tb = 0x0D then
    let (b0, s0) := eepromRead s (addr ||| 0) 0
    let (b1, s1) := eepromRead s0 (addr ||| 1) 1
    ((b0 &&& 0xFF) ||| ((b1 &&& 0xFF) <<< 8), s1)
  else if tb = 0x0E ∨ tb = 0x0F then
    (flashRead s (addr ||| 0) ||| (flashRead s (addr ||| 1) <<< 8), s)
  else (0, s)

/-- Byte read from the bus (`memReadByte` in `memory.c`). -/
def memReadByte (addr0 : Nat) (s : Emu) : Nat × Emu :=
  let addr := addr0 &&& 0xFFFFFFFF
  let tb := (addr >>> 24) &&& 0xFF
  if tb = 0x00 then
    if (addr ||| s.regs 15) < 0x4000 then (s.bios (addr &&& 0x3FFF), s)
    else (s.biosBus &&& 0xFF, s)
  else if tb = 0x02 then (s.eWRAM (addr &&& 0x3FFFF), s)
  else if tb = 0x03 then (s.iWRAM (addr &&& 0x7FFF), s)
  else if tb = 0x04 then (memReadIo s (addr + 0), s)
  else if tb = 0x05 then (s.palRAM (addr &&& 0x3FF), s)
  else if tb = 0x06 then (s.vram (vramIdx addr), s)
  else if tb = 0x07 then (s.oam (addr &&& 0x3FF), s)
  else if tb = 0x08 ∨ tb = 0x09 ∨ tb = 0x0A ∨ tb = 0x0B then
    (s.rom (addr &&& 0x1FFFFFF), s)
  else if tb = 0x0C ∨ tb = 0x0D then
    let (b0, s0) := eepromRead s (addr ||| 0) 0
    (b0 &&& 0xFF, s0)
  else if tb = 0x0E ∨ tb = 0x0F then (flashRead s (addr ||| 0), s)
  else (0, s)

end Gba

namespace Gba

/-- Map helper: erase loop of `flashWrite`: `count` consecutive flash
bytes starting at offset `lo` inside bank `bank` are set to 0xFF
(`flash[bank | idx] = 0xff`). -/
def flashEraseLoop (fl : Nat → Nat) (bank lo : Nat) : Nat → (Nat → Nat)
  | 0 => fl
  | n + 1 => Function.update (flashEraseLoop fl bank lo n) (bank ||| (lo + n)) 0xFF

/-- Write to flash / SRAM backup (`flashWrite` in `memory.c`).  Note the
final unconditional `sram[address & 0xffff] = value` of the source. -/
def flashWrite (s : Emu) (address value : Nat) : Emu :=
  let s1 :=
    if s.modeFlash = FlashMode.WRITE then
      { s with flash := Function.update s.flash (s.flashBank ||| (address &&& 0xffff)) (value &&& 0xFF)
               modeFlash := FlashMode.IDLE }
    else if s.modeFlash = FlashMode.BANK_SWITCH ∧ address = 0x0e000000 then
      { s with flashBank := ((value &&& 1) <<< 16) &&& 0xFFFFFFFF
               modeFlash := FlashMode.IDLE }
    else if s.sram 0x5555 = 0xaa ∧ s.sram 0x2aaa = 0x55 then
      if address = 0x0e005555 then
        let s2 :=
          if value = 0x10 then
            if s.modeFlash = FlashMode.ERASE then
              { s with flash := flashEraseLoop s.flash 0 0 0x20000
                       modeFlash := FlashMode.IDLE }
            else s
          else if value = 0x80 then { s with modeFlash := FlashMode.ERASE }
          else if value = 0x90 then { s with modeIdFlash := true }
          else if value = 0xa0 then { s with modeFlash := FlashMode.WRITE }
          else if value = 0xb0 then { s with modeFlash := FlashMode.BANK_SWITCH }
          else if value = 0xf0 then { s with modeIdFlash := false }
          else s
        if s2.modeFlash ≠ FlashMode.IDLE ∨ s2.modeIdFlash then
          { s2 with usedFlash := true }
        else s2
      else if s.modeFlash = FlashMode.ERASE ∧ value = 0x30 then
        let bankS := address &&& 0xf000
        { s with flash := flashEraseLoop s.flash s.flashBank bankS 0x1000
                 modeFlash := FlashMode.IDLE }
      else s
    else s
  { s1 with sram := Function.update s1.sram (address &&& 0xffff) (value &&& 0xFF) }

/-- Map helper: little-endian 64-bit read from a byte map
(`*(DWord *)(buff + i)`). -/
def read64 (m : Nat → Nat) (i : Nat) : Nat :=
  read32 m i ||| (read32 m (i + 4) <<< 32)

/-- Map helper: little-endian 64-bit store into a byte map. -/
def write64 (m : Nat → Nat) (i v : Nat) : Nat → Nat :=
  write32 (write32 m i (v &&& 0xFFFFFFFF)) (i + 4) ((v >>> 32) &&& 0xFFFFFFFF)

/-- Write one serial bit to EEPROM (`eepromWrite` in `memory.c`). -/
def eepromWrite (s : Emu) (address offset value : Nat) : Emu :=
  if offset = 0 ∧
      ((s.romPtrGt16M ∧ (address >>> 8) = 0x0dffff) ∨
       (¬ s.romPtrGt16M ∧ (address >>> 24) = 0x0000000d)) then
    let s1 :=
      if s.eepromIdx = 0 then
        { s with readEEPROM := false, buffEEPROM := fun _ => 0 }
      else s
    let idx := (s1.eepromIdx >>> 3) &&& 0xff
    let bit := s1.eepromIdx &&& 0x7
    let buf := Function.update s1.buffEEPROM idx
      ((s1.buffEEPROM idx ||| ((value &&& 1) <<< (bit ^^^ 7))) &&& 0xFF)
    let s2 := { s1 with buffEEPROM := buf }
    let newIdx := (s2.eepromIdx + 1) &&& 0xFFFF
    let s3 := { s2 with eepromIdx := newIdx }
    let s4 :=
      if newIdx = (s3.dmaRegs 3).count then
        let mode := s3.buffEEPROM 0 >>> 6
        if mode &&& 3 ≠ 0 then
          let eep512 := newIdx = 2 + 6 + (if mode = 2 then 64 else 0) + 1
          let a0 :=
            if eep512 then s3.buffEEPROM 0 &&& 0x3f
            else ((s3.buffEEPROM 0 &&& 0x3f) <<< 8) ||| s3.buffEEPROM 1
          let a1 := (a0 <<< 3) &&& 0xFFFFFFFF
          let s5 := { s3 with addrEEPROM := a1 }
          if mode = 2 then
            let buffAddr := if eep512 then 1 else 2
            let v64 := read64 s5.buffEEPROM buffAddr
            { s5 with eeprom := write64 s5.eeprom a1 v64, eepromIdx := 0 }
          else
            { s5 with readAddrEEPROM := a1, eepromIdx := 0 }
        else s3
      else s3
    { s4 with usedEEPROM := true }
  else s

/-- Raise an interrupt request (`triggerIRQ` in `memory.c`): OR the flag
into REG_IF and clear the power-down (halt) bit of HALTCNT. -/
def triggerIRQ (flag : Nat) (s : Emu) : Emu :=
  { s with i_f := (s.i_f ||| (flag &&& 0xFFFF)) &&& 0xFFFF
           haltcnt := s.haltcnt &&& 0x7F }

/-- Write the low control byte of a timer (`memWriteTimer` in
`memory.c`): stores the byte, maintains the `timerENB` bit mask, and on
an enable flip from 0 to 1 reloads the counter and clears the prescaler
accumulator. -/
def memWriteTimer (timerId byte : Nat) (s : Emu) : Emu :=
  let t := s.timers timerId
  let old := getByteN t.control 0
  let t1 := { t with control := setByteN t.control 0 byte &&& 0xFFFF }
  let enb :=
    if byte &&& 0x80 ≠ 0 then (s.timerENB ||| (1 <<< timerId)) &&& 0xFF
    else s.timerENB &&& ((1 <<< timerId) ^^^ 0xFF)
  let s1 := { s with timers := Function.update s.timers timerId t1, timerENB := enb }
  if (old ^^^ byte) &&& byte &&& 0x80 ≠ 0 then
    { s1 with
      timers := Function.update s1.timers timerId { t1 with counter := t1.reload &&& 0xFFFF }
      timerTemps := Function.update s1.timerTemps timerId 0 }
  else s1

/-- First-access cartridge waitstates (`gameNonSeq` in `memory.c`). -/
def gameNonSeq (i : Nat) : Nat :=
  if i = 0 then 4 else if i = 1 then 3 else if i = 2 then 2 else 8

/-- Refresh the waitstate tables from REG_WAITCNT (`updateWait` in
`memory.c`).  The table rows are indexed by sequential flag then by the
top byte of the region. -/
def updateWait (s : Emu) : Emu :=
  let ws01 := (s.waitcnt >>> 2) &&& 3
  let ws02 := (s.waitcnt >>> 4) &&& 1
  let ws11 := (s.waitcnt >>> 5) &&& 3
  let ws12 := (s.waitcnt >>> 7) &&& 1
  let ws21 := (s.waitcnt >>> 8) &&& 3
  let ws22 := (s.waitcnt >>> 10) &&& 1
  let sramWait := s.waitcnt &&& 3
  let t16n := fun x =>
    if x = 0x8 ∨ x = 0x9 then 1 + gameNonSeq ws01
    else if x = 0xA ∨ x = 0xB then 1 + gameNonSeq ws11
    else if x = 0xC ∨ x = 0xD then 1 + gameNonSeq ws21
    else if x = 0xE then 1 + gameNonSeq sramWait
    else s.accessTime16 0 x
  let t16s := fun x =>
    if x = 0x8 ∨ x = 0x9 then 1 + (if ws02 ≠ 0 then 1 else 2)
    else if x = 0xA ∨ x = 0xB then 1 + (if ws12 ≠ 0 then 1 else 4)
    else if x = 0xC ∨ x = 0xD then 1 + (if ws22 ≠ 0 then 1 else 8)
    else if x = 0xE then 1 + gameNonSeq sramWait
    else s.accessTime16 1 x
  let t16 := fun i x => if i = 0 then t16n x else if i = 1 then t16s x else s.accessTime16 i x
  let t32 := fun i x =>
    if 0x8 ≤ x ∧ x ≤ 0xE then
      if i = 0 then t16n x + t16s x
      else if i = 1 then 2 * t16s x
      else s.accessTime32 i x
    else s.accessTime32 i x
  { s with accessTime16 := t16, accessTime32 := t32 }

/-- Append the FIFO data register to a FIFO buffer (`fifoCopy` in
`ppu.h`).  The source copies `reg.bytes[0]`, `reg.bytes[1]`,
`reg.bytes[3]` and `reg.bytes[4]`; `bytes[4]` is one past the 4-byte
register (it reads adjacent struct memory), modelled here as byte 4 of
the 32-bit register value, which is zero. -/
def fifoCopy (id : Nat) (s : Emu) : Emu :=
  let f := s.fifos id
  if f.size + 4 > 32 then s
  else
    let cap := Function.update (Function.update (Function.update (Function.update
      f.capacity f.size (getByteN f.reg 0)) (f.size + 1) (getByteN f.reg 1))
      (f.size + 2) (getByteN f.reg 3)) (f.size + 3) (getByteN f.reg 4)
    { s with fifos := Function.update s.fifos id { f with capacity := cap, size := f.size + 4 } }

/-- Pop the front sample of a FIFO into `fifoSamp` (`fifoLoad` in
`ppu.h`): the source shifts `capacity[i] = capacity[i + 1]` for
`i < size - 1` in increasing order, which is the parallel left shift
modelled here. -/
def fifoLoad (id : Nat) (s : Emu) : Emu :=
  let f := s.fifos id
  if f.size ≠ 0 then
    let newSize := f.size - 1
    let cap := fun i => if i < newSize then f.capacity (i + 1) else f.capacity i
    { s with
      fifoSamp := Function.update s.fifoSamp id (f.capacity 0)
      fifos := Function.update s.fifos id { f with capacity := cap, size := newSize } }
  else s

/-- Clear a FIFO (`fifoReset` in `ppu.h`, a `memset` of the struct). -/
def fifoReset (id : Nat) (s : Emu) : Emu :=
  { s with fifos := Function.update s.fifos id ⟨0, fun _ => 0, 0, 0, 0⟩ }

/-- Reset sound channel 1 (`channel1Reset` in `ppu.h`): clear the
Initial bit of SOUND1CNT_X and the channel-1 status bit, and zero the
channel state (the LFSR field is not touched by the source). -/
def channel1Reset (s : Emu) : Emu :=
  let c := s.channelStates 0
  { s with
    sound1cnt_x := s.sound1cnt_x &&& (0xFFFFFFFF ^^^ 0x8000)
    soundcnt_x := s.soundcnt_x &&& (0xFFFFFFFF ^^^ 0x1)
    channelStates := Function.update s.channelStates 0
      { c with envelopeTime := 0, lengthTime := 0, phase := 0, samples := 0, sweepTime := 0 } }

/-- Reset sound channel 2 (`channel2Reset` in `ppu.h`). -/
def channel2Reset (s : Emu) : Emu :=
  let c := s.channelStates 1
  { s with
    sound2cnt_h := s.sound2cnt_h &&& (0xFFFFFFFF ^^^ 0x8000)
    soundcnt_x := s.soundcnt_x &&& (0xFFFFFFFF ^^^ 0x2)
    channelStates := Function.update s.channelStates 1
      { c with envelopeTime := 0, lengthTime := 0, phase := 0, samples := 0, sweepTime := 0 } }

/-- Reset sound channel 3 (`channel3Reset` in `ppu.h`), including the
wave position bookkeeping driven by the Wave RAM dimension bit. -/
def channel3Reset (s : Emu) : Emu :=
  let c := s.channelStates 2
  let s1 := { s with
    sound3cnt_x := s.sound3cnt_x &&& (0xFFFFFFFF ^^^ 0x8000)
    soundcnt_x := s.soundcnt_x &&& (0xFFFFFFFF ^^^ 0x4)
    channelStates := Function.update s.channelStates 2
      { c with envelopeTime := 0, lengthTime := 0, phase := 0, samples := 0, sweepTime := 0 } }
  if (s.sound3cnt_l >>> 5) &&& 1 ≠ 0 then
    { s1 with wavePosition := 0, waveSamples := 64 }
  else
    { s1 with wavePosition := (s.sound3cnt_l >>> 1) &&& 0x20, waveSamples := 32 }

/-- Reset sound channel 4 (`channel4Reset` in `ppu.h`). -/
def channel4Reset (s : Emu) : Emu :=
  let c := s.channelStates 3
  { s with
    sound4cnt_h := s.sound4cnt_h &&& (0xFFFFFFFF ^^^ 0x8000)
    soundcnt_x := s.soundcnt_x &&& (0xFFFFFFFF ^^^ 0x8)
    channelStates := Function.update s.channelStates 3
      { c with envelopeTime := 0, lengthTime := 0, phase := 0, samples := 0, sweepTime := 0 } }

end Gba

namespace Gba

/-- CPU mode number USER = 0x10 (enum `CPU_MODE` in `cpu.h`). -/
def USER : Nat := 0x10

/-- CPU mode number FIQ = 0x11. -/
def FIQ : Nat := 0x11

/-- CPU mode number IRQ = 0x12. -/
def IRQ : Nat := 0x12

/-- CPU mode number SVC = 0x13. -/
def SVC : Nat := 0x13

/-- CPU mode number ABT = 0x17. -/
def ABT : Nat := 0x17

/-- CPU mode number UNDEF = 0x1B. -/
def UNDEF : Nat := 0x1B

/-- CPU mode number SYSTEM = 0x1F. -/
def SYSTEM : Nat := 0x1F

/-- ARM exception vector for IRQ (cpu.h `ARM_VEC_IRQ`). -/
def ARM_VEC_IRQ : Nat := 0x18

/-- ARM exception vector for reset. -/
def ARM_VEC_RESET : Nat := 0x00

/-- ARM exception vector for undefined instructions. -/
def ARM_VEC_UND : Nat := 0x04

/-- ARM exception vector for software interrupts. -/
def ARM_VEC_SVC : Nat := 0x08

/-- ARM exception vector for FIQ. -/
def ARM_VEC_FIQ : Nat := 0x1c

/-- Current 5-bit processor mode (`PROCESSOR_MODE` macro, `cpu.c`). -/
def processorMode (s : Emu) : Nat := s.cpsr &&& 0x1F

/-- Thumb-state test (`cpuInThumb` / `THUMB_ACTIVATED` in `cpu.c`): bit 5
of CPSR. -/
def cpuInThumb (s : Emu) : Bool := s.cpsr &&& (1 <<< 5) ≠ 0

/-- Active program status register (`getPSR` in `cpu.c`): the CPSR in
USER/SYSTEM mode, else the SPSR of the current mode; 0 for an invalid
mode field. -/
def getPSR (s : Emu) : Nat :=
  let m := processorMode s
  if m = USER ∨ m = SYSTEM then s.cpsr
  else if m = FIQ then s.spsr_fiq
  else if m = IRQ then s.spsr_irq
  else if m = SVC then s.spsr_svc
  else if m = ABT then s.spsr_abt
  else if m = UNDEF then s.spsr_und
  else 0

/-- Store to the active program status register (`setPSR` in `cpu.c`);
an invalid mode field falls through the switch and changes nothing. -/
def setPSR (val : Nat) (s : Emu) : Emu :=
  let m := processorMode s
  if m = USER ∨ m = SYSTEM then { s with cpsr := val &&& 0xFFFFFFFF }
  else if m = FIQ then { s with spsr_fiq := val &&& 0xFFFFFFFF }
  else if m = IRQ then { s with spsr_irq := val &&& 0xFFFFFFFF }
  else if m = SVC then { s with spsr_svc := val &&& 0xFFFFFFFF }
  else if m = ABT then { s with spsr_abt := val &&& 0xFFFFFFFF }
  else if m = UNDEF then { s with spsr_und := val &&& 0xFFFFFFFF }
  else s

/-- Update the program counter and flush the prefetch latch (`updatePC`
in `cpu.c`). -/
def updatePC (newPC : Nat) (s : Emu) : Emu :=
  { s with regs := Function.update s.regs 15 (newPC &&& 0xFFFFFFFF), pipeline := 0 }

/-- Replace the CPSR mode field (`updateCPUMode` in `cpu.c`). -/
def updateCPUMode (mode : Nat) (s : Emu) : Emu :=
  { s with cpsr := (s.cpsr &&& (0xFFFFFFFF ^^^ 0x1F)) ||| mode }

/-- Read a register through the banking table (`getReg` in `cpu.c`).
Register ids 13 and 14 abort the process for an invalid mode (the
source prints and calls `exit(1)`), modelled as `none`; an id above 15
falls off the end of the C switch, modelled as 0. -/
def getReg (regId : Nat) (s : Emu) : Option Nat :=
  if regId ≤ 7 then some (s.regs regId)
  else if regId ≤ 0xC then
    if processorMode s = FIQ then some (s.regsFIQ (regId - 8))
    else some (s.regs regId)
  else if regId = 0xD then
    let m := processorMode s
    if m = USER ∨ m = SYSTEM then some (s.regs 13)
    else if m = FIQ then some (s.regsFIQ 5)
    else if m = IRQ then some (s.regsIRQ 0)
    else if m = SVC then some (s.regsSVC 0)
    else if m = ABT then some (s.regsABT 0)
    else if m = UNDEF then some (s.regsUND 0)
    else none
  else if regId = 0xE then
    let m := processorMode s
    if m = USER ∨ m = SYSTEM then some (s.regs 14)
    else if m = FIQ then some (s.regsFIQ 6)
    else if m = IRQ then some (s.regsIRQ 1)
    else if m = SVC then some (s.regsSVC 1)
    else if m = ABT then some (s.regsABT 1)
    else if m = UNDEF then some (s.regsUND 1)
    else none
  else if regId = 0xF then some (s.regs 15)
  else some 0

/-- Write a register through the banking table (`setReg` in `cpu.c`); a
write to r15 masks the value by the instruction width and flushes the
prefetch latch. -/
def setReg (regId val0 : Nat) (s : Emu) : Option Emu :=
  let val := val0 &&& 0xFFFFFFFF
  if regId ≤ 7 then some { s with regs := Function.update s.regs regId val }
  else if regId ≤ 0xC then
    if processorMode s = FIQ then
      some { s with regsFIQ := Function.update s.regsFIQ (regId - 8) val }
    else some { s with regs := Function.update s.regs regId val }
  else if regId = 0xD then
    let m := processorMode s
    if m = USER ∨ m = SYSTEM then some { s with regs := Function.update s.regs 13 val }
    else if m = FIQ then some { s with regsFIQ := Function.update s.regsFIQ 5 val }
    else if m = IRQ then some { s with regsIRQ := Function.update s.regsIRQ 0 val }
    else if m = SVC then some { s with regsSVC := Function.update s.regsSVC 0 val }
    else if m = ABT then some { s with regsABT := Function.update s.regsABT 0 val }
    else if m = UNDEF then some { s with regsUND := Function.update s.regsUND 0 val }
    else none
  else if regId = 0xE then
    let m := processorMode s
    if m = USER ∨ m = SYSTEM then some { s with regs := Function.update s.regs 14 val }
    else if m = FIQ then some { s with regsFIQ := Function.update s.regsFIQ 6 val }
    else if m = IRQ then some { s with regsIRQ := Function.update s.regsIRQ 1 val }
    else if m = SVC then some { s with regsSVC := Function.update s.regsSVC 1 val }
    else if m = ABT then some { s with regsABT := Function.update s.regsABT 1 val }
    else if m = UNDEF then some { s with regsUND := Function.update s.regsUND 1 val }
    else none
  else if regId = 0xF then
    some (updatePC (if cpuInThumb s then val &&& 0xFFFFFFFE else val &&& 0xFFFFFFFC) s)
  else some s

/-- Condition flags (enum `Flag` in `cpu.h`). -/
inductive CCFlag where
  | N
  | Z
  | C
  | V
  deriving DecidableEq, Repr

/-- Read a condition flag from the active PSR (`getCC` in `cpu.c`).
Note the source reads `getPSR()`, the SPSR of the current mode when the
mode is privileged. -/
def getCC (cc : CCFlag) (s : Emu) : Bool :=
  match cc with
  | CCFlag.N => (getPSR s >>> 31) &&& 1 = 1
  | CCFlag.Z => (getPSR s >>> 30) &&& 1 = 1
  | CCFlag.C => (getPSR s >>> 29) &&& 1 = 1
  | CCFlag.V => (getPSR s >>> 28) &&& 1 = 1

/-- Update the condition flags of the active PSR (`setCC` in `cpu.c`):
the value 2 (`CC_UNMOD`) leaves a flag untouched, any other nonzero
value sets it, zero clears it. -/
def setCC (n z c v : Nat) (s : Emu) : Emu :=
  let psr := getPSR s
  let psr := if n ≠ 2 then
    (if n ≠ 0 then (1 <<< 31) ||| psr else (0xFFFFFFFF ^^^ (1 <<< 31)) &&& psr)
    else psr
  let psr := if z ≠ 2 then
    (if z ≠ 0 then (1 <<< 30) ||| psr else (0xFFFFFFFF ^^^ (1 <<< 30)) &&& psr)
    else psr
  let psr := if c ≠ 2 then
    (if c ≠ 0 then (1 <<< 29) ||| psr else (0xFFFFFFFF ^^^ (1 <<< 29)) &&& psr)
    else psr
  let psr := if v ≠ 2 then
    (if v ≠ 0 then (1 <<< 28) ||| psr else (0xFFFFFFFF ^^^ (1 <<< 28)) &&& psr)
    else psr
  setPSR psr s

/-- Evaluate an ARM condition code against the active PSR flags
(`evalCond` in `cpu.c`).  Codes 0x0 to 0xE follow the ARM predicate
table; code 0xF falls through the C switch and yields false. -/
def evalCond (opcode : Nat) (s : Emu) : Bool :=
  if opcode = 0x0 then getCC CCFlag.Z s
  else if opcode = 0x1 then ! getCC CCFlag.Z s
  else if opcode = 0x2 then getCC CCFlag.C s
  else if opcode = 0x3 then ! getCC CCFlag.C s
  else if opcode = 0x4 then getCC CCFlag.N s
  else if opcode = 0x5 then ! getCC CCFlag.N s
  else if opcode = 0x6 then getCC CCFlag.V s
  else if opcode = 0x7 then ! getCC CCFlag.V s
  else if opcode = 0x8 then getCC CCFlag.C s && ! getCC CCFlag.Z s
  else if opcode = 0x9 then (! getCC CCFlag.C s) || getCC CCFlag.Z s
  else if opcode = 0xA then getCC CCFlag.N s = getCC CCFlag.V s
  else if opcode = 0xB then getCC CCFlag.N s ≠ getCC CCFlag.V s
  else if opcode = 0xC then (! getCC CCFlag.Z s) && (getCC CCFlag.N s = getCC CCFlag.V s)
  else if opcode = 0xD then getCC CCFlag.Z s || (getCC CCFlag.N s ≠ getCC CCFlag.V s)
  else if opcode = 0xE then true
  else false

/-- Set or clear a CPSR flag bit (`cpuFlagSet` in `cpu.c`). -/
def cpuFlagSet (flag : Nat) (cond : Bool) (s : Emu) : Emu :=
  if cond then { s with cpsr := s.cpsr ||| flag }
  else { s with cpsr := s.cpsr &&& (0xFFFFFFFF ^^^ flag) }

/-- Test a CPSR flag bit (`flagTST` in `cpu.c`). -/
def flagTST (flag : Nat) (s : Emu) : Bool := s.cpsr &&& flag ≠ 0

/-- Copy a mode bank into the live registers (`bankToReg` in `cpu.c`).
UNDEF reads bank indices 0 and 1. -/
def bankToReg (mode : Nat) (s : Emu) : Emu :=
  if mode = FIQ then
    { s with regs := fun i =>
        if i = 8 then s.regsFIQ 0 else if i = 9 then s.regsFIQ 1
        else if i = 10 then s.regsFIQ 2 else if i = 11 then s.regsFIQ 3
        else if i = 12 then s.regsFIQ 4 else if i = 13 then s.regsFIQ 5
        else if i = 14 then s.regsFIQ 6 else s.regs i }
  else if mode = IRQ then
    { s with regs := fun i =>
        if i = 13 then s.regsIRQ 0 else if i = 14 then s.regsIRQ 1 else s.regs i }
  else if mode = SVC then
    { s with regs := fun i =>
        if i = 13 then s.regsSVC 0 else if i = 14 then s.regsSVC 1 else s.regs i }
  else if mode = ABT then
    { s with regs := fun i =>
        if i = 13 then s.regsABT 0 else if i = 14 then s.regsABT 1 else s.regs i }
  else if mode = UNDEF then
    { s with regs := fun i =>
        if i = 13 then s.regsUND 0 else if i = 14 then s.regsUND 1 else s.regs i }
  else s

/-- Save the live registers into a mode bank (`regToBank` in `cpu.c`).
For UNDEF the source writes `regsUND[1] = regs[13]` and
`regsUND[2] = regs[14]`, although `regsUND` is declared with two
elements in `cpuCore`; the out-of-bounds index 2 is representable in
the unbounded `regsUND` map of this model. -/
def regToBank (mode : Nat) (s : Emu) : Emu :=
  if mode = FIQ then
    { s with regsFIQ := fun i =>
        if i = 0 then s.regs 8 else if i = 1 then s.regs 9
        else if i = 2 then s.regs 10 else if i = 3 then s.regs 11
        else if i = 4 then s.regs 12 else if i = 5 then s.regs 13
        else if i = 6 then s.regs 14 else s.regsFIQ i }
  else if mode = IRQ then
    { s with regsIRQ := fun i =>
        if i = 0 then s.regs 13 else if i = 1 then s.regs 14 else s.regsIRQ i }
  else if mode = SVC then
    { s with regsSVC := fun i =>
        if i = 0 then s.regs 13 else if i = 1 then s.regs 14 else s.regsSVC i }
  else if mode = ABT then
    { s with regsABT := fun i =>
        if i = 0 then s.regs 13 else if i = 1 then s.regs 14 else s.regsABT i }
  else if mode = UNDEF then
    { s with regsUND := fun i =>
        if i = 1 then s.regs 13 else if i = 2 then s.regs 14 else s.regsUND i }
  else s

/-- Switch the CPU mode (`cpuModeSet` in `cpu.c`): clear the whole CPSR,
install the new mode bits, save the live registers to the bank of the
old mode, and load the bank of the new mode. -/
def cpuModeSet (mode : Nat) (s : Emu) : Emu :=
  let curr := s.cpsr &&& 0x1f
  let s1 := { s with cpsr := mode }
  bankToReg mode (regToBank curr s1)

/-- Store into the SPSR of the current mode (`setSPSR` in `cpu.c`);
USER/SYSTEM and invalid modes change nothing. -/
def setSPSR (spsr : Nat) (s : Emu) : Emu :=
  let m := s.cpsr &&& 0x1f
  if m = FIQ then { s with spsr_fiq := spsr }
  else if m = IRQ then { s with spsr_irq := spsr }
  else if m = SVC then { s with spsr_svc := spsr }
  else if m = ABT then { s with spsr_abt := spsr }
  else if m = UNDEF then { s with spsr_und := spsr }
  else s

/-- Fetch the next opcode at r15 and advance r15 by the instruction
width (`fetchInstruction` in `cpu.c`). -/
def fetchInstruction (s : Emu) : Nat × Emu :=
  if cpuInThumb s then
    let (instr, s1) := memReadHalfWord (s.regs 15) s
    (instr, { s1 with regs := Function.update s1.regs 15 ((s1.regs 15 + 2) &&& 0xFFFFFFFF) })
  else
    let (instr, s1) := memReadWord (s.regs 15) s
    (instr, { s1 with regs := Function.update s1.regs 15 ((s1.regs 15 + 4) &&& 0xFFFFFFFF) })

/-- Exception entry (`cpuInterrupt` in `cpu.c`): switch mode, save the
old CPSR into the new SPSR, mask FIQs for FIQ/reset vectors, set the
return address, clear Thumb, mask IRQs, jump to the vector and refill
the prefetch latch. -/
def cpuInterrupt (address mode : Nat) (s : Emu) : Emu :=
  let cpsr := s.cpsr
  let s1 := setSPSR cpsr (cpuModeSet mode s)
  let s2 :=
    if address = ARM_VEC_FIQ ∨ address = ARM_VEC_RESET then cpuFlagSet (1 <<< 6) true s1
    else s1
  let s3 :=
    if address = ARM_VEC_UND ∨ address = ARM_VEC_SVC then
      if cpuInThumb s2 then
        { s2 with regs := Function.update s2.regs 14 ((s2.regs 15 + 0x100000000 - 2) &&& 0xFFFFFFFF) }
      else
        { s2 with regs := Function.update s2.regs 14 ((s2.regs 15 + 0x100000000 - 4) &&& 0xFFFFFFFF) }
    else if address ≠ ARM_VEC_RESET then
      { s2 with regs := Function.update s2.regs 14 ((s2.regs 15 + 0x100000000 - 4) &&& 0xFFFFFFFF) }
    else s2
  let s4 := cpuFlagSet (1 <<< 7) true (cpuFlagSet (1 <<< 5) false s3)
  let s5 := { s4 with regs := Function.update s4.regs 15 (address &&& 0xFFFFFFFF) }
  let (instr, s6) := fetchInstruction s5
  { s6 with pipeline := instr }

/-- Check for a pending IRQ and enter the exception when the guard holds
(`cpuCheckIRQ` in `cpu.c`).  The guard tests, in order: CPSR bit 7 (I)
clear, bit 0 of REG_IE nonzero (the source comment calls this the
master enable, but the expression reads `mem->iwpdc.ie.full & 1`, not
REG_IME), and `REG_IE & REG_IF` nonzero. -/
def cpuCheckIRQ (s : Emu) : Emu :=
  if ¬ flagTST (1 <<< 7) s ∧ (s.ie &&& 1) ≠ 0 ∧ (s.ie &&& s.i_f) ≠ 0 then
    cpuInterrupt ARM_VEC_IRQ IRQ s
  else s

end Gba

namespace Gba

/-- DMA control flag: repeat (dma.h `DMA_REP`). -/
def DMA_REP : Nat := 1 <<< 9

/-- DMA control flag: 32-bit transfer (dma.h `DMA_32`). -/
def DMA_32 : Nat := 1 <<< 10

/-- DMA control flag: IRQ on completion (dma.h `DMA_IRQ`). -/
def DMA_IRQ : Nat := 1 <<< 14

/-- DMA control flag: channel enable (dma.h `DMA_ENB`). -/
def DMA_ENB : Nat := 1 <<< 15

/-- DMA timing value IMMEDIATELY = 0 (dma.h `dmaTiming`). -/
def IMMEDIATELY : Nat := 0

/-- DMA timing value VBLANK = 1. -/
def VBLANK : Nat := 1

/-- DMA timing value HBLANK = 2. -/
def HBLANK : Nat := 2

/-- DMA timing value SPECIAL = 3. -/
def SPECIAL : Nat := 3

/-- Byte write of an I/O register (`memWriteIO` in `memory.c`), for every
register except the four DMA high control bytes: those four cases call
`dmaLoad` and are dispatched by the `memWriteIo` wrapper below (the C
switch cases are disjoint, so splitting them out preserves meaning). -/
def memWriteIoRegs (addr byte0 : Nat) (s : Emu) : Emu :=
  let byte := byte0 &&& 0xFF
  if addr = REG_DISPCNT then
    let b := if s.regs 15 ≥ 0x4000 then byte &&& 0xf7 else byte
    { s with dispcnt := setByteN s.dispcnt 0 b }
  else if addr = REG_DISPCNT + 1 then { s with dispcnt := setByteN s.dispcnt 1 byte }
  else if addr = REG_GREENSWP then { s with greenswp := setByteN s.greenswp 0 byte }
  else if addr = REG_GREENSWP + 1 then { s with greenswp := setByteN s.greenswp 1 byte }
  else if addr = REG_DISPSTAT then
    { s with dispstat := setByteN s.dispstat 0 ((getByteN s.dispstat 0 &&& 0x47) ||| (byte &&& 0xB8)) }
  else if addr = REG_DISPSTAT + 1 then { s with dispstat := setByteN s.dispstat 1 byte }
  else if addr = REG_BG0CNT then
    { s with bgcnt := Function.update s.bgcnt 0 (setByteN (s.bgcnt 0) 0 byte) }
  else if addr = REG_BG0CNT + 1 then
    { s with bgcnt := Function.update s.bgcnt 0 (setByteN (s.bgcnt 0) 1 (byte &&& 0xDF)) }
  else if addr = REG_BG1CNT then
    { s with bgcnt := Function.update s.bgcnt 1 (setByteN (s.bgcnt 1) 0 byte) }
  else if addr = REG_BG1CNT + 1 then
    { s with bgcnt := Function.update s.bgcnt 1 (setByteN (s.bgcnt 1) 1 (byte &&& 0xDF)) }
  else if addr = REG_BG2CNT then
    { s with bgcnt := Function.update s.bgcnt 2 (setByteN (s.bgcnt 2) 0 byte) }
  else if addr = REG_BG2CNT + 1 then
    { s with bgcnt := Function.update s.bgcnt 2 (setByteN (s.bgcnt 2) 1 byte) }
  else if addr = REG_BG3CNT then
    { s with bgcnt := Function.update s.bgcnt 3 (setByteN (s.bgcnt 3) 0 byte) }
  else if addr = REG_BG3CNT + 1 then
    { s with bgcnt := Function.update s.bgcnt 3 (setByteN (s.bgcnt 3) 1 byte) }
  else if addr = REG_BG0HOFS then
    { s with bghofs := Function.update s.bghofs 0 (setByteN (s.bghofs 0) 0 byte) }
  else if addr = REG_BG0HOFS + 1 then
    { s with bghofs := Function.update s.bghofs 0 (setByteN (s.bghofs 0) 1 (byte &&& 0x1)) }
  else if addr = REG_BG0VOFS then
    { s with bgvofs := Function.update s.bgvofs 0 (setByteN (s.bgvofs 0) 0 byte) }
  else if addr = REG_BG0VOFS + 1 then
    { s with bgvofs := Function.update s.bgvofs 0 (setByteN (s.bgvofs 0) 1 (byte &&& 0x1)) }
  else if addr = REG_BG1HOFS then
    { s with bghofs := Function.update s.bghofs 1 (setByteN (s.bghofs 1) 0 byte) }
  else if addr = REG_BG1HOFS + 1 then
    { s with bghofs := Function.update s.bghofs 1 (setByteN (s.bghofs 1) 1 (byte &&& 0x1)) }
  else if addr = REG_BG1VOFS then
    { s with bgvofs := Function.update s.bgvofs 1 (setByteN (s.bgvofs 1) 0 byte) }
  else if addr = REG_BG1VOFS + 1 then
    { s with bgvofs := Function.update s.bgvofs 1 (setByteN (s.bgvofs 1) 1 (byte &&& 0x1)) }
  else if addr = REG_BG2HOFS then
    { s with bghofs := Function.update s.bghofs 2 (setByteN (s.bghofs 2) 0 byte) }
  else if addr = REG_BG2HOFS + 1 then
    { s with bghofs := Function.update s.bghofs 2 (setByteN (s.bghofs 2) 1 (byte &&& 0x1)) }
  else if addr = REG_BG2VOFS then
    { s with bgvofs := Function.update s.bgvofs 2 (setByteN (s.bgvofs 2) 0 byte) }
  else if addr = REG_BG2VOFS + 1 then
    { s with bgvofs := Function.update s.bgvofs 2 (setByteN (s.bgvofs 2) 1 (byte &&& 0x1)) }
  else if addr = REG_BG3HOFS then
    { s with bghofs := Function.update s.bghofs 3 (setByteN (s.bghofs 3) 0 byte) }
  else if addr = REG_BG3HOFS + 1 then
    { s with bghofs := Function.update s.bghofs 3 (setByteN (s.bghofs 3) 1 (byte &&& 0x1)) }
  else if addr = REG_BG3VOFS then
    { s with bgvofs := Function.update s.bgvofs 3 (setByteN (s.bgvofs 3) 0 byte) }
  else if addr = REG_BG3VOFS + 1 then
    { s with bgvofs := Function.update s.bgvofs 3 (setByteN (s.bgvofs 3) 1 (byte &&& 0x1)) }
  else if addr = REG_BG2PA then
    { s with bgpa := Function.update s.bgpa 0 (setByteN (s.bgpa 0) 0 byte) }
  else if addr = REG_BG2PA + 1 then
    { s with bgpa := Function.update s.bgpa 0 (setByteN (s.bgpa 0) 1 byte) }
  else if addr = REG_BG2PB then
    { s with bgpb := Function.update s.bgpb 0 (setByteN (s.bgpb 0) 0 byte) }
  else if addr = REG_BG2PB + 1 then
    { s with bgpb := Function.update s.bgpb 0 (setByteN (s.bgpb 0) 1 byte) }
  else if addr = REG_BG2PC then
    { s with bgpc := Function.update s.bgpc 0 (setByteN (s.bgpc 0) 0 byte) }
  else if addr = REG_BG2PC + 1 then
    { s with bgpc := Function.update s.bgpc 0 (setByteN (s.bgpc 0) 1 byte) }
  else if addr = REG_BG2PD then
    { s with bgpd := Function.update s.bgpd 0 (setByteN (s.bgpd 0) 0 byte) }
  else if addr = REG_BG2PD + 1 then
    { s with bgpd := Function.update s.bgpd 0 (setByteN (s.bgpd 0) 1 byte) }
  else if addr = REG_BG2X ∨ addr = REG_BG2X + 1 ∨ addr = REG_BG2X + 2 ∨ addr = REG_BG2X + 3 then
    let k := addr - REG_BG2X
    { s with internalPX := Function.update s.internalPX 0 (setByteN (s.internalPX 0) k byte)
             bgx := Function.update s.bgx 0 (setByteN (s.bgx 0) k byte) }
  else if addr = REG_BG2Y ∨ addr = REG_BG2Y + 1 ∨ addr = REG_BG2Y + 2 ∨ addr = REG_BG2Y + 3 then
    let k := addr - REG_BG2Y
    { s with internalPY := Function.update s.internalPY 0 (setByteN (s.internalPY 0) k byte)
             bgy := Function.update s.bgy 0 (setByteN (s.bgy 0) k byte) }
  else if addr = REG_BG3PA then
    { s with bgpa := Function.update s.bgpa 1 (setByteN (s.bgpa 1) 0 byte) }
  else if addr = REG_BG3PA + 1 then
    { s with bgpa := Function.update s.bgpa 1 (setByteN (s.bgpa 1) 1 byte) }
  else if addr = REG_BG3PB then
    { s with bgpb := Function.update s.bgpb 1 (setByteN (s.bgpb 1) 0 byte) }
  else if addr = REG_BG3PB + 1 then
    { s with bgpb := Function.update s.bgpb 1 (setByteN (s.bgpb 1) 1 byte) }
  else if addr = REG_BG3PC then
    { s with bgpc := Function.update s.bgpc 1 (setByteN (s.bgpc 1) 0 byte) }
  else if addr = REG_BG3PC + 1 then
    { s with bgpc := Function.update s.bgpc 1 (setByteN (s.bgpc 1) 1 byte) }
  else if addr = REG_BG3PD then
    { s with bgpd := Function.update s.bgpd 1 (setByteN (s.bgpd 1) 0 byte) }
  else if addr = REG_BG3PD + 1 then
    { s with bgpd := Function.update s.bgpd 1 (setByteN (s.bgpd 1) 1 byte) }
  else if addr = REG_BG3X ∨ addr = REG_BG3X + 1 ∨ addr = REG_BG3X + 2 ∨ addr = REG_BG3X + 3 then
    let k := addr - REG_BG3X
    { s with internalPX := Function.update s.internalPX 1 (setByteN (s.internalPX 1) k byte)
             bgx := Function.update s.bgx 1 (setByteN (s.bgx 1) k byte) }
  else if addr = REG_BG3Y ∨ addr = REG_BG3Y + 1 ∨ addr = REG_BG3Y + 2 ∨ addr = REG_BG3Y + 3 then
    let k := addr - REG_BG3Y
    { s with internalPY := Function.update s.internalPY 1 (setByteN (s.internalPY 1) k byte)
             bgy := Function.update s.bgy 1 (setByteN (s.bgy 1) k byte) }
  else if addr = REG_WIN0H then
    { s with winh := Function.update s.winh 0 (setByteN (s.winh 0) 0 byte) }
  else if addr = REG_WIN0H + 1 then
    { s with winh := Function.update s.winh 0 (setByteN (s.winh 0) 1 byte) }
  else if addr = REG_WIN1H then
    { s with winh := Function.update s.winh 1 (setByteN (s.winh 1) 0 byte) }
  else if addr = REG_WIN1H + 1 then
    { s with winh := Function.update s.winh 1 (setByteN (s.winh 1) 1 byte) }
  else if addr = REG_WIN0V then
    { s with winv := Function.update s.winv 0 (setByteN (s.winv 0) 0 byte) }
  else if addr = REG_WIN0V + 1 then
    { s with winv := Function.update s.winv 0 (setByteN (s.winv 0) 1 byte) }
  else if addr = REG_WIN1V then
    { s with winv := Function.update s.winv 1 (setByteN (s.winv 1) 0 byte) }
  else if addr = REG_WIN1V + 1 then
    { s with winv := Function.update s.winv 1 (setByteN (s.winv 1) 1 byte) }
  else if addr = REG_WININ then { s with winin := setByteN s.winin 0 (byte &&& 0x3F) }
  else if addr = REG_WININ + 1 then { s with winin := setByteN s.winin 1 (byte &&& 0x3F) }
  else if addr = REG_WINOUT then { s with winout := setByteN s.winout 0 (byte &&& 0x3F) }
  else if addr = REG_WINOUT + 1 then { s with winout := setByteN s.winout 1 (byte &&& 0x3F) }
  else if addr = REG_MOSAIC then { s with mosaic := setByteN s.mosaic 0 byte }
  else if addr = REG_MOSAIC + 1 then { s with mosaic := setByteN s.mosaic 1 byte }
  else if addr = REG_BLDCNT then { s with bldcnt := setByteN s.bldcnt 0 byte }
  else if addr = REG_BLDCNT + 1 then { s with bldcnt := setByteN s.bldcnt 1 (byte &&& 0x3F) }
  else if addr = REG_BLDALPHA then { s with bldalpha := setByteN s.bldalpha 0 (byte &&& 0x1F) }
  else if addr = REG_BLDALPHA + 1 then { s with bldalpha := setByteN s.bldalpha 1 (byte &&& 0x1F) }
  else if addr = REG_BLDY then { s with bldy := setByteN s.bldy 0 byte }
  else if addr = REG_BLDY + 1 then { s with bldy := setByteN s.bldy 1 byte }
  else if addr = REG_SOUND1CNT_L then
    if (s.soundcnt_x >>> 7) &&& 1 ≠ 0 then { s with sound1cnt_l := setByteN s.sound1cnt_l 0 byte } else s
  else if addr = REG_SOUND1CNT_H then
    if (s.soundcnt_x >>> 7) &&& 1 ≠ 0 then { s with sound1cnt_h := setByteN s.sound1cnt_h 0 byte } else s
  else if addr = REG_SOUND1CNT_H + 1 then
    if (s.soundcnt_x >>> 7) &&& 1 ≠ 0 then { s with sound1cnt_h := setByteN s.sound1cnt_h 1 byte } else s
  else if addr = REG_SOUND1CNT_X then
    if (s.soundcnt_x >>> 7) &&& 1 ≠ 0 then { s with sound1cnt_x := setByteN s.sound1cnt_x 0 byte } else s
  else if addr = REG_SOUND1CNT_X + 1 then
    if (s.soundcnt_x >>> 7) &&& 1 ≠ 0 then
      let s1 := { s with sound1cnt_x := setByteN s.sound1cnt_x 1 byte }
      let s2 := if (s1.sound1cnt_x >>> 15) &&& 1 ≠ 0 then channel1Reset s1 else s1
      { s2 with sound1cnt_x := s2.sound1cnt_x &&& (0xFFFFFFFF ^^^ 0x8000) }
    else s
  else if addr = REG_SOUND2CNT_L then
    if (s.soundcnt_x >>> 7) &&& 1 ≠ 0 then { s with sound2cnt_l := setByteN s.sound2cnt_l 0 byte } else s
  else if addr = REG_SOUND2CNT_L + 1 then
    if (s.soundcnt_x >>> 7) &&& 1 ≠ 0 then { s with sound2cnt_l := setByteN s.sound2cnt_l 1 byte } else s
  else if addr = REG_SOUND2CNT_H then
    if (s.soundcnt_x >>> 7) &&& 1 ≠ 0 then { s with sound2cnt_h := setByteN s.sound2cnt_h 0 byte } else s
  else if addr = REG_SOUND2CNT_H + 1 then
    if (s.soundcnt_x >>> 7) &&& 1 ≠ 0 then
      let s1 := { s with sound2cnt_h := setByteN s.sound2cnt_h 1 byte }
      let s2 := if (s1.sound2cnt_h >>> 15) &&& 1 ≠ 0 then channel2Reset s1 else s1
      { s2 with sound2cnt_h := s2.sound2cnt_h &&& (0xFFFFFFFF ^^^ 0x8000) }
    else s
  else if addr = REG_SOUND3CNT_L then
    if (s.soundcnt_x >>> 7) &&& 1 ≠ 0 then { s with sound3cnt_l := setByteN s.sound3cnt_l 0 byte } else s
  else if addr = REG_SOUND3CNT_L + 1 then
    if (s.soundcnt_x >>> 7) &&& 1 ≠ 0 then { s with sound3cnt_l := setByteN s.sound3cnt_l 1 byte } else s
  else if addr = REG_SOUND3CNT_H then
    if (s.soundcnt_x >>> 7) &&& 1 ≠ 0 then { s with sound3cnt_h := setByteN s.sound3cnt_h 0 byte } else s
  else if addr = REG_SOUND3CNT_H + 1 then
    if (s.soundcnt_x >>> 7) &&& 1 ≠ 0 then { s with sound3cnt_h := setByteN s.sound3cnt_h 1 byte } else s
  else if addr = REG_SOUND3CNT_X then
    if (s.soundcnt_x >>> 7) &&& 1 ≠ 0 then { s with sound3cnt_x := setByteN s.sound3cnt_x 0 byte } else s
  else if addr = REG_SOUND3CNT_X + 1 then
    if (s.soundcnt_x >>> 7) &&& 1 ≠ 0 then
      let s1 := { s with sound3cnt_x := setByteN s.sound3cnt_x 1 byte }
      let s2 := if (s1.sound3cnt_x >>> 15) &&& 1 ≠ 0 then channel3Reset s1 else s1
      { s2 with sound3cnt_x := s2.sound3cnt_x &&& (0xFFFFFFFF ^^^ 0x8000) }
    else s
  else if addr = REG_SOUND4CNT_L then
    if (s.soundcnt_x >>> 7) &&& 1 ≠ 0 then { s with sound4cnt_l := setByteN s.sound4cnt_l 0 byte } else s
  else if addr = REG_SOUND4CNT_L + 1 then
    if (s.soundcnt_x >>> 7) &&& 1 ≠ 0 then { s with sound4cnt_l := setByteN s.sound4cnt_l 1 byte } else s
  else if addr = REG_SOUND4CNT_H then
    if (s.soundcnt_x >>> 7) &&& 1 ≠ 0 then { s with sound4cnt_h := setByteN s.sound4cnt_h 0 byte } else s
  else if addr = REG_SOUND4CNT_H + 1 then
    if (s.soundcnt_x >>> 7) &&& 1 ≠ 0 then
      let s1 := { s with sound4cnt_h := setByteN s.sound4cnt_h 1 byte }
      let s2 := if (s1.sound4cnt_h >>> 15) &&& 1 ≠ 0 then channel4Reset s1 else s1
      { s2 with sound4cnt_h := s2.sound4cnt_h &&& (0xFFFFFFFF ^^^ 0x8000) }
    else s
  else if addr = REG_SOUNDCNT_L then
    if (s.soundcnt_x >>> 7) &&& 1 ≠ 0 then { s with soundcnt_l := setByteN s.soundcnt_l 0 (byte &&& 0x77) } else s
  else if addr = REG_SOUNDCNT_L + 1 then
    if (s.soundcnt_x >>> 7) &&& 1 ≠ 0 then { s with soundcnt_l := setByteN s.soundcnt_l 1 byte } else s
  else if addr = REG_SOUNDCNT_H then
    { s with soundcnt_h := setByteN s.soundcnt_h 0 (byte &&& 0x0F) }
  else if addr = REG_SOUNDCNT_H + 1 then
    let s1 := { s with soundcnt_h := setByteN s.soundcnt_h 1 byte }
    let s2 :=
      if (s1.soundcnt_h >>> 11) &&& 1 ≠ 0 then
        let sr := fifoReset 0 s1
        { sr with soundcnt_h := sr.soundcnt_h &&& (0xFFFF ^^^ 0x800) }
      else s1
    if (s2.soundcnt_h >>> 15) &&& 1 ≠ 0 then
      let sr := fifoReset 1 s2
      { sr with soundcnt_h := sr.soundcnt_h &&& (0xFFFF ^^^ 0x8000) }
    else s2
  else if addr = REG_SOUNDCNT_X then
    let old := getByteN s.soundcnt_x 0 &&& 0x80
    let s1 := { s with soundcnt_x := setByteN s.soundcnt_x 0 (byte &&& 0x80) }
    if old ≠ 0 ∧ (s1.soundcnt_x >>> 7) &&& 1 = 0 then
      let s2 := channel3Reset (fifoReset 1 (fifoReset 0 s1))
      { s2 with sound3cnt_l := 0, sound3cnt_h := 0, sound3cnt_x := 0 }
    else s1
  else if addr = REG_SOUNDBIAS then { s with soundbias := setByteN s.soundbias 0 byte }
  else if addr = REG_SOUNDBIAS + 1 then { s with soundbias := setByteN s.soundbias 1 byte }
  else if addr = REG_SOUNDBIAS + 2 then { s with soundbias := setByteN s.soundbias 2 byte }
  else if addr = REG_SOUNDBIAS + 3 then { s with soundbias := setByteN s.soundbias 3 byte }
  else if addr = REG_WAVE_RAM0 ∨ addr = REG_WAVE_RAM0 + 1 ∨ addr = REG_WAVE_RAM0 + 2 ∨
      addr = REG_WAVE_RAM0 + 3 ∨ addr = REG_WAVE_RAM1 ∨ addr = REG_WAVE_RAM1 + 1 ∨
      addr = REG_WAVE_RAM1 + 2 ∨ addr = REG_WAVE_RAM1 + 3 ∨ addr = REG_WAVE_RAM2 ∨
      addr = REG_WAVE_RAM2 + 1 ∨ addr = REG_WAVE_RAM2 + 2 ∨ addr = REG_WAVE_RAM2 + 3 ∨
      addr = REG_WAVE_RAM3 ∨ addr = REG_WAVE_RAM3 + 1 ∨ addr = REG_WAVE_RAM3 + 2 ∨
      addr = REG_WAVE_RAM3 + 3 then
    let off := addr - REG_WAVE_RAM0
    let r := off / 2
    let k := off % 2
    let b := waveBank s
    let w := Function.update s.waveRam b
      (Function.update (s.waveRam b) r (setByteN (s.waveRam b r) k byte))
    { s with waveRam := w }
  else if addr = REG_FIFO_A_L ∨ addr = REG_FIFO_A_L + 1 ∨ addr = REG_FIFO_A_H ∨
      addr = REG_FIFO_A_H + 1 then
    let k := addr - REG_FIFO_A_L
    let f := s.fifos 0
    { s with fifos := Function.update s.fifos 0 { f with reg := setByteN f.reg k byte } }
  else if addr = REG_FIFO_B_L ∨ addr = REG_FIFO_B_L + 1 ∨ addr = REG_FIFO_B_H ∨
      addr = REG_FIFO_B_H + 1 then
    let k := addr - REG_FIFO_B_L
    let f := s.fifos 1
    { s with fifos := Function.update s.fifos 1 { f with reg := setByteN f.reg k byte } }
  else if addr = REG_DMA0SAD ∨ addr = REG_DMA0SAD + 1 ∨ addr = REG_DMA0SAD + 2 ∨
      addr = REG_DMA0SAD + 3 then
    let d := s.dmaRegs 0
    { s with dmaRegs := Function.update s.dmaRegs 0 { d with source := setByteN d.source (addr - REG_DMA0SAD) byte } }
  else if addr = REG_DMA0DAD ∨ addr = REG_DMA0DAD + 1 ∨ addr = REG_DMA0DAD + 2 ∨
      addr = REG_DMA0DAD + 3 then
    let d := s.dmaRegs 0
    { s with dmaRegs := Function.update s.dmaRegs 0 { d with destination := setByteN d.destination (addr - REG_DMA0DAD) byte } }
  else if addr = REG_DMA0CNT_L ∨ addr = REG_DMA0CNT_L + 1 then
    let d := s.dmaRegs 0
    { s with dmaRegs := Function.update s.dmaRegs 0 { d with count := setByteN d.count (addr - REG_DMA0CNT_L) byte &&& 0xFFFF } }
  else if addr = REG_DMA0CNT_H then
    let d := s.dmaRegs 0
    { s with dmaRegs := Function.update s.dmaRegs 0 { d with control := setByteN d.control 0 (byte &&& 0xE0) &&& 0xFFFF } }
  else if addr = REG_DMA1SAD ∨ addr = REG_DMA1SAD + 1 ∨ addr = REG_DMA1SAD + 2 ∨
      addr = REG_DMA1SAD + 3 then
    let d := s.dmaRegs 1
    { s with dmaRegs := Function.update s.dmaRegs 1 { d with source := setByteN d.source (addr - REG_DMA1SAD) byte } }
  else if addr = REG_DMA1DAD ∨ addr = REG_DMA1DAD + 1 ∨ addr = REG_DMA1DAD + 2 ∨
      addr = REG_DMA1DAD + 3 then
    let d := s.dmaRegs 1
    { s with dmaRegs := Function.update s.dmaRegs 1 { d with destination := setByteN d.destination (addr - REG_DMA1DAD) byte } }
  else if addr = REG_DMA1CNT_L ∨ addr = REG_DMA1CNT_L + 1 then
    let d := s.dmaRegs 1
    { s with dmaRegs := Function.update s.dmaRegs 1 { d with count := setByteN d.count (addr - REG_DMA1CNT_L) byte &&& 0xFFFF } }
  else if addr = REG_DMA1CNT_H then
    let d := s.dmaRegs 1
    { s with dmaRegs := Function.update s.dmaRegs 1 { d with control := setByteN d.control 0 (byte &&& 0xE0) &&& 0xFFFF } }
  else if addr = REG_DMA2SAD ∨ addr = REG_DMA2SAD + 1 ∨ addr = REG_DMA2SAD + 2 ∨
      addr = REG_DMA2SAD + 3 then
    let d := s.dmaRegs 2
    { s with dmaRegs := Function.update s.dmaRegs 2 { d with source := setByteN d.source (addr - REG_DMA2SAD) byte } }
  else if addr = REG_DMA2DAD ∨ addr = REG_DMA2DAD + 1 ∨ addr = REG_DMA2DAD + 2 ∨
      addr = REG_DMA2DAD + 3 then
    let d := s.dmaRegs 2
    { s with dmaRegs := Function.update s.dmaRegs 2 { d with destination := setByteN d.destination (addr - REG_DMA2DAD) byte } }
  else if addr = REG_DMA2CNT_L ∨ addr = REG_DMA2CNT_L + 1 then
    let d := s.dmaRegs 2
    { s with dmaRegs := Function.update s.dmaRegs 2 { d with count := setByteN d.count (addr - REG_DMA2CNT_L) byte &&& 0xFFFF } }
  else if addr = REG_DMA2CNT_H then
    let d := s.dmaRegs 2
    { s with dmaRegs := Function.update s.dmaRegs 2 { d with control := setByteN d.control 0 (byte &&& 0xE0) &&& 0xFFFF } }
  else if addr = REG_DMA3SAD ∨ addr = REG_DMA3SAD + 1 ∨ addr = REG_DMA3SAD + 2 ∨
      addr = REG_DMA3SAD + 3 then
    let d := s.dmaRegs 3
    { s with dmaRegs := Function.update s.dmaRegs 3 { d with source := setByteN d.source (addr - REG_DMA3SAD) byte } }
  else if addr = REG_DMA3DAD ∨ addr = REG_DMA3DAD + 1 ∨ addr = REG_DMA3DAD + 2 ∨
      addr = REG_DMA3DAD + 3 then
    let d := s.dmaRegs 3
    { s with dmaRegs := Function.update s.dmaRegs 3 { d with destination := setByteN d.destination (addr - REG_DMA3DAD) byte } }
  else if addr = REG_DMA3CNT_L ∨ addr = REG_DMA3CNT_L + 1 then
    let d := s.dmaRegs 3
    { s with dmaRegs := Function.update s.dmaRegs 3 { d with count := setByteN d.count (addr - REG_DMA3CNT_L) byte &&& 0xFFFF } }
  else if addr = REG_DMA3CNT_H then
    let d := s.dmaRegs 3
    { s with dmaRegs := Function.update s.dmaRegs 3 { d with control := setByteN d.control 0 (byte &&& 0xE0) &&& 0xFFFF } }
  else if addr = REG_TM0CNT_L then
    let t := s.timers 0
    { s with timers := Function.update s.timers 0 { t with reload := setByteN t.reload 0 byte &&& 0xFFFF } }
  else if addr = REG_TM0CNT_L + 1 then
    let t := s.timers 0
    { s with timers := Function.update s.timers 0 { t with reload := setByteN t.reload 1 byte &&& 0xFFFF } }
  else if addr = REG_TM0CNT_H then memWriteTimer 0 byte s
  else if addr = REG_TM0CNT_H + 1 then
    let t := s.timers 0
    { s with timers := Function.update s.timers 0 { t with control := setByteN t.control 1 byte &&& 0xFFFF } }
  else if addr = REG_TM1CNT_L then
    let t := s.timers 1
    { s with timers := Function.update s.timers 1 { t with reload := setByteN t.reload 0 byte &&& 0xFFFF } }
  else if addr = REG_TM1CNT_L + 1 then
    let t := s.timers 1
    { s with timers := Function.update s.timers 1 { t with reload := setByteN t.reload 1 byte &&& 0xFFFF } }
  else if addr = REG_TM1CNT_H then memWriteTimer 1 byte s
  else if addr = REG_TM1CNT_H + 1 then
    let t := s.timers 1
    { s with timers := Function.update s.timers 1 { t with control := setByteN t.control 1 byte &&& 0xFFFF } }
  else if addr = REG_TM2CNT_L then
    let t := s.timers 2
    { s with timers := Function.update s.timers 2 { t with reload := setByteN t.reload 0 byte &&& 0xFFFF } }
  else if addr = REG_TM2CNT_L + 1 then
    let t := s.timers 2
    { s with timers := Function.update s.timers 2 { t with reload := setByteN t.reload 1 byte &&& 0xFFFF } }
  else if addr = REG_TM2CNT_H then memWriteTimer 2 byte s
  else if addr = REG_TM2CNT_H + 1 then
    let t := s.timers 2
    { s with timers := Function.update s.timers 2 { t with control := setByteN t.control 1 byte &&& 0xFFFF } }
  else if addr = REG_TM3CNT_L then
    let t := s.timers 3
    { s with timers := Function.update s.timers 3 { t with reload := setByteN t.reload 0 byte &&& 0xFFFF } }
  else if addr = REG_TM3CNT_L + 1 then
    let t := s.timers 3
    { s with timers := Function.update s.timers 3 { t with reload := setByteN t.reload 1 byte &&& 0xFFFF } }
  else if addr = REG_TM3CNT_H then memWriteTimer 3 byte s
  else if addr = REG_TM3CNT_H + 1 then
    let t := s.timers 3
    { s with timers := Function.update s.timers 3 { t with control := setByteN t.control 1 byte &&& 0xFFFF } }
  else if addr = REG_SIOCNT then { s with siocnt := setByteN s.siocnt 0 byte }
  else if addr = REG_SIOCNT + 1 then { s with siocnt := setByteN s.siocnt 1 byte }
  else if addr = REG_RCNT then { s with rcnt := setByteN s.rcnt 0 byte }
  else if addr = REG_RCNT + 1 then { s with rcnt := setByteN s.rcnt 1 byte }
  else if addr = REG_IE then cpuCheckIRQ { s with ie := setByteN s.ie 0 byte }
  else if addr = REG_IE + 1 then cpuCheckIRQ { s with ie := setByteN s.ie 1 byte }
  else if addr = REG_IF then
    { s with i_f := setByteN s.i_f 0 (getByteN s.i_f 0 &&& (0xFF ^^^ byte)) }
  else if addr = REG_IF + 1 then
    { s with i_f := setByteN s.i_f 1 (getByteN s.i_f 1 &&& (0xFF ^^^ byte)) }
  else if addr = REG_WAITCNT then updateWait { s with waitcnt := setByteN s.waitcnt 0 byte }
  else if addr = REG_WAITCNT + 1 then updateWait { s with waitcnt := setByteN s.waitcnt 1 byte }
  else if addr = REG_IME then cpuCheckIRQ { s with ime := setByteN s.ime 0 byte }
  else if addr = REG_IME + 1 then cpuCheckIRQ { s with ime := setByteN s.ime 1 byte }
  else if addr = REG_POSTFLG then { s with postflag := byte }
  else if addr = REG_HALTCNT then { s with haltcnt := s.haltcnt ||| 0x80 }
  else s


mutual

/-- Byte write of an I/O register (`memWriteIO` in `memory.c`, renamed
from `memWriteIO`).  The four DMA high-control-byte cases run `dmaLoad`;
every other case is handled by `memWriteIoRegs`.  The `fuel` parameter
cuts the unbounded recursion the source permits through
`dmaLoad → dmaTransfer → memWriteWord → memWriteIO`; at fuel zero the
write is dropped. -/
def memWriteIo (fuel : Nat) (addr byte0 : Nat) (s : Emu) : Emu :=
  match fuel with
  | 0 => s
  | fuel + 1 =>
    let byte := byte0 &&& 0xFF
    if addr = REG_DMA0CNT_H + 1 then dmaLoad fuel 0 byte s
    else if addr = REG_DMA1CNT_H + 1 then dmaLoad fuel 1 byte s
    else if addr = REG_DMA2CNT_H + 1 then dmaLoad fuel 2 byte s
    else if addr = REG_DMA3CNT_H + 1 then dmaLoad fuel 3 byte s
    else memWriteIoRegs addr byte s
termination_by structural fuel

/-- Word write to the bus (`memWriteWord` in `memory.c`): aligns the
address down to 4 and dispatches on the LOW NIBBLE of the top byte
(`(addr >> 24) & 0xF` in the source, unlike the reads which use the
full top byte).  Palette stores re-derive the affected 32-bit native
palette entry. -/
def memWriteWord (fuel : Nat) (addr0 word0 : Nat) (s : Emu) : Emu :=
  match fuel with
  | 0 => s
  | fuel + 1 =>
    let addr := (addr0 &&& 0xFFFFFFFF) &&& 0xFFFFFFFC
    let word := word0 &&& 0xFFFFFFFF
    let nib := (addr >>> 24) &&& 0xF
    if nib = 0x02 then { s with eWRAM := write32 s.eWRAM (addr &&& 0x3FFFF) word }
    else if nib = 0x03 then { s with iWRAM := write32 s.iWRAM (addr &&& 0x7FFF) word }
    else if nib = 0x04 then
      let s1 := memWriteIo fuel (addr + 0) (word &&& 0xFF) s
      let s2 := memWriteIo fuel (addr + 1) ((word >>> 8) &&& 0xFF) s1
      let s3 := memWriteIo fuel (addr + 2) ((word >>> 16) &&& 0xFF) s2
      memWriteIo fuel (addr + 3) ((word >>> 24) &&& 0xFF) s3
    else if nib = 0x05 then
      let s1 := { s with palRAM := write32 s.palRAM (addr &&& 0x3FF) word }
      let a2 := addr &&& 0x3FE
      let pixel := s1.palRAM a2 ||| (s1.palRAM (a2 + 1) <<< 8)
      let r := ((pixel &&& 0x1F) <<< 3) &&& 0xFF
      let g := (((pixel >>> 5) &&& 0x1F) <<< 3) &&& 0xFF
      let b := (((pixel >>> 10) &&& 0x1F) <<< 3) &&& 0xFF
      let rgb := 0xFF ||| ((r ||| (r >>> 5)) <<< 8) ||| ((g ||| (g >>> 5)) <<< 16) |||
        ((b ||| (b >>> 5)) <<< 24)
      { s1 with palette := Function.update s1.palette (a2 >>> 1) (rgb &&& 0xFFFFFFFF) }
    else if nib = 0x06 then { s with vram := write32 s.vram (vramIdx addr) word }
    else if nib = 0x07 then { s with oam := write32 s.oam (addr &&& 0x3FF) word }
    else if nib = 0x0C ∨ nib = 0x0D then
      let s1 := eepromWrite s (addr ||| 0) 0 (word &&& 0xFF)
      let s2 := eepromWrite s1 (addr ||| 1) 1 ((word >>> 8) &&& 0xFF)
      let s3 := eepromWrite s2 (addr ||| 2) 2 ((word >>> 16) &&& 0xFF)
      eepromWrite s3 (addr ||| 3) 3 ((word >>> 24) &&& 0xFF)
    else if nib = 0x0E ∨ nib = 0x0F then
      let s1 := flashWrite s (addr ||| 0) (word &&& 0xFF)
      let s2 := flashWrite s1 (addr ||| 1) ((word >>> 8) &&& 0xFF)
      let s3 := flashWrite s2 (addr ||| 2) ((word >>> 16) &&& 0xFF)
      flashWrite s3 (addr ||| 3) ((word >>> 24) &&& 0xFF)
    else s
termination_by structural fuel

/-- Halfword write to the bus (`memWriteHalfWord` in `memory.c`):
aligns the address down to 2 and dispatches on the low nibble of the
top byte.  Palette stores re-derive the affected native entry. -/
def memWriteHalfWord (fuel : Nat) (addr0 halfword0 : Nat) (s : Emu) : Emu :=
  match fuel with
  | 0 => s
  | fuel + 1 =>
    let addr := (addr0 &&& 0xFFFFFFFF) &&& 0xFFFFFFFE
    let halfword := halfword0 &&& 0xFFFF
    let nib := (addr >>> 24) &&& 0xF
    if nib = 0x02 then { s with eWRAM := write16 s.eWRAM (addr &&& 0x3FFFF) halfword }
    else if nib = 0x03 then { s with iWRAM := write16 s.iWRAM (addr &&& 0x7FFF) halfword }
    else if nib = 0x04 then
      let s1 := memWriteIo fuel (addr + 0) (halfword &&& 0xFF) s
      memWriteIo fuel (addr + 1) ((halfword >>> 8) &&& 0xFF) s1
    else if nib = 0x05 then
      let s1 := { s with palRAM := write16 s.palRAM (addr &&& 0x3FF) halfword }
      let a2 := addr &&& 0x3FE
      let pixel := s1.palRAM a2 ||| (s1.palRAM (a2 + 1) <<< 8)
      let r := ((pixel &&& 0x1F) <<< 3) &&& 0xFF
      let g := (((pixel >>> 5) &&& 0x1F) <<< 3) &&& 0xFF
      let b := (((pixel >>> 10) &&& 0x1F) <<< 3) &&& 0xFF
      let rgb := 0xFF ||| ((r ||| (r >>> 5)) <<< 8) ||| ((g ||| (g >>> 5)) <<< 16) |||
        ((b ||| (b >>> 5)) <<< 24)
      { s1 with palette := Function.update s1.palette (a2 >>> 1) (rgb &&& 0xFFFFFFFF) }
    else if nib = 0x06 then { s with vram := write16 s.vram (vramIdx addr) halfword }
    else if nib = 0x07 then { s with oam := write16 s.oam (addr &&& 0x3FF) halfword }
    else if nib = 0x0C ∨ nib = 0x0D then
      let s1 := eepromWrite s (addr ||| 0) 0 (halfword &&& 0xFF)
      eepromWrite s1 (addr ||| 1) 1 ((halfword >>> 8) &&& 0xFF)
    else if nib = 0x0E ∨ nib = 0x0F then
      let s1 := flashWrite s (addr ||| 0) (halfword &&& 0xFF)
      flashWrite s1 (addr ||| 1) ((halfword >>> 8) &&& 0xFF)
    else s
termination_by structural fuel

/-- Byte write to the bus (`memWriteByte` in `memory.c`), dispatching on
the low nibble of the top byte.  A palette byte write stores the byte
at the addressed offset, re-derives the entry of the aligned-down pair,
then stores the byte again at the odd offset of that pair and
re-derives once more (so for an odd address the even byte of the pair
is never written).  A VRAM byte write stores the byte at the addressed
offset and at the following offset.  OAM byte writes are ignored. -/
def memWriteByte (fuel : Nat) (addr0 byte0 : Nat) (s : Emu) : Emu :=
  match fuel with
  | 0 => s
  | fuel + 1 =>
    let addr := addr0 &&& 0xFFFFFFFF
    let byte := byte0 &&& 0xFF
    let nib := (addr >>> 24) &&& 0xF
    if nib = 0x02 then { s with eWRAM := Function.update s.eWRAM (addr &&& 0x3FFFF) byte }
    else if nib = 0x03 then { s with iWRAM := Function.update s.iWRAM (addr &&& 0x7FFF) byte }
    else if nib = 0x04 then memWriteIo fuel (addr + 0) byte s
    else if nib = 0x05 then
      let s1 := { s with palRAM := Function.update s.palRAM (addr &&& 0x3FF) byte }
      let a2 := addr &&& 0x3FE
      let pixel := s1.palRAM a2 ||| (s1.palRAM (a2 + 1) <<< 8)
      let r := ((pixel &&& 0x1F) <<< 3) &&& 0xFF
      let g := (((pixel >>> 5) &&& 0x1F) <<< 3) &&& 0xFF
      let b := (((pixel >>> 10) &&& 0x1F) <<< 3) &&& 0xFF
      let rgb := 0xFF ||| ((r ||| (r >>> 5)) <<< 8) ||| ((g ||| (g >>> 5)) <<< 16) |||
        ((b ||| (b >>> 5)) <<< 24)
      let s2 := { s1 with palette := Function.update s1.palette (a2 >>> 1) (rgb &&& 0xFFFFFFFF) }
      let newAddr := a2 + 1
      let s3 := { s2 with palRAM := Function.update s2.palRAM (newAddr &&& 0x3FF) byte }
      let n2 := newAddr &&& 0x3FE
      let pixel2 := s3.palRAM n2 ||| (s3.palRAM (n2 + 1) <<< 8)
      let r2 := ((pixel2 &&& 0x1F) <<< 3) &&& 0xFF
      let g2 := (((pixel2 >>> 5) &&& 0x1F) <<< 3) &&& 0xFF
      let b2 := (((pixel2 >>> 10) &&& 0x1F) <<< 3) &&& 0xFF
      let rgb2 := 0xFF ||| ((r2 ||| (r2 >>> 5)) <<< 8) ||| ((g2 ||| (g2 >>> 5)) <<< 16) |||
        ((b2 ||| (b2 >>> 5)) <<< 24)
      { s3 with palette := Function.update s3.palette (n2 >>> 1) (rgb2 &&& 0xFFFFFFFF) }
    else if nib = 0x06 then
      let s1 := { s with vram := Function.update s.vram (vramIdx addr) byte }
      let newAddr := addr + 1
      { s1 with vram := Function.update s1.vram (vramIdx newAddr) byte }
    else if nib = 0x07 then s
    else if nib = 0x0C ∨ nib = 0x0D then eepromWrite s (addr ||| 0) 0 byte
    else if nib = 0x0E ∨ nib = 0x0F then flashWrite s (addr ||| 0) byte
    else s

/-- Write to the high control byte of a DMA channel (`dmaLoad` in
`dma.c`): store the byte; on an enable flip from 0 to 1 latch the
destination, source and count, align the latched addresses by the
transfer width, and run an immediate transfer scan. -/
def dmaLoad (fuel : Nat) (ch value0 : Nat) (s : Emu) : Emu :=
  match fuel with
  | 0 => s
  | fuel + 1 =>
    let value := value0 &&& 0xFF
    let d := s.dmaRegs ch
    let old := getByteN d.control 1
    let d1 := { d with control := setByteN d.control 1 value &&& 0xFFFF }
    let s1 := { s with dmaRegs := Function.update s.dmaRegs ch d1 }
    if (old ^^^ value) &&& value &&& 0x80 ≠ 0 then
      let dest0 := d1.destination &&& 0xFFFFFFFF
      let src0 := d1.source &&& 0xFFFFFFFF
      let (dest, src) :=
        if d1.control &&& DMA_32 ≠ 0 then (dest0 &&& 0xFFFFFFFC, src0 &&& 0xFFFFFFFC)
        else (dest0 &&& 0xFFFFFFFE, src0 &&& 0xFFFFFFFE)
      let s2 := { s1 with
        dmaDest := Function.update s1.dmaDest ch dest
        dmaSrc := Function.update s1.dmaSrc ch src
        dmaCount := Function.update s1.dmaCount ch (d1.count &&& 0xFFFF) }
      dmaTransfer fuel IMMEDIATELY s2
    else s1
termination_by structural fuel

/-- Unit-transfer loop of `dmaTransfer` (`while (dmaCount[ch]--)` in
`dma.c`): each pass decrements the 32-bit `dmaCount[ch]` (so the count
wraps to 0xFFFFFFFF on exit), copies one unit of the width given by the
current control word, and advances the latched pointers by the latched
increments. -/
def dmaUnits (fuel : Nat) (ch destInc srcInc : Nat) (s : Emu) : Emu :=
  match fuel with
  | 0 => s
  | fuel + 1 =>
    let c := s.dmaCount ch
    let s0 := { s with dmaCount := Function.update s.dmaCount ch ((c + 0xFFFFFFFF) &&& 0xFFFFFFFF) }
    if c = 0 then s0
    else
      let s1 :=
        if (s0.dmaRegs ch).control &&& DMA_32 ≠ 0 then
          let (v, sr) := memReadWord (s0.dmaSrc ch) s0
          memWriteWord fuel (s0.dmaDest ch) v sr
        else
          let (v, sr) := memReadHalfWord (s0.dmaSrc ch) s0
          memWriteHalfWord fuel (s0.dmaDest ch) v sr
      let s2 := { s1 with
        dmaDest := Function.update s1.dmaDest ch ((s1.dmaDest ch + destInc) &&& 0xFFFFFFFF)
        dmaSrc := Function.update s1.dmaSrc ch ((s1.dmaSrc ch + srcInc) &&& 0xFFFFFFFF) }
      dmaUnits fuel ch destInc srcInc s2
termination_by structural fuel

/-- Per-channel body of `dmaTransfer` (`dma.c`): skip the channel when
it is disabled or its timing does not match, otherwise run the unit
loop, raise the channel IRQ if enabled, and either reload (repeat) or
clear the enable bit. -/
def dmaChannelRun (fuel : Nat) (timing ch : Nat) (s : Emu) : Emu :=
  match fuel with
  | 0 => s
  | fuel + 1 =>
    let ctrl := (s.dmaRegs ch).control
    if ctrl &&& DMA_ENB = 0 ∨ ((ctrl >>> 12) &&& 3) ≠ timing then s
    else
      let s0 := if ch = 3 then { s with eepromIdx := 0 } else s
      let unitSize := if ctrl &&& DMA_32 ≠ 0 then 4 else 2
      let destMode := (ctrl >>> 5) &&& 3
      let destReload := destMode = 3
      let destInc :=
        if destMode = 0 then unitSize
        else if destMode = 1 then neg32 unitSize
        else if destMode = 3 then unitSize
        else 0
      let srcMode := (ctrl >>> 7) &&& 3
      let srcInc :=
        if srcMode = 0 then unitSize
        else if srcMode = 1 then neg32 unitSize
        else 0
      let s1 := dmaUnits fuel ch destInc srcInc s0
      let s2 :=
        if (s1.dmaRegs ch).control &&& DMA_IRQ ≠ 0 then triggerIRQ ((1 <<< 8) <<< ch) s1
        else s1
      if (s2.dmaRegs ch).control &&& DMA_REP ≠ 0 then
        let s3 := { s2 with dmaCount := Function.update s2.dmaCount ch ((s2.dmaRegs ch).count &&& 0xFFFF) }
        if destReload then
          { s3 with dmaDest := Function.update s3.dmaDest ch ((s3.dmaRegs ch).destination &&& 0xFFFFFFFF) }
        else s3
      else
        let d := s2.dmaRegs ch
        { s2 with dmaRegs := Function.update s2.dmaRegs ch { d with control := d.control &&& (0xFFFF ^^^ DMA_ENB) } }
termination_by structural fuel

/-- Scan all four DMA channels for a timing event (`dmaTransfer` in
`dma.c`), in priority order 0, 1, 2, 3. -/
def dmaTransfer (fuel : Nat) (timing : Nat) (s : Emu) : Emu :=
  match fuel with
  | 0 => s
  | fuel + 1 =>
    dmaChannelRun fuel timing 3 (dmaChannelRun fuel timing 2
      (dmaChannelRun fuel timing 1 (dmaChannelRun fuel timing 0 s)))
termination_by structural fuel

/-- One unit of the FIFO transfer loop of `dmaTransferFIFO` (`dma.c`):
copy a word from the latched source to the latched destination, refill
the FIFO whose channel this is, and advance only the source pointer by
its (re-read) increment mode. -/
def dmaFIFOUnit (fuel : Nat) (ch : Nat) (s : Emu) : Emu :=
  match fuel with
  | 0 => s
  | fuel + 1 =>
    let (v, sr) := memReadWord (s.dmaSrc ch) s
    let s1 := memWriteWord fuel (sr.dmaDest ch) v sr
    let s2 := if ch = 1 then fifoCopy 0 s1 else fifoCopy 1 s1
    let srcMode := ((s2.dmaRegs ch).control >>> 7) &&& 3
    if srcMode = 0 then
      { s2 with dmaSrc := Function.update s2.dmaSrc ch ((s2.dmaSrc ch + 4) &&& 0xFFFFFFFF) }
    else if srcMode = 1 then
      { s2 with dmaSrc := Function.update s2.dmaSrc ch ((s2.dmaSrc ch + 0xFFFFFFFC) &&& 0xFFFFFFFF) }
    else s2

/-- Sound FIFO DMA (`dmaTransferFIFO` in `dma.c`): when the channel is
enabled with SPECIAL timing, transfer four words without touching the
count or the destination pointer, then raise the channel IRQ if
enabled. -/
def dmaTransferFIFO (fuel : Nat) (ch : Nat) (s : Emu) : Emu :=
  match fuel with
  | 0 => s
  | fuel + 1 =>
    let ctrl := (s.dmaRegs ch).control
    if ctrl &&& DMA_ENB = 0 ∨ ((ctrl >>> 12) &&& 3) ≠ SPECIAL then s
    else
      let s1 := dmaFIFOUnit fuel ch (dmaFIFOUnit fuel ch (dmaFIFOUnit fuel ch (dmaFIFOUnit fuel ch s)))
      if (s1.dmaRegs ch).control &&& DMA_IRQ ≠ 0 then triggerIRQ ((1 <<< 8) <<< ch) s1
      else s1

end

end Gba

namespace Gba

/-- Per-timer body of `updateTimer` (`memory.c`): the pair carries the
state and the overflow flag from the previous timer.  The counter field
is the 16-bit `counter.full` union member, so every store to it is
reduced mod 2^16, and the `> 0xFFFF` overflow test reads that 16-bit
field. -/
def updateTimerStep (fuel cycles timerId : Nat) (p : Emu × Bool) : Emu × Bool :=
  let s := p.1
  let overflow := p.2
  if (s.timers timerId).control &&& (1 <<< 7) = 0 then (s, false)
  else
    let s1 :=
      if (s.timers timerId).control &&& (1 <<< 2) ≠ 0 then
        if overflow then
          let t := s.timers timerId
          let tm := Function.update s.timers timerId { t with counter := (t.counter + 1) &&& 0xFFFF }
          { s with timers := tm }
        else s
      else
        let t := s.timers timerId
        let shift := pscaleShift (t.control &&& 3)
        let tt := (s.timerTemps timerId + cycles) &&& 0xFFFFFFFF
        let inc := tt >>> shift
        let tm := Function.update s.timers timerId { t with counter := (t.counter + inc) &&& 0xFFFF }
        let tq := Function.update s.timerTemps timerId ((tt - ((inc <<< shift) &&& 0xFFFFFFFF)) &&& 0xFFFFFFFF)
        { s with timers := tm, timerTemps := tq }
    let ov := (s1.timers timerId).counter > 0xFFFF
    let s2 :=
      if ov then
        let t := s1.timers timerId
        let tm := Function.update s1.timers timerId
          { t with counter := (t.reload + ((t.counter + 0x100000000 - 0x10000) &&& 0xFFFFFFFF)) &&& 0xFFFF }
        let s2a := { s1 with timers := tm }
        let s2b :=
          if ((s2a.soundcnt_h >>> 10) &&& 1) = timerId then
            let sl := fifoLoad 0 s2a
            if (sl.fifos 0).size ≤ 0x10 then dmaTransferFIFO fuel 1 sl else sl
          else s2a
        if ((s2b.soundcnt_h >>> 14) &&& 1) = timerId then
          let sl := fifoLoad 1 s2b
          if (sl.fifos 1).size ≤ 0x10 then dmaTransferFIFO fuel 2 sl else sl
        else s2b
      else s1
    let s3 :=
      if (s2.timers timerId).control &&& (1 <<< 6) ≠ 0 ∧ ov then
        triggerIRQ ((1 <<< 3) <<< timerId) s2
      else s2
    (s3, ov)

/-- Advance all four timers by a cycle batch (`updateTimer` in
`memory.c`), carrying the overflow flag from each timer to the next for
cascade counting. -/
def updateTimer (fuel cycles : Nat) (s : Emu) : Emu :=
  (updateTimerStep fuel cycles 3 (updateTimerStep fuel cycles 2
    (updateTimerStep fuel cycles 1 (updateTimerStep fuel cycles 0 (s, false))))).1

/-- Population count (`customPopcount` in `armProc.c`): clears the least
significant set bit until zero. -/
def customPopcount (x : Nat) : Nat :=
  if h : x = 0 then 0
  else 1 + customPopcount (x &&& (x - 1))
termination_by x
decreasing_by
  exact Nat.lt_of_le_of_lt Nat.and_le_right (Nat.sub_lt (Nat.pos_of_ne_zero h) Nat.one_pos)

/-- Loop of `customFFS` (`armProc.c`): shift right until bit 0 is set.
The source loops forever on zero; that input is unreachable because the
caller tests for zero first, and the model returns the running position
there. -/
def ffsGo (x pos : Nat) : Nat :=
  if h : x &&& 1 = 0 ∧ x ≠ 0 then ffsGo (x >>> 1) (pos + 1) else pos
termination_by x
decreasing_by
  simp only [Nat.shiftRight_eq_div_pow, pow_one]
  exact Nat.div_lt_self (Nat.pos_of_ne_zero h.2) (by norm_num)

/-- One-based find-first-set (`customFFS` in `armProc.c`); zero for a
zero input. -/
def customFFS (x : Nat) : Nat :=
  if x = 0 then 0 else ffsGo x 1

/-- Count leading zeros of a 32-bit value (`customCLZ` in `armProc.c`),
with the binary-search loop unrolled (shift = 16, 8, 4, 2, 1). -/
def customCLZ (x : Nat) : Nat :=
  if x = 0 then 32
  else
    let step := fun (p : Nat × Nat) (shift : Nat) =>
      if (p.2 >>> shift) = 0 then (p.1 + shift, (p.2 <<< shift) &&& 0xFFFFFFFF) else p
    (step (step (step (step (step (0, x &&& 0xFFFFFFFF) 16) 8) 4) 2) 1).1

/-- Sign extension of an 8-bit value to 32 bits (`(int32_t)(int8_t)v`). -/
def sext8to32 (v : Nat) : Nat :=
  if (v &&& 0xFF) &&& 0x80 ≠ 0 then (v &&& 0xFF) ||| 0xFFFFFF00 else v &&& 0xFF

/-- Sign extension of a 16-bit value to 32 bits (`(int32_t)(int16_t)v`). -/
def sext16to32 (v : Nat) : Nat :=
  if (v &&& 0xFFFF) &&& 0x8000 ≠ 0 then (v &&& 0xFFFF) ||| 0xFFFF0000 else v &&& 0xFFFF

/-- Barrel shifter (`barrelShifter` in `armProc.c`): produces the
shifted operand and records the carry-out in the `carry` field of the
CPU state (2 = `CC_UNMOD` leaves the flag unchanged later).  The
boolean argument is true when the shift amount comes from an
instruction immediate.  An out-of-range shift type aborts the process
in the source, hence `Option`. -/
def barrelShifter (shiftType operand2v shift : Nat) (regShiftByImm : Bool) (s : Emu) :
    Option (Nat × Emu) :=
  let operand2 := operand2v &&& 0xFFFFFFFF
  if ¬ regShiftByImm ∧ shift = 0 then some (operand2, { s with carry := 2 })
  else if shiftType = 0 then
    if shift = 0 then some (operand2, { s with carry := 2 })
    else if shift = 32 then some (0, { s with carry := operand2 &&& 1 })
    else if shift > 32 then some (0, { s with carry := 0 })
    else some ((operand2 <<< shift) &&& 0xFFFFFFFF,
      { s with carry := ((operand2 <<< (shift - 1)) &&& 0xFFFFFFFF) >>> 31 })
  else if shiftType = 1 then
    if shift = 0 then
      if regShiftByImm then some (0, { s with carry := operand2 >>> 31 })
      else some (operand2, s)
    else if shift = 32 then some (0, { s with carry := operand2 >>> 31 })
    else if shift > 32 then some (0, { s with carry := 0 })
    else some (operand2 >>> shift, { s with carry := (operand2 >>> (shift - 1)) &&& 1 })
  else if shiftType = 2 then
    if regShiftByImm ∧ shift = 0 then
      let msb := operand2 >>> 31
      some ((if msb ≠ 0 then 0xFFFFFFFF else 0), { s with carry := msb })
    else if shift > 31 then
      some ((if operand2 >>> 31 ≠ 0 then 0xFFFFFFFF else 0), { s with carry := operand2 >>> 31 })
    else
      some (sar32 operand2 shift, { s with carry := (sar32 operand2 (shift - 1)) &&& 1 })
  else if shiftType = 3 then
    if regShiftByImm ∧ shift = 0 then
      some (((((s.cpsr >>> 29) &&& 1) <<< 31) ||| (operand2 >>> 1)) &&& 0xFFFFFFFF,
        { s with carry := operand2 &&& 1 })
    else
      let v := rorC operand2 shift
      some (v, { s with carry := v >>> 31 })
  else none

/-- Prefetch-adjusted program counter value (`PC_VALUE` macro in
`armProc.c`). -/
def pcValue (s : Emu) : Nat :=
  if cpuInThumb s then (s.regs 15 + 2) &&& 0xFFFFFFFF else (s.regs 15 + 4) &&& 0xFFFFFFFF

/-- Branch and exchange (`procBX` in `armProc.c`). -/
def procBX (instr : Nat) (s : Emu) : Option Emu := do
  let rn := instr &&& 0xF
  let rnVal ← getReg rn s
  let s1 :=
    if rnVal &&& 1 ≠ 0 then
      updatePC (rnVal &&& 0xFFFFFFFE) { s with cpsr := s.cpsr ||| 0x20 }
    else
      updatePC (rnVal &&& 0xFFFFFFFC) { s with cpsr := s.cpsr &&& (0xFFFFFFFF ^^^ 0x20) }
  some { s1 with cycle := s1.cycle + 3 }

/-- Branch / branch with link (`procBL` in `armProc.c`): the 24-bit
offset is sign extended and shifted left by 2 (and arithmetically
halved in Thumb state). -/
def procBL (instr : Nat) (s : Emu) : Option Emu := do
  let se24 := instr &&& 0xFFFFFF
  let ext := if se24 &&& 0x800000 ≠ 0 then se24 ||| 0xFF000000 else se24
  let offset0 := (ext <<< 2) &&& 0xFFFFFFFF
  let offset := if cpuInThumb s then sar32 offset0 1 else offset0
  let l := (instr >>> 24) &&& 1
  let s1 ←
    if l ≠ 0 then setReg 0xE ((s.regs 15 + 0x100000000 - 4) &&& 0xFFFFFFFF) s
    else pure s
  let s2 := updatePC ((s1.regs 15 + offset) &&& 0xFFFFFFFF) s1
  some { s2 with cycle := s2.cycle + 3 }

/-- Software interrupt (`procSWI` in `armProc.c`): writes the SVC bank
link register and SPSR directly, switches the mode field, and jumps to
the SWI vector. -/
def procSWI (_instr : Nat) (s : Emu) : Option Emu :=
  let s1 := { s with
    regsSVC := Function.update s.regsSVC 1 ((s.regs 15 + 0x100000000 - 4) &&& 0xFFFFFFFF)
    spsr_svc := s.cpsr }
  let s2 := updateCPUMode SVC s1
  let s3 := updatePC 0x00000008 s2
  some { s3 with cycle := s3.cycle + 3 }

/-- Undefined instruction (`procUND` in `armProc.c`): one cycle, no
other effect. -/
def procUND (_instr : Nat) (s : Emu) : Option Emu :=
  some { s with cycle := s.cycle + 1 }

/-- PSR transfer (`procPSRT` in `armProc.c`): MRS moves the active PSR
or CPSR into a register, MSR replaces the flag byte and/or control byte
of the active PSR or CPSR. -/
def procPSRT (instr : Nat) (s : Emu) : Option Emu := do
  let psr := (instr >>> 22) &&& 0x1
  let immBit := (instr >>> 25) &&& 0x1
  let msr := (instr >>> 21) &&& 0x1
  let f := (instr >>> 19) &&& 1
  let bitsOnly := (instr >>> 16) &&& 0x1
  let rd := (instr >>> 12) &&& 0xf
  let (operand, s0) ←
    if immBit ≠ 0 then pure (rorC (instr &&& 0xFF) (((instr >>> 8) &&& 0xF) * 2), s)
    else do
      let v ← getReg (instr &&& 0xF) s
      pure (v, s)
  let s1 ←
    if msr ≠ 0 then
      if psr ≠ 0 then
        let sa := if f ≠ 0 then setPSR ((getPSR s0 &&& 0x00FFFFFF) ||| (operand &&& 0xFF000000)) s0 else s0
        let sb := if bitsOnly ≠ 0 then setPSR ((getPSR sa &&& 0xFFFFFF00) ||| (operand &&& 0x000000FF)) sa else sa
        pure sb
      else
        let sa := if f ≠ 0 then { s0 with cpsr := (s0.cpsr &&& 0x00FFFFFF) ||| (operand &&& 0xFF000000) } else s0
        let sb := if bitsOnly ≠ 0 then { sa with cpsr := (sa.cpsr &&& 0xFFFFFF00) ||| (operand &&& 0x000000FF) } else sa
        pure sb
    else
      if psr ≠ 0 then setReg rd (getPSR s0) s0
      else setReg rd s0.cpsr s0
  some { s1 with cycle := s1.cycle + 1 }

end Gba

namespace Gba

/-- Convert a C boolean-valued expression to the 0/1 integer that the C
source passes to `setCC`. -/
def b2n (b : Bool) : Nat := if b then 1 else 0

/-- Data processing (`procDPROC` in `armProc.c`): computes operand 2
through the barrel shifter (immediate rotation, immediate-shifted
register or register-shifted register), performs the ALU operation,
updates the flags when the S bit is set, and loads the CPSR from the
active PSR when an S-bit instruction writes r15. -/
def procDPROC (instr : Nat) (s : Emu) : Option Emu := do
  let i := (instr >>> 25) &&& 1
  let sBit := (instr >>> 20) &&& 1
  let rn := (instr >>> 16) &&& 0xF
  let rd := (instr >>> 12) &&& 0xF
  let operand1v ← getReg rn s
  let r15T := rd = 0xF
  let (operand1, operand2, regShift, s0) ←
    if i ≠ 0 then do
      let shiftAmount := ((instr &&& 0xF00) >>> 8) * 2
      let (op2, sh) ← barrelShifter 3 (instr &&& 0xFF) shiftAmount false s
      pure (operand1v, op2, false, sh)
    else do
      let r := (instr >>> 4) &&& 1
      let shiftType := (instr >>> 5) &&& 0x3
      let rm := instr &&& 0xF
      let rmVal0 ← getReg rm s
      if r ≠ 0 then do
        let op1 := if rn = 0xF then pcValue s else operand1v
        let rmVal := if rm = 0xF then pcValue s else rmVal0
        let shiftReg ← getReg ((instr >>> 8) &&& 0xF) s
        let (op2, sh) ← barrelShifter shiftType rmVal (shiftReg &&& 0xFF) false s
        pure (op1, op2, true, sh)
      else do
        let shiftAmount := (instr >>> 7) &&& 0x1F
        let (op2, sh) ← barrelShifter shiftType rmVal0 shiftAmount true s
        pure (operand1v, op2, false, sh)
  let opc := (instr >>> 21) &&& 0xF
  let s1 ←
    if opc = 0x0 then do
      let result := operand1 &&& operand2
      let sf := if sBit ≠ 0 then setCC (result >>> 31) (b2n (result = 0)) s0.carry 2 s0 else s0
      setReg rd result sf
    else if opc = 0x1 then do
      let result := operand1 ^^^ operand2
      let sf := if sBit ≠ 0 then setCC (result >>> 31) (b2n (result = 0)) s0.carry 2 s0 else s0
      setReg rd result sf
    else if opc = 0x2 ∨ opc = 0x3 then do
      let a := if opc = 0x3 then operand2 else operand1
      let b := if opc = 0x3 then operand1 else operand2
      let result := (a + 0x100000000 - b) &&& 0xFFFFFFFF
      let sf :=
        if sBit ≠ 0 then
          setCC (result >>> 31) (b2n (result = 0)) (b2n (a ≥ b))
            (b2n (((a >>> 31) ≠ (b >>> 31)) ∧ ((a >>> 31) ≠ (result >>> 31)))) s0
        else s0
      setReg rd result sf
    else if opc = 0x4 then do
      let result := (operand1 + operand2) &&& 0xFFFFFFFF
      let sf :=
        if sBit ≠ 0 then
          setCC (result >>> 31) (b2n (result = 0))
            (b2n ((operand1 >>> 31) + (operand2 >>> 31) > (result >>> 31)))
            (b2n (((operand1 >>> 31) = (operand2 >>> 31)) ∧ ((operand1 >>> 31) ≠ (result >>> 31)))) s0
        else s0
      setReg rd result sf
    else if opc = 0x5 then do
      let cin := b2n (getCC CCFlag.C s0)
      let result := (operand1 + operand2 + cin) &&& 0xFFFFFFFF
      let sf :=
        if sBit ≠ 0 then
          setCC (result >>> 31) (b2n (result = 0))
            (b2n ((operand1 >>> 31) + (operand2 >>> 31) > (result >>> 31)))
            (b2n (((operand1 >>> 31) = (operand2 >>> 31)) ∧ ((operand1 >>> 31) ≠ (result >>> 31)))) s0
        else s0
      setReg rd result sf
    else if opc = 0x6 ∨ opc = 0x7 then do
      let a := if opc = 0x7 then operand2 else operand1
      let b := if opc = 0x7 then operand1 else operand2
      let nc := b2n (! getCC CCFlag.C s0)
      let result := (a + 0x200000000 - b - nc) &&& 0xFFFFFFFF
      let sf :=
        if sBit ≠ 0 then
          setCC (result >>> 31) (b2n (result = 0)) (b2n (a ≥ b + nc))
            (b2n (((a >>> 31) ≠ (b >>> 31)) ∧ ((a >>> 31) ≠ (result >>> 31)))) s0
        else s0
      setReg rd result sf
    else if opc = 0x8 then do
      let result := operand1 &&& operand2
      pure (setCC (result >>> 31) (b2n (result = 0)) s0.carry 2 s0)
    else if opc = 0x9 then do
      let result := operand1 ^^^ operand2
      pure (setCC (result >>> 31) (b2n (result = 0)) s0.carry 2 s0)
    else if opc = 0xA then do
      let result := (operand1 + 0x100000000 - operand2) &&& 0xFFFFFFFF
      pure (setCC (result >>> 31) (b2n (result = 0)) (b2n (operand1 ≥ operand2))
        (b2n (((operand1 >>> 31) ≠ (operand2 >>> 31)) ∧ ((operand1 >>> 31) ≠ (result >>> 31)))) s0)
    else if opc = 0xB then do
      let result := (operand1 + operand2) &&& 0xFFFFFFFF
      pure (setCC (result >>> 31) (b2n (result = 0))
        (b2n ((operand1 >>> 31) + (operand2 >>> 31) > (result >>> 31)))
        (b2n (((operand1 >>> 31) = (operand2 >>> 31)) ∧ ((operand1 >>> 31) ≠ (result >>> 31)))) s0)
    else if opc = 0xC then do
      let result := operand1 ||| operand2
      let sf := if sBit ≠ 0 then setCC (result >>> 31) (b2n (result = 0)) s0.carry 2 s0 else s0
      setReg rd result sf
    else if opc = 0xD ∨ opc = 0xF then do
      let op2 := if opc = 0xF then operand2 ^^^ 0xFFFFFFFF else operand2
      let sf := if sBit ≠ 0 then setCC (op2 >>> 31) (b2n (op2 = 0)) s0.carry 2 s0 else s0
      setReg rd op2 sf
    else do
      let result := operand1 &&& (operand2 ^^^ 0xFFFFFFFF)
      let sf := if sBit ≠ 0 then setCC (result >>> 31) (b2n (result = 0)) s0.carry 2 s0 else s0
      setReg rd result sf
  let s2 := if sBit ≠ 0 ∧ r15T then { s1 with cpsr := getPSR s1 } else s1
  let rsh := if regShift then 1 else 0
  let r15n := if r15T then 1 else 0
  some { s2 with cycle := s2.cycle + (1 + r15n) + rsh + r15n }

/-- Multiply family (`procMUL` in `armProc.c`): MUL, MLA and the four
long multiplies, with the early-termination cycle count `m` derived
from the leading sign bits of the multiplier.  Opcode 2 and any other
opcode abort the process in the source, hence `none`. -/
def procMUL (instr : Nat) (s : Emu) : Option Emu := do
  let sBit := (instr >>> 20) &&& 1
  let rd := (instr >>> 16) &&& 0xF
  let rn := (instr >>> 12) &&& 0xF
  let rs := (instr >>> 8) &&& 0xF
  let rm := instr &&& 0xF
  let rsVal ← getReg rs s
  let leadingZeroes := rsVal ^^^ sar32 rsVal 31
  let m0 := if leadingZeroes = 0 then 4
    else 4 - (((customCLZ leadingZeroes + 0x7) &&& 0xFFFFFFF8) >>> 3)
  let m := if m0 = 0 then 4 else m0
  let opc := (instr >>> 21) &&& 0xF
  if opc = 0x0 then do
    let rmVal ← getReg rm s
    let result := (rmVal * rsVal) &&& 0xFFFFFFFF
    let sf := if sBit ≠ 0 then setCC (result >>> 31) (b2n (result = 0)) 2 2 s else s
    let s2 ← setReg rd result sf
    some { s2 with cycle := s2.cycle + 1 + m }
  else if opc = 0x1 then do
    let rmVal ← getReg rm s
    let rnVal ← getReg rn s
    let result := (rmVal * rsVal + rnVal) &&& 0xFFFFFFFF
    let sf := if sBit ≠ 0 then setCC (result >>> 31) (b2n (result = 0)) 2 2 s else s
    let s2 ← setReg rd result sf
    some { s2 with cycle := s2.cycle + 2 + m }
  else if opc = 0x4 then do
    let rmVal ← getReg rm s
    let result := (rmVal * rsVal) &&& 0xFFFFFFFFFFFFFFFF
    let sf := if sBit ≠ 0 then setCC (result >>> 63) (b2n (result = 0)) 2 2 s else s
    let s2 ← setReg rn result sf
    let s3 ← setReg rd (result >>> 32) s2
    some { s3 with cycle := s3.cycle + 2 + m }
  else if opc = 0x5 then do
    let rmVal ← getReg rm s
    let rdVal ← getReg rd s
    let rnVal ← getReg rn s
    let result := (rmVal * rsVal + ((rdVal <<< 32) ||| rnVal)) &&& 0xFFFFFFFFFFFFFFFF
    let sf := if sBit ≠ 0 then setCC (result >>> 63) (b2n (result = 0)) 2 2 s else s
    let s2 ← setReg rn result sf
    let s3 ← setReg rd (result >>> 32) s2
    some { s3 with cycle := s3.cycle + 3 + m }
  else if opc = 0x6 then do
    let rmVal ← getReg rm s
    let result := (sext32to64 rmVal * sext32to64 rsVal) &&& 0xFFFFFFFFFFFFFFFF
    let sf := if sBit ≠ 0 then setCC (result >>> 63) (b2n (result = 0)) 2 2 s else s
    let s2 ← setReg rn result sf
    let s3 ← setReg rd (result >>> 32) s2
    some { s3 with cycle := s3.cycle + 2 + m }
  else if opc = 0x7 then do
    let rmVal ← getReg rm s
    let rdVal ← getReg rd s
    let rnVal ← getReg rn s
    let result := (sext32to64 rmVal * sext32to64 rsVal + ((rdVal <<< 32) ||| rnVal)) &&&
      0xFFFFFFFFFFFFFFFF
    let sf := if sBit ≠ 0 then setCC (result >>> 63) (b2n (result = 0)) 2 2 s else s
    let s2 ← setReg rn result sf
    let s3 ← setReg rd (result >>> 32) s2
    some { s3 with cycle := s3.cycle + 3 + m }
  else none

/-- Single data transfer (`procSDT` in `armProc.c`): LDR/STR with the
documented misaligned-load rotation
`ROR(memReadWord(addr), ((addr & 3) * 8))`; the PLD encoding and the
post-indexed translate bit abort the process in the source. -/
def procSDT (fuel instr : Nat) (s : Emu) : Option Emu := do
  let i := (instr >>> 25) &&& 1
  let p := (instr >>> 24) &&& 1
  let u := (instr >>> 23) &&& 1
  let b := (instr >>> 22) &&& 1
  let t := (instr >>> 21) &&& 1
  let l := (instr >>> 20) &&& 1
  let rn := (instr >>> 16) &&& 0xF
  let rd := (instr >>> 12) &&& 0xF
  let shiftAmount := (instr >>> 7) &&& 0x1F
  let (offset0, s0) ←
    if i ≠ 0 then do
      let rmVal ← getReg (instr &&& 0xF) s
      barrelShifter ((instr >>> 5) &&& 0x3) rmVal shiftAmount true s
    else pure (instr &&& 0xFFF, s)
  let offset := if u = 0 then neg32 offset0 else offset0
  let rnVal ← getReg rn s0
  let addr := (rnVal + (if p ≠ 0 then offset else 0)) &&& 0xFFFFFFFF
  let shouldWriteBack := p = 0 ∨ (p ≠ 0 ∧ t ≠ 0)
  if p ≠ 0 ∧ b ≠ 0 ∧ l ≠ 0 ∧ t = 0 ∧ rd = 0xF ∧ ((instr >>> 28) &&& 0xF) = 0xF then none
  else if p = 0 ∧ t ≠ 0 then none
  else do
    let s1 ←
      if l ≠ 0 then do
        let (readVal, sr) :=
          if b ≠ 0 then memReadByte addr s0
          else
            let (w, sw) := memReadWord addr s0
            (rorC w ((addr &&& 0x3) * 8), sw)
        setReg rd readVal sr
      else do
        let rdVal ← getReg rd s0
        let storedVal := (rdVal + (if rd = 0xF then 4 else 0)) &&& 0xFFFFFFFF
        if b ≠ 0 then pure (memWriteByte fuel addr storedVal s0)
        else pure (memWriteWord fuel addr storedVal s0)
    let s2 ←
      if shouldWriteBack ∧ (l = 0 ∨ rn ≠ rd) then do
        let rnV ← getReg rn s1
        setReg rn ((rnV + (if rn = 0xF then 4 else 0) + offset) &&& 0xFFFFFFFF) s1
      else pure s1
    if l ≠ 0 then some { s2 with cycle := s2.cycle + 3 + (if rd = 0xF then 2 else 0) }
    else some { s2 with cycle := s2.cycle + 2 }

/-- Single data swap (`procSDS` in `armProc.c`). -/
def procSDS (fuel instr : Nat) (s : Emu) : Option Emu := do
  let b := (instr >>> 22) &&& 1
  let rn := (instr >>> 16) &&& 0xF
  let rd := (instr >>> 12) &&& 0xF
  let rm := instr &&& 0xF
  let addr ← getReg rn s
  if b ≠ 0 then do
    let (tempVal, s0) := memReadByte addr s
    let rmVal ← getReg rm s0
    let s1 := memWriteByte fuel addr rmVal s0
    let s2 ← setReg rd tempVal s1
    some { s2 with cycle := s2.cycle + 4 }
  else do
    let (w, s0) := memReadWord addr s
    let tempVal := rorC w ((addr &&& 0x3) * 8)
    let rnVal ← getReg rn s0
    let rmVal ← getReg rm s0
    let s1 := memWriteWord fuel rnVal rmVal s0
    let s2 ← setReg rd tempVal s1
    some { s2 with cycle := s2.cycle + 4 }

/-- Halfword and signed data transfer (`procHDTRI` in `armProc.c`).
The unimplemented LDRD/STRD store encodings abort the process in the
source, hence `none`. -/
def procHDTRI (fuel instr : Nat) (s : Emu) : Option Emu := do
  let p := (instr >>> 24) &&& 1
  let u := (instr >>> 23) &&& 1
  let i := (instr >>> 22) &&& 1
  let w := (instr >>> 21) &&& 1
  let l := (instr >>> 20) &&& 1
  let rn := (instr >>> 16) &&& 0xF
  let rd := (instr >>> 12) &&& 0xF
  let offset0 ←
    if i ≠ 0 then pure ((((instr >>> 8) &&& 0xF) <<< 4) ||| (instr &&& 0xF))
    else getReg (instr &&& 0xF) s
  let offset := if u = 0 then neg32 offset0 else offset0
  let rnVal ← getReg rn s
  let addr := (rnVal + (if p ≠ 0 then offset else 0)) &&& 0xFFFFFFFF
  let shouldWriteBack := (p ≠ 0 ∧ w ≠ 0) ∨ p = 0
  let op := (instr >>> 5) &&& 0x3
  let s1 ←
    if l ≠ 0 then
      if op = 0x1 then do
        let (readVal, sr) :=
          if addr &&& 1 ≠ 0 then
            let (h, sh) := memReadHalfWord ((addr + 0xFFFFFFFF) &&& 0xFFFFFFFF) s
            (rorC h 8, sh)
          else memReadHalfWord addr s
        setReg rd readVal sr
      else if op = 0x2 then do
        let (bv, sr) := memReadByte addr s
        setReg rd (sext8to32 bv) sr
      else if op = 0x3 then
        if addr &&& 1 ≠ 0 then do
          let (bv, sr) := memReadByte addr s
          setReg rd (sext8to32 bv) sr
        else do
          let (h, sr) := memReadHalfWord addr s
          setReg rd (sext16to32 h) sr
      else pure s
    else
      if op = 0x1 then do
        let rdVal ← getReg rd s
        pure (memWriteHalfWord fuel addr rdVal s)
      else if op = 0x2 ∨ op = 0x3 then none
      else pure s
  let s2 ←
    if shouldWriteBack ∧ (l = 0 ∨ rn ≠ rd) then do
      let rnV ← getReg rn s1
      setReg rn ((rnV + (if rn = 0xF then 4 else 0) + offset) &&& 0xFFFFFFFF) s1
    else pure s1
  if l ≠ 0 then some { s2 with cycle := s2.cycle + 3 + (if rd = 0xF then 2 else 0) }
  else some { s2 with cycle := s2.cycle + 2 }

/-- Block data transfer (`procBDT` in `armProc.c`): LDM/STM with the S
bit (user-bank transfer / PSR restore), register-list direction, empty
list handling, and base write-back quirks, modelled statement by
statement.  The cycle expression `(totalTransfers - 1) + 2` of the
store path is computed in C `int` arithmetic, so it equals
`totalTransfers + 1`. -/
def procBDT (fuel instr : Nat) (s : Emu) : Option Emu := do
  let p := (instr >>> 24) &&& 1
  let u := (instr >>> 23) &&& 1
  let sFlag := (instr >>> 22) &&& 1
  let w := (instr >>> 21) &&& 1
  let l := (instr >>> 20) &&& 1
  let rn := (instr >>> 16) &&& 0xF
  let regList0 := instr &&& 0xFFFF
  let r15T0 := (regList0 >>> 0xF) &&& 1 ≠ 0
  let (bankTransfer, s0) :=
    if sFlag ≠ 0 then
      if l ≠ 0 ∧ r15T0 then ((0 : Nat), { s with cpsr := getPSR s })
      else (s.cpsr, { s with cpsr := (s.cpsr &&& (0xFFFFFFFF ^^^ 0xFF)) ||| USER })
    else (0, s)
  let totalTransfers := customPopcount regList0
  let emptyRegList := totalTransfers = 0
  let baseAddr0 ← getReg rn s0
  let baseAddrOffset := if u ≠ 0 then 4 else 0xFFFFFFFC
  let regList := if emptyRegList then regList0 ||| (1 <<< 0xF) else regList0
  let r15T := if emptyRegList then true else r15T0
  let s1 ←
    if emptyRegList then setReg rn ((baseAddr0 + ((16 * baseAddrOffset) &&& 0xFFFFFFFF)) &&& 0xFFFFFFFF) s0
    else if w ≠ 0 then
      setReg rn ((baseAddr0 + ((totalTransfers * baseAddrOffset) &&& 0xFFFFFFFF)) &&& 0xFFFFFFFF) s0
    else pure s0
  let firstTransferredReg := customFFS regList - 1
  let baseAddrCopy := baseAddr0
  let order := if (decide (u ≠ 0)) ≠ (decide emptyRegList) then List.range 16
    else (List.range 16).reverse
  let final ← order.foldlM (fun (acc : Emu × Nat) reg => do
      let st := acc.1
      let baseAddr := acc.2
      if (regList >>> reg) &&& 1 ≠ 0 then do
        let transferAddr := if p ≠ 0 then (baseAddr + baseAddrOffset) &&& 0xFFFFFFFF else baseAddr
        let st1 ←
          if l ≠ 0 then do
            let (v, sr) := memReadWord transferAddr st
            setReg reg v sr
          else do
            let storedVal ← if reg = 0xF then pure (pcValue st) else getReg reg st
            let value := if reg = rn ∧ rn = firstTransferredReg then baseAddrCopy else storedVal
            pure (memWriteWord fuel transferAddr value st)
        let baseAddr1 := (baseAddr + baseAddrOffset) &&& 0xFFFFFFFF
        let baseAddr2 := if emptyRegList then (baseAddr1 + baseAddrOffset) &&& 0xFFFFFFFF else baseAddr1
        pure (st1, baseAddr2)
      else do
        let baseAddr2 := if emptyRegList then (baseAddr + baseAddrOffset) &&& 0xFFFFFFFF else baseAddr
        pure (st, baseAddr2))
    (s1, baseAddr0)
  let s2 := final.1
  let s3 := if bankTransfer ≠ 0 then { s2 with cpsr := bankTransfer } else s2
  let r15n := if r15T then 1 else 0
  if l ≠ 0 then some { s3 with cycle := s3.cycle + (totalTransfers + r15n) + (1 + r15n) + 1 }
  else some { s3 with cycle := s3.cycle + totalTransfers + 1 }

end Gba

namespace Gba

/-- Branch-and-exchange decode test (`armIsBX` in `armInstructions.c`). -/
def armIsBX (code : Nat) : Bool :=
  code &&& 0b00001111111111111111111111110000 = 0b00000001001011111111111100010000

/-- Block-data-transfer decode test (`armIsBDT`). -/
def armIsBDT (code : Nat) : Bool :=
  code &&& 0b00001110000000000000000000000000 = 0b00001000000000000000000000000000

/-- Branch / branch-with-link decode test (`armIsBL`). -/
def armIsBL (code : Nat) : Bool :=
  let extractedFormat := code &&& 0b00001111000000000000000000000000
  extractedFormat = 0b00001010000000000000000000000000 ∨
    extractedFormat = 0b00001011000000000000000000000000

/-- Software-interrupt decode test (`armIsSWI`). -/
def armIsSWI (code : Nat) : Bool :=
  code &&& 0b00001111000000000000000000000000 = 0b00001111000000000000000000000000

/-- Undefined-instruction decode test (`armIsUND`). -/
def armIsUND (code : Nat) : Bool :=
  code &&& 0b00001110000000000000000000010000 = 0b00000110000000000000000000010000

/-- Single-data-transfer decode test (`armIsSDT`). -/
def armIsSDT (code : Nat) : Bool :=
  code &&& 0b00001100000000000000000000000000 = 0b00000100000000000000000000000000

/-- Single-data-swap decode test (`armIsSDS`). -/
def armIsSDS (code : Nat) : Bool :=
  code &&& 0b00001111100000000000111111110000 = 0b00000001000000000000000010010000

/-- Multiply decode test (`armIsMUL`). -/
def armIsMUL (code : Nat) : Bool :=
  code &&& 0b00001111100000000000000011110000 = 0b00000000000000000000000010010000

/-- Multiply-long decode test (`armIsMULL`). -/
def armIsMULL (code : Nat) : Bool :=
  code &&& 0b00001111100000000000000011110000 = 0b00000000100000000000000010010000

/-- Halfword-data-transfer (register or immediate offset) decode test
(`armIsHDTRI`). -/
def armIsHDTRI (code : Nat) : Bool :=
  code &&& 0b00001110010000000000111110010000 = 0b00000000000000000000000010010000 ∨
    code &&& 0b00001110010000000000000010010000 = 0b00000000010000000000000010010000

/-- PSR-transfer (MRS/MSR) decode test (`armIsPSRT`). -/
def armIsPSRT (code : Nat) : Bool :=
  code &&& 0b00001111101111110000000000000000 = 0b00000001000011110000000000000000 ∨
    code &&& 0b00001101101100001111000000000000 = 0b00000001001000001111000000000000

/-- Data-processing decode test (`armIsDPROC`). -/
def armIsDPROC (code : Nat) : Bool :=
  code &&& 0b00001100000000000000000000000000 = 0b00000000000000000000000000000000

/-- The ARM instruction classes returned by `decodeInstruction` in
`cpu.c` (the enum values BX..DPROC of cpu.h). -/
inductive ArmType where
  | BX | BDT | BL | SWI | UND | SDT | SDS | MUL | HDTRI | PSRT | DPROC
deriving DecidableEq, Repr

/-- The ARM branch of `decodeInstruction` in `cpu.c`: the exact
if-else chain over the `armIs*` tests, in source order; the final
`exit(-9)` on an unrecognised opcode becomes `none`. -/
def decodeArm (instr : Nat) : Option ArmType :=
  if armIsBX instr then some ArmType.BX
  else if armIsBDT instr then some ArmType.BDT
  else if armIsBL instr then some ArmType.BL
  else if armIsSWI instr then some ArmType.SWI
  else if armIsUND instr then some ArmType.UND
  else if armIsSDT instr then some ArmType.SDT
  else if armIsSDS instr then some ArmType.SDS
  else if armIsMUL instr || armIsMULL instr then some ArmType.MUL
  else if armIsHDTRI instr then some ArmType.HDTRI
  else if armIsPSRT instr then some ArmType.PSRT
  else if armIsDPROC instr then some ArmType.DPROC
  else none

/-- One iteration of `execute` in `cpu.c`, restricted to ARM mode
(Thumb-mode states fall outside the modelled fragment and yield
`none`, as does any path on which the source calls `exit`):
take the instruction from the one-deep prefetch latch (a zero latch
counts as empty, exactly as the C truth test `cpu->pipeline ?` does)
or fetch it; refill the latch with the next fetch (the body of
`decodeInstruction`); then, if the condition field passes `evalCond`,
dispatch on the decoded class, else just charge one cycle.  `fuel`
bounds the bus-write/DMA recursion as everywhere else. -/
def executeArm (fuel : Nat) (s : Emu) : Option Emu := do
  if cpuInThumb s then none
  else do
    let (instr, s1) := if s.pipeline ≠ 0 then (s.pipeline, s) else fetchInstruction s
    let (nextInstr, s1a) := fetchInstruction s1
    let s2 := { s1a with pipeline := nextInstr }
    let type ← decodeArm instr
    if evalCond ((instr >>> 28) &&& 0xF) s2 then
      match type with
      | ArmType.BX => procBX instr s2
      | ArmType.BDT => procBDT fuel instr s2
      | ArmType.BL => procBL instr s2
      | ArmType.SWI => procSWI instr s2
      | ArmType.UND => procUND instr s2
      | ArmType.SDT => procSDT fuel instr s2
      | ArmType.SDS => procSDS fuel instr s2
      | ArmType.MUL => procMUL instr s2
      | ArmType.HDTRI => procHDTRI fuel instr s2
      | ArmType.PSRT => procPSRT instr s2
      | ArmType.DPROC => procDPROC instr s2
    else some { s2 with cycle := s2.cycle + 1 }

/-- One iteration of the `executeInput` loop in `cpu.c`: run one
instruction, then run the timers on the cycles it consumed when any
timer is enabled.  The loop body contains no call to `cpuCheckIRQ` and
no test of the `powerDown` flag. -/
def executeInputStep (fuel : Nat) (s : Emu) : Option Emu := do
  let s1 ← executeArm fuel s
  let cyclesPassed := s1.cycle - s.cycle
  if s1.timerENB ≠ 0 then pure (updateTimer fuel cyclesPassed s1)
  else pure s1

end Gba

namespace Gba

/-- A concrete all-zero machine state (SYSTEM mode, ARM state), used as
the base point of the concrete evaluations below. -/
def emu0 : Emu where
  regs := fun _ => 0
  regsFIQ := fun _ => 0
  regsSVC := fun _ => 0
  regsABT := fun _ => 0
  regsIRQ := fun _ => 0
  regsUND := fun _ => 0
  cpsr := 0x1F
  spsr_fiq := 0
  spsr_svc := 0
  spsr_abt := 0
  spsr_irq := 0
  spsr_und := 0
  carry := 0
  pipeline := 0
  cycle := 0
  bios := fun _ => 0
  eWRAM := fun _ => 0
  iWRAM := fun _ => 0
  palRAM := fun _ => 0
  vram := fun _ => 0
  oam := fun _ => 0
  rom := fun _ => 0
  palette := fun _ => 0
  internalPX := fun _ => 0
  internalPY := fun _ => 0
  biosBus := 0
  dispcnt := 0
  greenswp := 0
  dispstat := 0
  vcount := 0
  bgcnt := fun _ => 0
  bghofs := fun _ => 0
  bgvofs := fun _ => 0
  bgpa := fun _ => 0
  bgpb := fun _ => 0
  bgpc := fun _ => 0
  bgpd := fun _ => 0
  bgx := fun _ => 0
  bgy := fun _ => 0
  winh := fun _ => 0
  winv := fun _ => 0
  winin := 0
  winout := 0
  mosaic := 0
  bldcnt := 0
  bldalpha := 0
  bldy := 0
  sound1cnt_l := 0
  sound1cnt_h := 0
  sound1cnt_x := 0
  sound2cnt_l := 0
  sound2cnt_h := 0
  sound3cnt_l := 0
  sound3cnt_h := 0
  sound3cnt_x := 0
  sound4cnt_l := 0
  sound4cnt_h := 0
  soundcnt_l := 0
  soundcnt_h := 0
  soundcnt_x := 0
  soundbias := 0
  waveRam := fun _ _ => 0
  fifos := fun _ => { reg := 0, capacity := fun _ => 0, readIdx := 0, writeIdx := 0, size := 0 }
  timers := fun _ => { counter := 0, reload := 0, control := 0 }
  dmaRegs := fun _ => { source := 0, destination := 0, count := 0, control := 0 }
  siocnt := 0
  rcnt := 0
  keyinput := 0
  keycnt := 0
  ime := 0
  ie := 0
  i_f := 0
  waitcnt := 0
  postflag := 0
  haltcnt := 0
  dmaSrc := fun _ => 0
  dmaDest := fun _ => 0
  dmaCount := fun _ => 0
  timerTemps := fun _ => 0
  timerENB := 0
  sram := fun _ => 0
  flash := fun _ => 0
  eeprom := fun _ => 0
  flashBank := 0
  modeFlash := FlashMode.IDLE
  modeIdFlash := false
  usedFlash := false
  usedEEPROM := false
  readEEPROM := false
  addrEEPROM := 0
  readAddrEEPROM := 0
  buffEEPROM := fun _ => 0
  eepromIdx := 0
  romPtrGt16M := false
  accessTime16 := fun _ _ => 0
  accessTime32 := fun _ _ => 0
  channelStates := fun _ =>
    { phase := 0, lfsr := 0, samples := 0, lengthTime := 0, sweepTime := 0, envelopeTime := 0 }
  fifoSamp := fun _ => 0
  wavePosition := 0
  waveSamples := 0

/-- Input state for the C2 evaluation: I clear, IME = 1, IE = 2, IF = 2,
so an IRQ is pending, enabled in IE and in IME, but bit 0 of IE is
clear. -/
def c2StateA : Emu := { emu0 with ime := 1, ie := 2, i_f := 2 }

/-- Second input state for the C2 evaluation: IME = 0 (master disable)
but bit 0 of IE set with a matching IF bit. -/
def c2StateB : Emu := { emu0 with ime := 0, ie := 1, i_f := 1 }

/-- C2: the claim says an IRQ exception is raised exactly when CPSR.I is
clear, IME is nonzero and IE ∧ IF ≠ 0.  The code's `cpuCheckIRQ` guard
never reads IME: it tests bit 0 of IE instead.  On `c2StateA` (I clear,
IME = 1, IE ∧ IF = 2 ≠ 0) the claim demands an exception, but
`cpuCheckIRQ` returns the state unchanged; on `c2StateB` (IME = 0, so
the claim forbids an exception) `cpuCheckIRQ` enters IRQ mode. -/
theorem c2_cpuCheckIRQ_reads_ie_bit0_not_ime :
    (c2StateA.cpsr &&& 0x80 = 0 ∧ c2StateA.ime ≠ 0 ∧ c2StateA.ie &&& c2StateA.i_f ≠ 0 ∧
      cpuCheckIRQ c2StateA = c2StateA) ∧
    (c2StateB.ime = 0 ∧ processorMode (cpuCheckIRQ c2StateB) = IRQ ∧
      processorMode c2StateB = SYSTEM) := by
  refine ⟨⟨by decide, by decide, by decide, rfl⟩, ⟨rfl, rfl, rfl⟩⟩

/-- Register file for the C9 evaluation: recognisable values in the
live r13/r14. -/
def c9Regs : Nat → Nat :=
  fun i => if i = 13 then 0xDD13 else if i = 14 then 0xEE14 else 0

/-- Input state for the C9 evaluation: UNDEF mode with recognisable
values in the live r13/r14 and zeroes in the UND bank. -/
def c9State : Emu := { emu0 with cpsr := UNDEF, regs := c9Regs }

/-- C9: switching from UNDEF to SYSTEM saves the live r13/r14 through
`regToBank UNDEF`, which stores them at bank indices 1 and 2 (an
off-by-one; index 2 is out of bounds for the two-element `regsUND`);
switching back reads indices 0 and 1 in `bankToReg UNDEF`, so the round
trip UNDEF → SYSTEM → UNDEF does not restore r13/r14: r13 becomes the
stale bank slot 0 and r14 becomes the old r13. -/
theorem c9_undef_mode_roundtrip_loses_r13_r14 :
    c9State.regs 13 = 0xDD13 ∧ c9State.regs 14 = 0xEE14 ∧
    (cpuModeSet UNDEF (cpuModeSet SYSTEM c9State)).regs 13 = 0 ∧
    (cpuModeSet UNDEF (cpuModeSet SYSTEM c9State)).regs 14 = 0xDD13 := by
  refine ⟨rfl, rfl, rfl, rfl⟩

end Gba

namespace Gba

/-- Timer file for the C1 evaluation: timer 0 enabled, no prescaler, no
cascade, IRQ enable set, counter at 0xFFFF and a recognisable reload. -/
def c1Timers : Nat → Timer :=
  fun i => if i = 0 then { counter := 0xFFFF, reload := 0x1234, control := 0xC0 }
  else { counter := 0, reload := 0, control := 0 }

/-- Input state for the C1 evaluation. -/
def c1State : Emu := { emu0 with timers := c1Timers, timerENB := 1, ie := 0x3FFF }

/-- C1: the claim's overflow handling (counter := reload + (counter −
0x10000), cascade carry, timer IRQ) is dead code: `counter.full` is a
16-bit union field, so the stored value is always reduced mod 2^16 and
the `> 0xFFFF` test that guards the handling can never pass.  With
timer 0 enabled (IRQ enable set), counter 0xFFFF, reload 0x1234 and one
elapsed cycle, the claim demands counter = 0x1234 and the timer-0
interrupt flag (bit 3 of IF) raised; the code leaves the counter at
(0xFFFF + 1) mod 2^16 = 0 and raises no interrupt. -/
theorem c1_timer_overflow_reload_and_irq_are_dead_code :
    (c1State.timers 0).counter = 0xFFFF ∧ (c1State.timers 0).control &&& 0x40 ≠ 0 ∧
    ((updateTimer 1 1 c1State).timers 0).counter = 0 ∧
    (updateTimer 1 1 c1State).i_f = 0 := by
  refine ⟨rfl, by decide, rfl, rfl⟩

/-- Register file for the C8 evaluation: r15 in internal WRAM. -/
def c8Regs : Nat → Nat := fun i => if i = 15 then 0x03000000 else 0

/-- Input state for the C8 evaluation: ARM SYSTEM mode, a MOV r0, r0 in
the prefetch latch, no interrupt enabled or pending. -/
def c8State : Emu := { emu0 with regs := c8Regs, pipeline := 0xE1A00000 }

/-- The C8 state after the CPU writes 0x80 to HALTCNT. -/
def c8Halted : Emu := memWriteByte 2 REG_HALTCNT 0x80 c8State

/-- C8: a write to HALTCNT only sets the `powerDown` bit, and no code
ever reads it back: with `powerDown` set and IE ∧ IF = 0 (so the claim
says no further instruction may be dispatched), `executeArm` still
dispatches the latched instruction, advancing r15 and the cycle
counter. -/
theorem c8_haltcnt_power_down_never_blocks_dispatch :
    (c8Halted.haltcnt >>> 7) &&& 1 = 1 ∧
    c8Halted.ie &&& c8Halted.i_f = 0 ∧
    (executeArm 1 c8Halted).map (fun s2 => s2.regs 15) = some 0x03000004 ∧
    (executeArm 1 c8Halted).map (fun s2 => s2.cycle) = some (c8Halted.cycle + 1) := by
  refine ⟨rfl, rfl, rfl, rfl⟩

end Gba

namespace Gba

/-- Mask arithmetic: `(2^n − 1) <<< k` masks extract a shifted bit field. -/
theorem and_mask_shift (a n k : Nat) :
    a &&& ((2 ^ n - 1) <<< k) = ((a >>> k) % 2 ^ n) <<< k := by
  apply Nat.eq_of_testBit_eq
  intro i
  rw [Nat.testBit_and, Nat.testBit_shiftLeft, Nat.testBit_shiftLeft, Nat.testBit_mod_two_pow,
    Nat.testBit_shiftRight, Nat.testBit_two_pow_sub_one]
  by_cases h : k ≤ i
  · have hki : k + (i - k) = i := by omega
    rw [hki]
    by_cases h2 : i - k < n <;> cases ha : a.testBit i <;> simp [h, h2, ha, ge_iff_le]
  · simp [h, ge_iff_le]

/-- Disjoint bitwise or is addition (low part below bit `k`, high part a
multiple of `2^k`). -/
theorem lor_eq_add_gen (x y k : Nat) (hx : x % 2 ^ k = 0) (hy : y < 2 ^ k) :
    x ||| y = x + y := by
  obtain ⟨m, hm⟩ : ∃ m, x = 2 ^ k * m :=
    ⟨x / 2 ^ k, (Nat.mul_div_cancel' (Nat.dvd_of_mod_eq_zero hx)).symm⟩
  subst hm
  apply Nat.eq_of_testBit_eq
  intro i
  rw [Nat.testBit_or, Nat.testBit_mul_pow_two_add m hy i]
  have h0 : (2 ^ k * m).testBit i = if i < k then false else m.testBit (i - k) := by
    have := Nat.testBit_mul_pow_two_add m (show 0 < 2 ^ k from Nat.pos_pow_of_pos k (by norm_num)) i
    simpa using this
  rw [h0]
  by_cases hik : i < k
  · simp [hik]
  · have : y.testBit i = false := Nat.testBit_lt_two_pow
      (lt_of_lt_of_le hy (Nat.pow_le_pow_right (by norm_num) (by omega)))
    simp [hik, this]

/-- Symmetric form of `lor_eq_add_gen`. -/
theorem lor_eq_add_gen2 (x y k : Nat) (hx : x < 2 ^ k) (hy : y % 2 ^ k = 0) :
    x ||| y = x + y := by
  rw [Nat.lor_comm, lor_eq_add_gen y x k hy hx]
  omega

/-- Boolean helper for single-bit masks. -/
theorem toNat_decide_eq_one (x : Nat) (h : x < 2) : (decide (x = 1)).toNat = x := by
  interval_cases x <;> simp

/-- The 32-bit mask as a remainder. -/
theorem andM32 (a : Nat) : a &&& 0xFFFFFFFF = a % 0x100000000 := by
  have h : (0xFFFFFFFF : Nat) = 2 ^ 32 - 1 := by norm_num
  rw [h, Nat.and_pow_two_sub_one_eq_mod]

/-- The 16-bit mask as a remainder. -/
theorem andM16 (a : Nat) : a &&& 0xFFFF = a % 0x10000 := by
  have h : (0xFFFF : Nat) = 2 ^ 16 - 1 := by norm_num
  rw [h, Nat.and_pow_two_sub_one_eq_mod]

/-- The 8-bit mask as a remainder. -/
theorem andM8 (a : Nat) : a &&& 0xFF = a % 0x100 := by
  have h : (0xFF : Nat) = 2 ^ 8 - 1 := by norm_num
  rw [h, Nat.and_pow_two_sub_one_eq_mod]

/-- The 4-bit mask as a remainder. -/
theorem andM4 (a : Nat) : a &&& 0xF = a % 0x10 := by
  have h : (0xF : Nat) = 2 ^ 4 - 1 := by norm_num
  rw [h, Nat.and_pow_two_sub_one_eq_mod]

/-- The 5-bit mask as a remainder. -/
theorem andM5 (a : Nat) : a &&& 0x1F = a % 0x20 := by
  have h : (0x1F : Nat) = 2 ^ 5 - 1 := by norm_num
  rw [h, Nat.and_pow_two_sub_one_eq_mod]

/-- The 10-bit mask as a remainder. -/
theorem andM10 (a : Nat) : a &&& 0x3FF = a % 0x400 := by
  have h : (0x3FF : Nat) = 2 ^ 10 - 1 := by norm_num
  rw [h, Nat.and_pow_two_sub_one_eq_mod]

/-- The 12-bit mask as a remainder. -/
theorem andM12 (a : Nat) : a &&& 0xFFF = a % 0x1000 := by
  have h : (0xFFF : Nat) = 2 ^ 12 - 1 := by norm_num
  rw [h, Nat.and_pow_two_sub_one_eq_mod]

/-- The 15-bit mask as a remainder. -/
theorem andM15 (a : Nat) : a &&& 0x7FFF = a % 0x8000 := by
  have h : (0x7FFF : Nat) = 2 ^ 15 - 1 := by norm_num
  rw [h, Nat.and_pow_two_sub_one_eq_mod]

/-- The 17-bit mask as a remainder. -/
theorem andM17 (a : Nat) : a &&& 0x1FFFF = a % 0x20000 := by
  have h : (0x1FFFF : Nat) = 2 ^ 17 - 1 := by norm_num
  rw [h, Nat.and_pow_two_sub_one_eq_mod]

/-- The 18-bit mask as a remainder. -/
theorem andM18 (a : Nat) : a &&& 0x3FFFF = a % 0x40000 := by
  have h : (0x3FFFF : Nat) = 2 ^ 18 - 1 := by norm_num
  rw [h, Nat.and_pow_two_sub_one_eq_mod]

/-- The 1-bit mask as a remainder. -/
theorem andM1 (a : Nat) : a &&& 1 = a % 2 := by
  have h : (1 : Nat) = 2 ^ 1 - 1 := by norm_num
  rw [h, Nat.and_pow_two_sub_one_eq_mod]

/-- The 2-bit mask as a remainder. -/
theorem andM2 (a : Nat) : a &&& 3 = a % 4 := by
  have h : (3 : Nat) = 2 ^ 2 - 1 := by norm_num
  rw [h, Nat.and_pow_two_sub_one_eq_mod]

/-- Word alignment mask in div/mul form. -/
theorem andAlign4 (a : Nat) : a &&& 0xFFFFFFFC = a % 0x100000000 / 4 * 4 := by
  have h : (0xFFFFFFFC : Nat) = (2 ^ 30 - 1) <<< 2 := by decide
  rw [h, and_mask_shift, Nat.shiftLeft_eq, Nat.shiftRight_eq_div_pow]
  have e2 : (2 : Nat) ^ 2 = 4 := by norm_num
  have e30 : (2 : Nat) ^ 30 = 0x40000000 := by norm_num
  rw [e2, e30]
  omega

/-- Halfword alignment mask in div/mul form. -/
theorem andAlign2 (a : Nat) : a &&& 0xFFFFFFFE = a % 0x100000000 / 2 * 2 := by
  have h : (0xFFFFFFFE : Nat) = (2 ^ 31 - 1) <<< 1 := by decide
  rw [h, and_mask_shift, Nat.shiftLeft_eq, Nat.shiftRight_eq_div_pow]
  have e1 : (2 : Nat) ^ 1 = 2 := by norm_num
  have e31 : (2 : Nat) ^ 31 = 0x80000000 := by norm_num
  rw [e1, e31]
  omega

/-- Palette pair alignment mask in div/mul form. -/
theorem andAlign3FE (a : Nat) : a &&& 0x3FE = a % 0x400 / 2 * 2 := by
  have h : (0x3FE : Nat) = (2 ^ 9 - 1) <<< 1 := by decide
  rw [h, and_mask_shift, Nat.shiftLeft_eq, Nat.shiftRight_eq_div_pow]
  have e1 : (2 : Nat) ^ 1 = 2 := by norm_num
  have e9 : (2 : Nat) ^ 9 = 0x200 := by norm_num
  rw [e1, e9]
  omega

/-- Bit 16 extraction in div/mod form. -/
theorem andBit16 (a : Nat) : a &&& 0x10000 = a / 0x10000 % 2 * 0x10000 := by
  have h : (0x10000 : Nat) = 2 ^ 16 := by norm_num
  rw [h, Nat.and_two_pow, Nat.testBit_to_div_mod,
    toNat_decide_eq_one _ (Nat.mod_lt _ (by norm_num))]

/-- The mirrored VRAM mask 0x17FFF in arithmetic form. -/
theorem and17FFF (a : Nat) : a &&& 0x17FFF = a / 0x10000 % 2 * 0x10000 + a % 0x8000 := by
  have h : (0x17FFF : Nat) = 0x10000 ||| 0x7FFF := by decide
  rw [h, Nat.and_or_distrib_left, andBit16, andM15, Nat.lor_comm]
  rw [lor_eq_add_gen2 (a % 0x8000) (a / 0x10000 % 2 * 0x10000) 16 (by omega) (by omega)]
  omega

/-- The barrel rotation result fits in 32 bits. -/
theorem rorC_lt32 (x n : Nat) : rorC x n < 0x100000000 := by
  unfold rorC
  have h := @Nat.and_le_right
    ((x >>> (n % 32)) ||| ((x <<< ((32 - n % 32) % 32)) &&& 0xFFFFFFFF)) 0xFFFFFFFF
  omega

/-- Reducing a 32-bit value mod 2^32 changes nothing. -/
theorem rorC_mod32 (x n : Nat) : rorC x n % 0x100000000 = rorC x n :=
  Nat.mod_eq_of_lt (rorC_lt32 x n)

/-- 32-bit masking below the bound is the identity. -/
theorem and32_eq_of_lt (x : Nat) (h : x < 0x100000000) : x &&& 0xFFFFFFFF = x := by
  rw [andM32]; omega

/-- Low byte of a 16-bit store. -/
theorem write16_at (m : Nat → Nat) (i v : Nat) : write16 m i v i = v &&& 0xFF := by
  unfold write16
  rw [Function.update_noteq (by omega), Function.update_same]

/-- High byte of a 16-bit store. -/
theorem write16_at1 (m : Nat → Nat) (i v : Nat) : write16 m i v (i + 1) = (v >>> 8) &&& 0xFF := by
  unfold write16
  rw [Function.update_same]

/-- The VRAM index map sends the odd successor of an even address to the
successor of its index (bit 16 of the address is unchanged by `+ 1` on
an even address, so the same mirror mask applies). -/
theorem vramIdx_succ (a : Nat) (hev : a % 2 = 0) : vramIdx (a + 1) = vramIdx a + 1 := by
  simp only [vramIdx, andBit16]
  by_cases h : a / 0x10000 % 2 * 0x10000 ≠ 0
  · rw [if_pos (show (a + 1) / 0x10000 % 2 * 0x10000 ≠ 0 by omega),
      if_pos h, and17FFF (a + 1), and17FFF a]
    omega
  · rw [if_neg (show ¬ ((a + 1) / 0x10000 % 2 * 0x10000 ≠ 0) by omega),
      if_neg h, andM17 (a + 1), andM17 a]
    omega

/-- A word read with the address top byte 0x03 is a pure internal-WRAM
read: `memReadWord` aligns the address down to 4 and indexes `iWRAM`
with the low 15 bits, leaving the state unchanged. -/
theorem memReadWord_iwram (s : Emu) (a : Nat) (ha : a >>> 24 = 3) :
    memReadWord a s = (read32 s.iWRAM ((a &&& 0xFFFFFFFC) &&& 0x7FFF), s) := by
  have ha2 : a / 0x1000000 = 3 := by
    rw [Nat.shiftRight_eq_div_pow] at ha; norm_num at ha; exact ha
  have h3 : (((a &&& 0xFFFFFFFF) &&& 0xFFFFFFFC) >>> 24) &&& 0xFF = 3 := by
    rw [andM32, andAlign4, andM8, Nat.shiftRight_eq_div_pow]
    norm_num
    omega
  simp only [memReadWord, h3]
  norm_num
  have h4 : ((a &&& 0xFFFFFFFF) &&& 0xFFFFFFFC) &&& 0x7FFF = (a &&& 0xFFFFFFFC) &&& 0x7FFF := by
    rw [andM32, andAlign4, andAlign4, andM15, andM15]
    omega
  rw [h4]


set_option maxHeartbeats 4000000 in
/-- An aligned word write whose top address byte is 2 lands in external
WRAM at offset `a % 0x40000` (`memWriteWord` in `memory.c`). -/
theorem memWriteWord_ewram (s : Emu) (a w fuel : Nat) (ha : a >>> 24 = 2) (hal : a % 4 = 0) :
    memWriteWord (fuel + 1) a w s =
      { s with eWRAM := write32 s.eWRAM (a % 0x40000) (w % 0x100000000) } := by
  have ha2 : a / 0x1000000 = 2 := by
    rw [Nat.shiftRight_eq_div_pow] at ha; norm_num at ha; exact ha
  simp only [memWriteWord, andM32, andM18, andM4, andAlign4, Nat.shiftRight_eq_div_pow]
  norm_num
  rw [if_pos (show a % 4294967296 / 4 * 4 / 16777216 % 16 = 2 by omega)]
  rw [show a % 4294967296 / 4 * 4 % 262144 = a % 262144 by omega]



set_option maxHeartbeats 16000000 in
/-- The DMA unit loop in 32-bit mode with incrementing pointers, an
external-WRAM destination and an internal-WRAM source: after `n` units
the count has wrapped to 0xFFFFFFFF and both latched pointers have
advanced by `4 * n`; only eWRAM changes besides the DMA bookkeeping. -/
theorem dmaUnits_ewram_iwram (n : Nat) : ∀ (s : Emu) (ch dst src fuel : Nat),
    s.dmaCount ch = n →
    s.dmaDest ch = dst →
    s.dmaSrc ch = src →
    (s.dmaRegs ch).control &&& DMA_32 ≠ 0 →
    dst >>> 24 = 2 → dst % 4 = 0 → dst % 0x1000000 + 4 * n < 0x1000000 →
    src >>> 24 = 3 → src % 0x1000000 + 4 * n < 0x1000000 →
    n + 1 ≤ fuel →
    ∃ m2, dmaUnits fuel ch 4 4 s =
      { s with eWRAM := m2,
               dmaCount := Function.update s.dmaCount ch 0xFFFFFFFF,
               dmaDest := Function.update s.dmaDest ch (dst + 4 * n),
               dmaSrc := Function.update s.dmaSrc ch (src + 4 * n) } := by
  induction n with
  | zero =>
    intro s ch dst src fuel hcount hdst hsrc hctrl hd1 hd2 hd3 hs1 hs3 hfuel
    obtain ⟨f, rfl⟩ : ∃ f, fuel = f + 1 := ⟨fuel - 1, by omega⟩
    refine ⟨s.eWRAM, ?_⟩
    simp only [dmaUnits, hcount]
    norm_num
    exact ⟨hsrc, hdst⟩
  | succ m ih =>
    intro s ch dst src fuel hcount hdst hsrc hctrl hd1 hd2 hd3 hs1 hs3 hfuel
    obtain ⟨f, rfl⟩ : ∃ f, fuel = f + 1 := ⟨fuel - 1, by omega⟩
    simp only [dmaUnits, hcount]
    rw [show (m + 1 + 0xFFFFFFFF) &&& 0xFFFFFFFF = m by rw [andM32]; omega]
    rw [if_neg (show ¬ (m + 1 = 0) by omega)]
    rw [if_pos hctrl]
    rw [hsrc, hdst]
    rw [memReadWord_iwram _ src hs1]
    rw [show f = f - 1 + 1 by omega]
    rw [memWriteWord_ewram _ dst _ (f - 1) hd1 hd2]
    norm_num
    rw [hsrc, hdst]
    rw [show (src + 4) &&& 0xFFFFFFFF = src + 4 by rw [andM32]; omega,
      show (dst + 4) &&& 0xFFFFFFFF = dst + 4 by rw [andM32]; omega]
    have hd1a : dst / 16777216 = 2 := by
      rw [Nat.shiftRight_eq_div_pow] at hd1; norm_num at hd1; exact hd1
    have hs1a : src / 16777216 = 3 := by
      rw [Nat.shiftRight_eq_div_pow] at hs1; norm_num at hs1; exact hs1
    obtain ⟨m2, hm2⟩ := ih
      { s with eWRAM := write32 s.eWRAM (dst % 262144) (read32 s.iWRAM ((src &&& 0xFFFFFFFC) &&& 0x7FFF) % 0x100000000), dmaSrc := Function.update s.dmaSrc ch (src + 4), dmaDest := Function.update s.dmaDest ch (dst + 4), dmaCount := Function.update s.dmaCount ch m }
      ch (dst + 4) (src + 4) (f - 1 + 1)
      (by simp) (by simp) (by simp) hctrl
      (by rw [Nat.shiftRight_eq_div_pow]; norm_num; omega)
      (by omega) (by omega)
      (by rw [Nat.shiftRight_eq_div_pow]; norm_num; omega)
      (by omega) (by omega)
    rw [hm2]
    refine ⟨m2, ?_⟩
    norm_num
    constructor
    · rw [show src + 4 + 4 * m = src + 4 * (m + 1) by ring]
    · rw [show dst + 4 + 4 * m = dst + 4 * (m + 1) by ring]



/-- A disabled DMA channel is skipped by `dmaChannelRun`. -/
theorem dmaChannelRun_skip (fuel timing ch : Nat) (s : Emu)
    (h : (s.dmaRegs ch).control &&& DMA_ENB = 0) :
    dmaChannelRun fuel timing ch s = s := by
  cases fuel with
  | zero => rfl
  | succ f =>
    simp only [dmaChannelRun]
    rw [if_pos (Or.inl h)]

set_option maxHeartbeats 16000000 in
/-- Full run of an enabled immediate-timing 32-bit DMA channel with
incrementing source and destination modes (eWRAM destination, iWRAM
source): the unit loop drains the count, the channel IRQ is raised
exactly when `DMA_IRQ` is set, and the count is reloaded when `DMA_REP`
is set, otherwise the enable bit is cleared. -/
theorem dmaChannelRun_immediate (s : Emu) (ch dst src n fuel : Nat)
    (hcount : s.dmaCount ch = n)
    (hdst0 : s.dmaDest ch = dst) (hsrc0 : s.dmaSrc ch = src)
    (henb : (s.dmaRegs ch).control &&& DMA_ENB ≠ 0)
    (htim : ((s.dmaRegs ch).control >>> 12) &&& 3 = 0)
    (h32 : (s.dmaRegs ch).control &&& DMA_32 ≠ 0)
    (hdm : ((s.dmaRegs ch).control >>> 5) &&& 3 = 0)
    (hsm : ((s.dmaRegs ch).control >>> 7) &&& 3 = 0)
    (hd1 : dst >>> 24 = 2) (hd2 : dst % 4 = 0) (hd3 : dst % 0x1000000 + 4 * n < 0x1000000)
    (hs1 : src >>> 24 = 3) (hs3 : src % 0x1000000 + 4 * n < 0x1000000)
    (hfuel : n + 2 ≤ fuel) :
    ∃ m2, dmaChannelRun fuel 0 ch s =
      { s with eWRAM := m2,
               eepromIdx := if ch = 3 then 0 else s.eepromIdx,
               dmaDest := Function.update s.dmaDest ch (dst + 4 * n),
               dmaSrc := Function.update s.dmaSrc ch (src + 4 * n),
               i_f := if (s.dmaRegs ch).control &&& DMA_IRQ ≠ 0 then (s.i_f ||| (((1 <<< 8) <<< ch) &&& 0xFFFF)) &&& 0xFFFF else s.i_f,
               haltcnt := if (s.dmaRegs ch).control &&& DMA_IRQ ≠ 0 then s.haltcnt &&& 0x7F else s.haltcnt,
               dmaCount := Function.update s.dmaCount ch (if (s.dmaRegs ch).control &&& DMA_REP ≠ 0 then (s.dmaRegs ch).count &&& 0xFFFF else 0xFFFFFFFF),
               dmaRegs := if (s.dmaRegs ch).control &&& DMA_REP ≠ 0 then s.dmaRegs else Function.update s.dmaRegs ch { s.dmaRegs ch with control := (s.dmaRegs ch).control &&& (0xFFFF ^^^ DMA_ENB) } } := by
  obtain ⟨f, rfl⟩ : ∃ f, fuel = f + 1 := ⟨fuel - 1, by omega⟩
  simp only [dmaChannelRun]
  rw [if_neg (not_or.mpr ⟨henb, by simp [htim]⟩)]
  rw [if_pos h32, hdm, hsm]
  by_cases hch3 : ch = 3
  · subst hch3
    norm_num
    obtain ⟨m2, hu⟩ := dmaUnits_ewram_iwram n { s with eepromIdx := 0 } 3 dst src f
      hcount hdst0 hsrc0 h32 hd1 hd2 hd3 hs1 hs3 (by omega)
    rw [hu]
    norm_num
    by_cases hirq : (s.dmaRegs 3).control &&& DMA_IRQ = 0
    · simp only [hirq]
      norm_num
      by_cases hrep : (s.dmaRegs 3).control &&& DMA_REP = 0
      · simp only [hrep]
        norm_num [Function.update_idem]
      · simp only [hrep]
        norm_num [Function.update_idem]
    · simp only [hirq]
      norm_num [triggerIRQ]
      by_cases hrep : (s.dmaRegs 3).control &&& DMA_REP = 0
      · simp only [hrep]
        norm_num [Function.update_idem]
      · simp only [hrep]
        norm_num [Function.update_idem]
  · norm_num [hch3]
    obtain ⟨m2, hu⟩ := dmaUnits_ewram_iwram n s ch dst src f
      hcount hdst0 hsrc0 h32 hd1 hd2 hd3 hs1 hs3 (by omega)
    rw [hu]
    norm_num
    by_cases hirq : (s.dmaRegs ch).control &&& DMA_IRQ = 0
    · simp only [hirq]
      norm_num
      by_cases hrep : (s.dmaRegs ch).control &&& DMA_REP = 0
      · simp only [hrep]
        norm_num [Function.update_idem]
      · simp only [hrep]
        norm_num [Function.update_idem]
    · simp only [hirq]
      norm_num [triggerIRQ]
      by_cases hrep : (s.dmaRegs ch).control &&& DMA_REP = 0
      · simp only [hrep]
        norm_num [Function.update_idem]
      · simp only [hrep]
        norm_num [Function.update_idem]


/-- Flip detector of `dmaLoad`: when the stored enable bit (bit 7 of the
high control byte) is clear and the written byte has it set, the
`(old ^ value) & value & 0x80` test fires. -/
theorem flip_cond (old w : Nat) (h1 : old &&& 0x80 = 0) (h2 : w &&& 0x80 ≠ 0) :
    (old ^^^ w) &&& w &&& 0x80 ≠ 0 := by
  rw [show (0x80 : Nat) = 2 ^ 7 from rfl] at h1 h2 ⊢
  rw [Nat.and_two_pow] at h1 h2 ⊢
  rw [Nat.testBit_and, Nat.testBit_xor]
  rcases hb : old.testBit 7 <;> rcases hw : w.testBit 7 <;>
    simp [hb, hw] at h1 h2 ⊢

/-- A halfword read whose top address byte is 3 comes from internal WRAM
at the aligned offset (`memReadHalfWord` in `memory.c`). -/
theorem memReadHalfWord_iwram (s : Emu) (a : Nat) (ha : a >>> 24 = 3) :
    memReadHalfWord a s = (read16 s.iWRAM ((a &&& 0xFFFFFFFE) &&& 0x7FFF), s) := by
  have ha2 : a / 0x1000000 = 3 := by
    rw [Nat.shiftRight_eq_div_pow] at ha; norm_num at ha; exact ha
  have h3 : (((a &&& 0xFFFFFFFF) &&& 0xFFFFFFFE) >>> 24) &&& 0xFF = 3 := by
    rw [andM32, andAlign2, andM8, Nat.shiftRight_eq_div_pow]
    norm_num
    omega
  simp only [memReadHalfWord, h3]
  norm_num
  have h4 : ((a &&& 0xFFFFFFFF) &&& 0xFFFFFFFE) &&& 0x7FFF = (a &&& 0xFFFFFFFE) &&& 0x7FFF := by
    rw [andM32, andAlign2, andAlign2, andM15, andM15]
    omega
  rw [h4]

set_option maxHeartbeats 4000000 in
/-- An aligned halfword write whose top address byte is 2 lands in
external WRAM at offset `a % 0x40000` (`memWriteHalfWord` in
`memory.c`). -/
theorem memWriteHalfWord_ewram (s : Emu) (a hw fuel : Nat) (ha : a >>> 24 = 2) (hal : a % 2 = 0) :
    memWriteHalfWord (fuel + 1) a hw s =
      { s with eWRAM := write16 s.eWRAM (a % 0x40000) (hw % 0x10000) } := by
  have ha2 : a / 0x1000000 = 2 := by
    rw [Nat.shiftRight_eq_div_pow] at ha; norm_num at ha; exact ha
  simp only [memWriteHalfWord, andM32, andM18, andM16, andM4, andAlign2, Nat.shiftRight_eq_div_pow]
  norm_num
  rw [if_pos (show a % 4294967296 / 2 * 2 / 16777216 % 16 = 2 by omega)]
  rw [show a % 4294967296 / 2 * 2 % 262144 = a % 262144 by omega]

set_option maxHeartbeats 16000000 in
/-- The DMA unit loop in 16-bit mode with incrementing pointers, an
external-WRAM destination and an internal-WRAM source. -/
theorem dmaUnits_ewram_iwram16 (n : Nat) : ∀ (s : Emu) (ch dst src fuel : Nat),
    s.dmaCount ch = n →
    s.dmaDest ch = dst →
    s.dmaSrc ch = src →
    (s.dmaRegs ch).control &&& DMA_32 = 0 →
    dst >>> 24 = 2 → dst % 2 = 0 → dst % 0x1000000 + 2 * n < 0x1000000 →
    src >>> 24 = 3 → src % 0x1000000 + 2 * n < 0x1000000 →
    n + 1 ≤ fuel →
    ∃ m2, dmaUnits fuel ch 2 2 s =
      { s with eWRAM := m2,
               dmaCount := Function.update s.dmaCount ch 0xFFFFFFFF,
               dmaDest := Function.update s.dmaDest ch (dst + 2 * n),
               dmaSrc := Function.update s.dmaSrc ch (src + 2 * n) } := by
  induction n with
  | zero =>
    intro s ch dst src fuel hcount hdst hsrc hctrl hd1 hd2 hd3 hs1 hs3 hfuel
    obtain ⟨f, rfl⟩ : ∃ f, fuel = f + 1 := ⟨fuel - 1, by omega⟩
    refine ⟨s.eWRAM, ?_⟩
    simp only [dmaUnits, hcount]
    norm_num
    exact ⟨hsrc, hdst⟩
  | succ m ih =>
    intro s ch dst src fuel hcount hdst hsrc hctrl hd1 hd2 hd3 hs1 hs3 hfuel
    obtain ⟨f, rfl⟩ : ∃ f, fuel = f + 1 := ⟨fuel - 1, by omega⟩
    simp only [dmaUnits, hcount]
    rw [show (m + 1 + 0xFFFFFFFF) &&& 0xFFFFFFFF = m by rw [andM32]; omega]
    rw [if_neg (show ¬ (m + 1 = 0) by omega)]
    rw [if_neg (show ¬ ((s.dmaRegs ch).control &&& DMA_32 ≠ 0) by simpa using hctrl)]
    rw [hsrc, hdst]
    rw [memReadHalfWord_iwram _ src hs1]
    rw [show f = f - 1 + 1 by omega]
    rw [memWriteHalfWord_ewram _ dst _ (f - 1) hd1 hd2]
    norm_num
    rw [hsrc, hdst]
    rw [show (src + 2) &&& 0xFFFFFFFF = src + 2 by rw [andM32]; omega,
      show (dst + 2) &&& 0xFFFFFFFF = dst + 2 by rw [andM32]; omega]
    have hd1a : dst / 16777216 = 2 := by
      rw [Nat.shiftRight_eq_div_pow] at hd1; norm_num at hd1; exact hd1
    have hs1a : src / 16777216 = 3 := by
      rw [Nat.shiftRight_eq_div_pow] at hs1; norm_num at hs1; exact hs1
    obtain ⟨m2, hm2⟩ := ih
      { s with eWRAM := write16 s.eWRAM (dst % 262144) (read16 s.iWRAM ((src &&& 0xFFFFFFFE) &&& 0x7FFF) % 0x10000), dmaSrc := Function.update s.dmaSrc ch (src + 2), dmaDest := Function.update s.dmaDest ch (dst + 2), dmaCount := Function.update s.dmaCount ch m }
      ch (dst + 2) (src + 2) (f - 1 + 1)
      (by simp) (by simp) (by simp) hctrl
      (by rw [Nat.shiftRight_eq_div_pow]; norm_num; omega)
      (by omega) (by omega)
      (by rw [Nat.shiftRight_eq_div_pow]; norm_num; omega)
      (by omega) (by omega)
    rw [hm2]
    refine ⟨m2, ?_⟩
    norm_num
    constructor
    · rw [show src + 2 + 2 * m = src + 2 * (m + 1) by ring]
    · rw [show dst + 2 + 2 * m = dst + 2 * (m + 1) by ring]

/-- Unit loop in either width: 4-byte units when `DMA_32` is set, 2-byte
units when clear. -/
theorem dmaUnits_ewram_iwram_gen (n : Nat) (s : Emu) (ch u dst src fuel : Nat)
    (hcount : s.dmaCount ch = n)
    (hdst : s.dmaDest ch = dst) (hsrc : s.dmaSrc ch = src)
    (hu : ((s.dmaRegs ch).control &&& DMA_32 ≠ 0 ∧ u = 4) ∨
      ((s.dmaRegs ch).control &&& DMA_32 = 0 ∧ u = 2))
    (hd1 : dst >>> 24 = 2) (hd2 : dst % u = 0) (hd3 : dst % 0x1000000 + u * n < 0x1000000)
    (hs1 : src >>> 24 = 3) (hs3 : src % 0x1000000 + u * n < 0x1000000)
    (hfuel : n + 1 ≤ fuel) :
    ∃ m2, dmaUnits fuel ch u u s =
      { s with eWRAM := m2,
               dmaCount := Function.update s.dmaCount ch 0xFFFFFFFF,
               dmaDest := Function.update s.dmaDest ch (dst + u * n),
               dmaSrc := Function.update s.dmaSrc ch (src + u * n) } := by
  rcases hu with ⟨h, rfl⟩ | ⟨h, rfl⟩
  · exact dmaUnits_ewram_iwram n s ch dst src fuel hcount hdst hsrc h hd1 hd2 hd3 hs1 hs3 hfuel
  · exact dmaUnits_ewram_iwram16 n s ch dst src fuel hcount hdst hsrc h hd1 hd2 hd3 hs1 hs3 hfuel

set_option maxHeartbeats 16000000 in
/-- General full run of an enabled immediate-timing DMA channel in
either width, with incrementing source mode and destination mode 0
(increment) or 3 (increment + end reload). -/
theorem dmaChannelRun_immediate2 (s : Emu) (ch u dst src n fuel : Nat)
    (hcount : s.dmaCount ch = n)
    (hdst0 : s.dmaDest ch = dst) (hsrc0 : s.dmaSrc ch = src)
    (henb : (s.dmaRegs ch).control &&& DMA_ENB ≠ 0)
    (htim : ((s.dmaRegs ch).control >>> 12) &&& 3 = 0)
    (hu : ((s.dmaRegs ch).control &&& DMA_32 ≠ 0 ∧ u = 4) ∨
      ((s.dmaRegs ch).control &&& DMA_32 = 0 ∧ u = 2))
    (hdm : ((s.dmaRegs ch).control >>> 5) &&& 3 = 0 ∨ ((s.dmaRegs ch).control >>> 5) &&& 3 = 3)
    (hsm : ((s.dmaRegs ch).control >>> 7) &&& 3 = 0)
    (hd1 : dst >>> 24 = 2) (hd2 : dst % u = 0) (hd3 : dst % 0x1000000 + u * n < 0x1000000)
    (hs1 : src >>> 24 = 3) (hs3 : src % 0x1000000 + u * n < 0x1000000)
    (hfuel : n + 2 ≤ fuel) :
    ∃ m2, dmaChannelRun fuel 0 ch s =
      { s with eWRAM := m2,
               eepromIdx := if ch = 3 then 0 else s.eepromIdx,
               dmaDest := Function.update s.dmaDest ch
                 (if (s.dmaRegs ch).control &&& DMA_REP ≠ 0 ∧ ((s.dmaRegs ch).control >>> 5) &&& 3 = 3
                  then (s.dmaRegs ch).destination &&& 0xFFFFFFFF else dst + u * n),
               dmaSrc := Function.update s.dmaSrc ch (src + u * n),
               i_f := if (s.dmaRegs ch).control &&& DMA_IRQ ≠ 0 then (s.i_f ||| (((1 <<< 8) <<< ch) &&& 0xFFFF)) &&& 0xFFFF else s.i_f,
               haltcnt := if (s.dmaRegs ch).control &&& DMA_IRQ ≠ 0 then s.haltcnt &&& 0x7F else s.haltcnt,
               dmaCount := Function.update s.dmaCount ch (if (s.dmaRegs ch).control &&& DMA_REP ≠ 0 then (s.dmaRegs ch).count &&& 0xFFFF else 0xFFFFFFFF),
               dmaRegs := if (s.dmaRegs ch).control &&& DMA_REP ≠ 0 then s.dmaRegs else Function.update s.dmaRegs ch { s.dmaRegs ch with control := (s.dmaRegs ch).control &&& (0xFFFF ^^^ DMA_ENB) } } := by
  obtain ⟨f, rfl⟩ : ∃ f, fuel = f + 1 := ⟨fuel - 1, by omega⟩
  simp only [dmaChannelRun]
  rw [if_neg (not_or.mpr ⟨henb, by simp [htim]⟩)]
  have hun : (if (s.dmaRegs ch).control &&& DMA_32 ≠ 0 then 4 else 2) = u := by
    rcases hu with ⟨h, rfl⟩ | ⟨h, rfl⟩
    · rw [if_pos h]
    · rw [if_neg (by simpa using h)]
  rw [hun, hsm]
  rcases hdm with hdm | hdm <;> rw [hdm]
  · by_cases hch3 : ch = 3
    · subst hch3
      norm_num
      obtain ⟨m2, hu2⟩ := dmaUnits_ewram_iwram_gen n { s with eepromIdx := 0 } 3 u dst src f
        hcount hdst0 hsrc0 hu hd1 hd2 hd3 hs1 hs3 (by omega)
      rw [hu2]
      norm_num
      by_cases hirq : (s.dmaRegs 3).control &&& DMA_IRQ = 0
      · simp only [hirq]
        norm_num
        by_cases hrep : (s.dmaRegs 3).control &&& DMA_REP = 0
        · simp only [hrep]
          norm_num [Function.update_idem]
        · simp only [hrep]
          norm_num [Function.update_idem]
      · simp only [hirq]
        norm_num [triggerIRQ]
        by_cases hrep : (s.dmaRegs 3).control &&& DMA_REP = 0
        · simp only [hrep]
          norm_num [Function.update_idem]
        · simp only [hrep]
          norm_num [Function.update_idem]
    · norm_num [hch3]
      obtain ⟨m2, hu2⟩ := dmaUnits_ewram_iwram_gen n s ch u dst src f
        hcount hdst0 hsrc0 hu hd1 hd2 hd3 hs1 hs3 (by omega)
      rw [hu2]
      norm_num
      by_cases hirq : (s.dmaRegs ch).control &&& DMA_IRQ = 0
      · simp only [hirq]
        norm_num
        by_cases hrep : (s.dmaRegs ch).control &&& DMA_REP = 0
        · simp only [hrep]
          norm_num [Function.update_idem]
        · simp only [hrep]
          norm_num [Function.update_idem]
      · simp only [hirq]
        norm_num [triggerIRQ]
        by_cases hrep : (s.dmaRegs ch).control &&& DMA_REP = 0
        · simp only [hrep]
          norm_num [Function.update_idem]
        · simp only [hrep]
          norm_num [Function.update_idem]
  · by_cases hch3 : ch = 3
    · subst hch3
      norm_num
      obtain ⟨m2, hu2⟩ := dmaUnits_ewram_iwram_gen n { s with eepromIdx := 0 } 3 u dst src f
        hcount hdst0 hsrc0 hu hd1 hd2 hd3 hs1 hs3 (by omega)
      rw [hu2]
      norm_num
      by_cases hirq : (s.dmaRegs 3).control &&& DMA_IRQ = 0
      · simp only [hirq]
        norm_num
        by_cases hrep : (s.dmaRegs 3).control &&& DMA_REP = 0
        · simp only [hrep]
          norm_num [Function.update_idem]
        · simp only [hrep]
          norm_num [Function.update_idem]
      · simp only [hirq]
        norm_num [triggerIRQ]
        by_cases hrep : (s.dmaRegs 3).control &&& DMA_REP = 0
        · simp only [hrep]
          norm_num [Function.update_idem]
        · simp only [hrep]
          norm_num [Function.update_idem]
    · norm_num [hch3]
      obtain ⟨m2, hu2⟩ := dmaUnits_ewram_iwram_gen n s ch u dst src f
        hcount hdst0 hsrc0 hu hd1 hd2 hd3 hs1 hs3 (by omega)
      rw [hu2]
      norm_num
      by_cases hirq : (s.dmaRegs ch).control &&& DMA_IRQ = 0
      · simp only [hirq]
        norm_num
        by_cases hrep : (s.dmaRegs ch).control &&& DMA_REP = 0
        · simp only [hrep]
          norm_num [Function.update_idem]
        · simp only [hrep]
          norm_num [Function.update_idem]
      · simp only [hirq]
        norm_num [triggerIRQ]
        by_cases hrep : (s.dmaRegs ch).control &&& DMA_REP = 0
        · simp only [hrep]
          norm_num [Function.update_idem]
        · simp only [hrep]
          norm_num [Function.update_idem]

end Gba

namespace Gba

/-- The palette derivation block of `memWriteHalfWord` / `memWriteByte`
(`memory.c`): expand a 15-bit BGR555 pixel to the native 32-bit value
`0xFF | (r|(r>>5))<<8 | (g|(g>>5))<<16 | (b|(b>>5))<<24` with
`r = ((pixel >> 0) & 0x1F) << 3` and so on. -/
def paletteDerive (pixel : Nat) : Nat :=
  let r := ((pixel &&& 0x1F) <<< 3) &&& 0xFF
  let g := (((pixel >>> 5) &&& 0x1F) <<< 3) &&& 0xFF
  let b := (((pixel >>> 10) &&& 0x1F) <<< 3) &&& 0xFF
  (0xFF ||| ((r ||| (r >>> 5)) <<< 8) ||| ((g ||| (g >>> 5)) <<< 16) |||
    ((b ||| (b >>> 5)) <<< 24)) &&& 0xFFFFFFFF

/-- The expansion the spec describes for claim C6, written from the
spec's words: each 5-bit colour field is widened to 8 bits by bit
replication (`c8 = (c5 << 3) | (c5 >> 2)`) and 0xFF fills the alpha
lane (bits 0-7 of the BGRA8888 native value). -/
def spec_palette_expand (h : Nat) : Nat :=
  let r5 := h &&& 0x1F
  let g5 := (h >>> 5) &&& 0x1F
  let b5 := (h >>> 10) &&& 0x1F
  0xFF ||| (((r5 <<< 3) ||| (r5 >>> 2)) <<< 8) ||| (((g5 <<< 3) ||| (g5 >>> 2)) <<< 16) |||
    (((b5 <<< 3) ||| (b5 >>> 2)) <<< 24)

/-- The code's palette derivation equals the spec's bit-replication
expansion on every pixel value. -/
theorem paletteDerive_eq_spec (p : Nat) : paletteDerive p = spec_palette_expand p := by
  simp only [paletteDerive, spec_palette_expand, andM5, andM8, andM32,
    Nat.shiftLeft_eq, Nat.shiftRight_eq_div_pow]
  norm_num
  rw [lor_eq_add_gen (p % 32 * 8 % 256) (p % 32 * 8 % 256 / 32) 3 (by omega) (by omega),
    lor_eq_add_gen (p / 32 % 32 * 8 % 256) (p / 32 % 32 * 8 % 256 / 32) 3 (by omega) (by omega),
    lor_eq_add_gen (p / 1024 % 32 * 8 % 256) (p / 1024 % 32 * 8 % 256 / 32) 3 (by omega) (by omega),
    lor_eq_add_gen (p % 32 * 8) (p % 32 / 4) 3 (by omega) (by omega),
    lor_eq_add_gen (p / 32 % 32 * 8) (p / 32 % 32 / 4) 3 (by omega) (by omega),
    lor_eq_add_gen (p / 1024 % 32 * 8) (p / 1024 % 32 / 4) 3 (by omega) (by omega)]
  rw [lor_eq_add_gen2 255 ((p % 32 * 8 % 256 + p % 32 * 8 % 256 / 32) * 256) 8 (by omega) (by omega),
    lor_eq_add_gen2 _ ((p / 32 % 32 * 8 % 256 + p / 32 % 32 * 8 % 256 / 32) * 65536) 16 (by omega) (by omega),
    lor_eq_add_gen2 _ ((p / 1024 % 32 * 8 % 256 + p / 1024 % 32 * 8 % 256 / 32) * 16777216) 24 (by omega) (by omega)]
  rw [lor_eq_add_gen2 255 ((p % 32 * 8 + p % 32 / 4) * 256) 8 (by omega) (by omega),
    lor_eq_add_gen2 _ ((p / 32 % 32 * 8 + p / 32 % 32 / 4) * 65536) 16 (by omega) (by omega),
    lor_eq_add_gen2 _ ((p / 1024 % 32 * 8 + p / 1024 % 32 / 4) * 16777216) 24 (by omega) (by omega)]
  have h1 : p % 32 * 8 % 256 = p % 32 * 8 := by omega
  have h2 : p / 32 % 32 * 8 % 256 = p / 32 % 32 * 8 := by omega
  have h3 : p / 1024 % 32 * 8 % 256 = p / 1024 % 32 * 8 := by omega
  rw [h1, h2, h3]
  have h4 : p % 32 * 8 / 32 = p % 32 / 4 := by omega
  have h5 : p / 32 % 32 * 8 / 32 = p / 32 % 32 / 4 := by omega
  have h6 : p / 1024 % 32 * 8 / 32 = p / 1024 % 32 / 4 := by omega
  rw [h4, h5, h6]
  omega

/-- A halfword write with address top byte 0x05 in normal form: store
the two bytes in palette RAM at the pair-aligned offset and re-derive
the native palette entry of that pair. -/
theorem memWriteHalfWord_pal (s : Emu) (a hw fuel : Nat) (ha : a >>> 24 = 5) :
    memWriteHalfWord (fuel + 1) a hw s =
      { s with palRAM := write16 s.palRAM (a % 0x400 / 2 * 2) (hw % 0x10000),
               palette := Function.update s.palette (a % 0x400 / 2)
                 (paletteDerive (hw % 0x10000)) } := by
  have ha2 : a / 0x1000000 = 5 := by
    rw [Nat.shiftRight_eq_div_pow] at ha; norm_num at ha; exact ha
  simp only [memWriteHalfWord, andM32, andM16, andM10, andM4, andAlign2, andAlign3FE,
    Nat.shiftRight_eq_div_pow, Nat.shiftLeft_eq]
  norm_num
  rw [if_neg (show ¬ (a % 4294967296 / 2 * 2 / 16777216 % 16 = 2) by omega),
    if_neg (show ¬ (a % 4294967296 / 2 * 2 / 16777216 % 16 = 3) by omega),
    if_neg (show ¬ (a % 4294967296 / 2 * 2 / 16777216 % 16 = 4) by omega),
    if_pos (show a % 4294967296 / 2 * 2 / 16777216 % 16 = 5 by omega)]
  rw [show a % 4294967296 / 2 * 2 % 1024 = a % 1024 / 2 * 2 by omega]
  rw [show a % 1024 / 2 * 2 / 2 * 2 = a % 1024 / 2 * 2 by omega]
  rw [show a % 1024 / 2 * 2 / 2 = a % 1024 / 2 by omega]
  rw [write16_at, write16_at1]
  simp only [andM8, Nat.shiftRight_eq_div_pow]
  norm_num
  rw [show hw % 256 ||| hw % 65536 / 256 % 256 * 256 = hw % 65536 by
    rw [lor_eq_add_gen2 _ _ 8 (by omega) (by omega)]; omega]
  simp only [paletteDerive, andM5, andM8, andM32, Nat.shiftLeft_eq, Nat.shiftRight_eq_div_pow]

/-- A byte write with address top byte 0x05 on an even address in
normal form: the byte lands in both bytes of the palette pair and the
native entry is re-derived from the duplicated byte (the first
derivation of the source is overwritten by the second). -/
theorem memWriteByte_pal (s : Emu) (a v fuel : Nat) (ha : a >>> 24 = 5) (hev : a % 2 = 0) :
    memWriteByte (fuel + 1) a v s =
      { s with palRAM := write16 s.palRAM (a % 0x400 / 2 * 2) (v % 0x100 * 0x101),
               palette := Function.update s.palette (a % 0x400 / 2)
                 (paletteDerive (v % 0x100 * 0x101)) } := by
  have ha2 : a / 0x1000000 = 5 := by
    rw [Nat.shiftRight_eq_div_pow] at ha; norm_num at ha; exact ha
  simp only [memWriteByte, andM32, andM8, andM10, andM4, andAlign3FE,
    Nat.shiftRight_eq_div_pow, Nat.shiftLeft_eq]
  norm_num
  rw [if_neg (show ¬ (a % 4294967296 / 16777216 % 16 = 2) by omega),
    if_neg (show ¬ (a % 4294967296 / 16777216 % 16 = 3) by omega),
    if_neg (show ¬ (a % 4294967296 / 16777216 % 16 = 4) by omega),
    if_pos (show a % 4294967296 / 16777216 % 16 = 5 by omega)]
  rw [andM32 a]
  rw [andM10 (a % 4294967296)]
  rw [andAlign3FE (a % 4294967296)]
  rw [show a % 4294967296 % 1024 = a % 1024 by omega]
  rw [show a % 1024 / 2 * 2 = a % 1024 by omega]
  rw [andM10 (a % 1024 + 1)]
  rw [andAlign3FE (a % 1024 + 1)]
  rw [show (a % 1024 + 1) % 1024 = a % 1024 + 1 by omega]
  rw [show (a % 1024 + 1) / 2 * 2 = a % 1024 by omega]
  rw [show (a % 1024 + 1) / 2 = a % 1024 / 2 by omega]
  rw [Function.update_idem]
  rw [Function.update_noteq (show (a % 1024 : Nat) ≠ a % 1024 + 1 by omega)]
  rw [Function.update_same, Function.update_same]
  rw [show v % 256 ||| v % 256 * 256 = v % 256 * 257 by
    rw [lor_eq_add_gen2 _ _ 8 (by omega) (by omega)]; omega]
  simp only [write16, paletteDerive, andM5, andM8, andM32, Nat.shiftLeft_eq,
    Nat.shiftRight_eq_div_pow]
  norm_num
  rw [show v * 257 % 256 = v % 256 by omega,
    show v % 256 * 257 / 256 % 256 = v % 256 by
      have h2 : v % 256 < 256 := Nat.mod_lt _ (by norm_num)
      have h3 : v % 256 * 257 = v % 256 + v % 256 * 256 := by ring
      rw [h3, Nat.add_mul_div_right _ _ (show 0 < 256 by norm_num), Nat.div_eq_of_lt h2]
      omega]

/-- A byte write with address top byte 0x06 in normal form: the byte is
stored at the VRAM index of the address and of its successor. -/
theorem memWriteByte_vram (s : Emu) (a v fuel : Nat) (ha : a >>> 24 = 6) :
    memWriteByte (fuel + 1) a v s =
      { s with vram := Function.update (Function.update s.vram (vramIdx a) (v % 0x100)) (vramIdx (a + 1)) (v % 0x100) } := by
  have ha2 : a / 0x1000000 = 6 := by
    rw [Nat.shiftRight_eq_div_pow] at ha; norm_num at ha; exact ha
  simp only [memWriteByte, andM32, andM8, andM4, Nat.shiftRight_eq_div_pow]
  norm_num
  rw [if_neg (show ¬ (a % 4294967296 / 16777216 % 16 = 2) by omega),
    if_neg (show ¬ (a % 4294967296 / 16777216 % 16 = 3) by omega),
    if_neg (show ¬ (a % 4294967296 / 16777216 % 16 = 4) by omega),
    if_neg (show ¬ (a % 4294967296 / 16777216 % 16 = 5) by omega),
    if_pos (show a % 4294967296 / 16777216 % 16 = 6 by omega)]
  rw [show a % 4294967296 = a by omega]

/-- A halfword write with address top byte 0x06 on an even address in
normal form: a 16-bit VRAM store at the VRAM index of the address. -/
theorem memWriteHalfWord_vram (s : Emu) (a hw fuel : Nat) (ha : a >>> 24 = 6)
    (hev : a % 2 = 0) :
    memWriteHalfWord (fuel + 1) a hw s =
      { s with vram := write16 s.vram (vramIdx a) (hw % 0x10000) } := by
  have ha2 : a / 0x1000000 = 6 := by
    rw [Nat.shiftRight_eq_div_pow] at ha; norm_num at ha; exact ha
  simp only [memWriteHalfWord, andM32, andM16, andM4, andAlign2, Nat.shiftRight_eq_div_pow]
  norm_num
  rw [if_neg (show ¬ (a % 4294967296 / 2 * 2 / 16777216 % 16 = 2) by omega),
    if_neg (show ¬ (a % 4294967296 / 2 * 2 / 16777216 % 16 = 3) by omega),
    if_neg (show ¬ (a % 4294967296 / 2 * 2 / 16777216 % 16 = 4) by omega),
    if_neg (show ¬ (a % 4294967296 / 2 * 2 / 16777216 % 16 = 5) by omega),
    if_pos (show a % 4294967296 / 2 * 2 / 16777216 % 16 = 6 by omega)]
  rw [show a % 4294967296 / 2 * 2 = a by omega]

/-- Condition evaluation ignores the register file and prefetch latch. -/
theorem evalCond_update15 (c : Nat) (s : Emu) (r15v pl : Nat) :
    evalCond c { s with regs := Function.update s.regs 15 r15v, pipeline := pl } = evalCond c s := by
  simp only [evalCond, getCC, getPSR, processorMode]

end Gba

namespace Gba

/-- C5: for every internal-WRAM address `a` in r1 and any CPU state, the
ARM instruction 0xE5910000 (`LDR r0, [r1]`) loads into r0 the word
stored at `a` with its low two bits cleared, rotated right by
`8 × (a & 3)` bits, charges 3 cycles and changes nothing else
(`procSDT` composed with `memReadWord`). -/
theorem c5_ldr_rotates_unaligned_word (s : Emu) (a fuel : Nat)
    (ha : a >>> 24 = 3) (hr1 : s.regs 1 = a) :
    procSDT fuel 0xE5910000 s =
      some { s with
        regs := Function.update s.regs 0
          (rorC (read32 s.iWRAM ((a &&& 0xFFFFFFFC) &&& 0x7FFF)) ((a &&& 0x3) * 8)),
        cycle := s.cycle + 3 } := by
  have ha2 : a % 0x100000000 = a := by
    rw [Nat.shiftRight_eq_div_pow] at ha
    norm_num at ha
    omega
  simp [procSDT, getReg, setReg, andM1, andM2, andM4, andM5, andM8, andM12, andM32, ha2, hr1]
  rw [memReadWord_iwram s a ha]
  simp [and32_eq_of_lt _ (rorC_lt32 _ _), rorC_mod32, andM2, andM15, andAlign4, ha2]

/-- Register file for the C5 witness: r1 points one byte past the start
of internal WRAM. -/
def c5Regs : Nat → Nat := fun i => if i = 1 then 0x03000001 else 0

/-- Internal WRAM for the C5 witness: the word 0xDEADBEEF stored
little-endian at offset 0. -/
def c5IWram : Nat → Nat :=
  fun i => if i = 0 then 0xEF else if i = 1 then 0xBE else if i = 2 then 0xAD
  else if i = 3 then 0xDE else 0

/-- Input state for the C5 witness. -/
def c5State : Emu := { emu0 with regs := c5Regs, iWRAM := c5IWram }

/-- Witness for C5: with r1 = 0x03000001 and 0xDEADBEEF stored at
0x03000000, `LDR r0, [r1]` yields r0 = ROR(0xDEADBEEF, 8) =
0xEFDEADBE. -/
theorem c5_ldr_rotates_unaligned_word_witness :
    procSDT 1 0xE5910000 c5State =
      some { c5State with
        regs := Function.update c5State.regs 0
          (rorC (read32 c5State.iWRAM ((0x03000001 &&& 0xFFFFFFFC) &&& 0x7FFF))
            ((0x03000001 &&& 0x3) * 8)),
        cycle := c5State.cycle + 3 } ∧
    rorC (read32 c5State.iWRAM ((0x03000001 &&& 0xFFFFFFFC) &&& 0x7FFF))
      ((0x03000001 &&& 0x3) * 8) = 0xEFDEADBE :=
  ⟨c5_ldr_rotates_unaligned_word c5State 0x03000001 1 (by decide) rfl, by decide⟩

/-- C6: after any halfword write into palette RAM, the derived native
32-bit palette entry of the addressed pair equals the spec's
bit-replication expansion of the written halfword's three 5-bit colour
fields, with 0xFF in the alpha lane. -/
theorem c6_palette_write_is_bit_replication (s : Emu) (a hw fuel : Nat) (ha : a >>> 24 = 5) :
    (memWriteHalfWord (fuel + 1) a hw s).palette ((a &&& 0x3FE) >>> 1) =
      spec_palette_expand (hw &&& 0xFFFF) := by
  rw [memWriteHalfWord_pal s a hw fuel ha, andAlign3FE, Nat.shiftRight_eq_div_pow]
  norm_num
  rw [show a % 1024 / 2 * 2 / 2 = a % 1024 / 2 by omega]
  rw [Function.update_same, paletteDerive_eq_spec, andM16]

/-- Witness for C6: writing 0x7C1F (red 31, green 0, blue 31) at
0x05000002 puts 0xFF00FFFF in the derived palette entry. -/
theorem c6_palette_write_is_bit_replication_witness :
    (memWriteHalfWord 1 0x05000002 0x7C1F emu0).palette ((0x05000002 &&& 0x3FE) >>> 1) =
      spec_palette_expand (0x7C1F &&& 0xFFFF) ∧
    spec_palette_expand (0x7C1F &&& 0xFFFF) = 0xFF00FFFF :=
  ⟨c6_palette_write_is_bit_replication emu0 0x05000002 0x7C1F 0 (by decide), by decide⟩

/-- C7 (amended): for every even address in the palette-RAM or VRAM
region, a byte write of `v` is the same state transformation as a
halfword write, to the same address, of the 16-bit value whose two
bytes are both `v` — full state equality, including the re-derived
native palette entry.  (The spec's claim fails at odd addresses, see
the counterexample.) -/
theorem c7_even_byte_write_is_duplicated_halfword_write (s : Emu) (a v fuel : Nat)
    (hreg : a >>> 24 = 5 ∨ a >>> 24 = 6) (hev : a % 2 = 0) :
    memWriteByte (fuel + 1) a v s =
      memWriteHalfWord (fuel + 1) a ((v &&& 0xFF) ||| ((v &&& 0xFF) <<< 8)) s := by
  have hhw : ((v &&& 0xFF) ||| ((v &&& 0xFF) <<< 8)) % 0x10000 = v % 0x100 * 0x101 := by
    rw [andM8, Nat.shiftLeft_eq]
    norm_num
    rw [lor_eq_add_gen2 (v % 256) (v % 256 * 256) 8 (by omega) (by omega)]
    omega
  rcases hreg with h5 | h6
  · rw [memWriteByte_pal s a v fuel h5 hev, memWriteHalfWord_pal s a _ fuel h5, hhw]
  · rw [memWriteByte_vram s a v fuel h6, memWriteHalfWord_vram s a _ fuel h6 hev, hhw,
      vramIdx_succ a hev]
    simp only [write16, andM8, Nat.shiftRight_eq_div_pow]
    norm_num
    rw [show v * 257 % 256 = v % 256 by omega,
      show v % 256 * 257 / 256 % 256 = v % 256 by
        have h2 : v % 256 < 256 := Nat.mod_lt _ (by norm_num)
        have h3 : v % 256 * 257 = v % 256 + v % 256 * 256 := by ring
        rw [h3, Nat.add_mul_div_right _ _ (show 0 < 256 by norm_num), Nat.div_eq_of_lt h2]
        omega]

/-- Witness for C7: at the even palette address 0x05000000 the byte
write of 0x12 and the halfword write of 0x1212 produce the same
state. -/
theorem c7_even_byte_write_is_duplicated_halfword_write_witness :
    memWriteByte 1 0x05000000 0x12 emu0 =
      memWriteHalfWord 1 0x05000000 ((0x12 &&& 0xFF) ||| ((0x12 &&& 0xFF) <<< 8)) emu0 :=
  c7_even_byte_write_is_duplicated_halfword_write emu0 0x05000000 0x12 0
    (Or.inl (by decide)) (by decide)

/-- Counterexample for C7 as stated: at the odd palette address
0x05000001 the byte write stores the byte twice at the odd offset and
never touches the even byte of the pair, so it differs from the
duplicated-byte halfword write (which stores both bytes): after the
byte write `palRAM[0]` is still 0, after the halfword write it is
0x34. -/
theorem c7_odd_palette_byte_write_differs :
    (memWriteByte 1 0x05000001 0x34 emu0).palRAM 0 = 0 ∧
    (memWriteHalfWord 1 0x05000001 ((0x34 &&& 0xFF) ||| ((0x34 &&& 0xFF) <<< 8)) emu0).palRAM 0 =
      0x34 ∧
    memWriteByte 1 0x05000001 0x34 emu0 ≠
      memWriteHalfWord 1 0x05000001 ((0x34 &&& 0xFF) ||| ((0x34 &&& 0xFF) <<< 8)) emu0 :=
  ⟨rfl, rfl, fun h => absurd (congrArg (fun st => st.palRAM 0) h) (by decide)⟩

set_option maxHeartbeats 4000000 in
/-- C10 (amended): reads dispatch on the full top byte of the address
while writes dispatch on bits 27..24 only.  For every address whose
top byte `t` lies outside the documented regions (`t = 1` or
`t >= 0x10`), reads of every width (word, halfword, byte) return 0 and
leave the state unchanged; but when the low nibble of `t` is 2, writes
of every width land in external WRAM at the address's (aligned) low 18
bits, exactly as a write with top byte 0x02 would. -/
theorem c10_reads_full_top_byte_writes_low_nibble (s : Emu) (a v t fuel : Nat)
    (ht : (a &&& 0xFFFFFFFF) >>> 24 = t)
    (hun : t = 1 ∨ 0x10 ≤ t) :
    memReadWord a s = (0, s) ∧
    memReadHalfWord a s = (0, s) ∧
    memReadByte a s = (0, s) ∧
    (t &&& 0xF = 2 →
      memWriteByte (fuel + 1) a v s =
        { s with eWRAM := Function.update s.eWRAM ((a &&& 0xFFFFFFFF) &&& 0x3FFFF) (v &&& 0xFF) } ∧
      memWriteHalfWord (fuel + 1) a v s =
        { s with eWRAM := write16 s.eWRAM (((a &&& 0xFFFFFFFF) &&& 0xFFFFFFFE) &&& 0x3FFFF) (v &&& 0xFFFF) } ∧
      memWriteWord (fuel + 1) a v s =
        { s with eWRAM := write32 s.eWRAM (((a &&& 0xFFFFFFFF) &&& 0xFFFFFFFC) &&& 0x3FFFF) (v &&& 0xFFFFFFFF) }) := by
  have ht' : a % 0x100000000 / 0x1000000 = t := by
    rw [andM32, Nat.shiftRight_eq_div_pow] at ht
    norm_num at ht
    exact ht
  have htlt : t < 0x100 := by omega
  refine ⟨?_, ?_, ?_, ?_⟩
  · have h3 : (((a &&& 0xFFFFFFFF) &&& 0xFFFFFFFC) >>> 24) &&& 0xFF = t := by
      rw [andM32, andAlign4, andM8, Nat.shiftRight_eq_div_pow]
      norm_num
      omega
    simp only [memReadWord, h3]
    iterate 10 rw [if_neg (by omega)]
  · have h3 : (((a &&& 0xFFFFFFFF) &&& 0xFFFFFFFE) >>> 24) &&& 0xFF = t := by
      rw [andM32, andAlign2, andM8, Nat.shiftRight_eq_div_pow]
      norm_num
      omega
    simp only [memReadHalfWord, h3]
    iterate 10 rw [if_neg (by omega)]
  · have h3 : ((a &&& 0xFFFFFFFF) >>> 24) &&& 0xFF = t := by
      rw [andM32, andM8, Nat.shiftRight_eq_div_pow]
      norm_num
      omega
    simp only [memReadByte, h3]
    iterate 10 rw [if_neg (by omega)]
  · intro hnib
    rw [andM4] at hnib
    refine ⟨?_, ?_, ?_⟩
    · have h3 : ((a &&& 0xFFFFFFFF) >>> 24) &&& 0xF = 2 := by
        rw [andM32, andM4, Nat.shiftRight_eq_div_pow]
        norm_num
        omega
      simp only [memWriteByte, h3]
      norm_num
    · have h3 : (((a &&& 0xFFFFFFFF) &&& 0xFFFFFFFE) >>> 24) &&& 0xF = 2 := by
        rw [andM32, andAlign2, andM4, Nat.shiftRight_eq_div_pow]
        norm_num
        omega
      simp only [memWriteHalfWord, h3]
      norm_num
    · have h3 : (((a &&& 0xFFFFFFFF) &&& 0xFFFFFFFC) >>> 24) &&& 0xF = 2 := by
        rw [andM32, andAlign4, andM4, Nat.shiftRight_eq_div_pow]
        norm_num
        omega
      simp only [memWriteWord, h3]
      norm_num

/-- Witness for C10: the address 0x12000004 reads as unmapped at every
width, but byte, halfword and word writes to it land in eWRAM. -/
theorem c10_reads_full_top_byte_writes_low_nibble_witness :
    memReadWord 0x12000004 emu0 = (0, emu0) ∧
    memReadHalfWord 0x12000004 emu0 = (0, emu0) ∧
    memReadByte 0x12000004 emu0 = (0, emu0) ∧
    ((0x12 : Nat) &&& 0xF = 2 →
      memWriteByte 1 0x12000004 0xAB emu0 =
        { emu0 with eWRAM := Function.update emu0.eWRAM ((0x12000004 &&& 0xFFFFFFFF) &&& 0x3FFFF) (0xAB &&& 0xFF) } ∧
      memWriteHalfWord 1 0x12000004 0xAB emu0 =
        { emu0 with eWRAM := write16 emu0.eWRAM (((0x12000004 &&& 0xFFFFFFFF) &&& 0xFFFFFFFE) &&& 0x3FFFF) (0xAB &&& 0xFFFF) } ∧
      memWriteWord 1 0x12000004 0xAB emu0 =
        { emu0 with eWRAM := write32 emu0.eWRAM (((0x12000004 &&& 0xFFFFFFFF) &&& 0xFFFFFFFC) &&& 0x3FFFF) (0xAB &&& 0xFFFFFFFF) }) :=
  c10_reads_full_top_byte_writes_low_nibble emu0 0x12000004 0xAB 0x12 0 (by decide) (by decide)

/-- Counterexample for C10 as stated: 0x12000000 has top byte 0x12,
outside every documented region, so the claim demands that a write
there changes nothing; but `memWriteByte` dispatches on
`(addr >> 24) & 0xF` = 2 and stores into external WRAM. -/
theorem c10_undocumented_top_byte_write_hits_ewram :
    ((0x12000000 : Nat) >>> 24) &&& 0xFF = 0x12 ∧
    (memReadWord 0x12000000 emu0).1 = 0 ∧
    (memWriteByte 1 0x12000000 0x55 emu0).eWRAM 0 = 0x55 ∧
    memWriteByte 1 0x12000000 0x55 emu0 ≠ emu0 :=
  ⟨rfl, rfl, rfl, fun h => absurd (congrArg (fun st => st.eWRAM 0) h) (by decide)⟩

/-- C3 (amended): an ARM-mode instruction whose condition fails leaves
every register except r15 unchanged and consumes exactly one cycle,
but r15 does advance by 4 (the prefetch of `decodeInstruction` runs
before the condition test), and the prefetch latch is refilled with
the fetched word.  Stated for a latched instruction fetching from
internal WRAM. -/
theorem c3_cond_failed_advances_r15 (s : Emu) (fuel : Nat)
    (hthumb : cpuInThumb s = false)
    (hpipe : s.pipeline ≠ 0)
    (hdec : (decodeArm s.pipeline).isSome)
    (hcond : evalCond ((s.pipeline >>> 28) &&& 0xF) s = false)
    (hr15 : s.regs 15 >>> 24 = 3) :
    executeArm fuel s = some { s with
      pipeline := read32 s.iWRAM ((s.regs 15 &&& 0xFFFFFFFC) &&& 0x7FFF),
      regs := Function.update s.regs 15 ((s.regs 15 + 4) &&& 0xFFFFFFFF),
      cycle := s.cycle + 1 } := by
  obtain ⟨t, ht⟩ := Option.isSome_iff_exists.mp hdec
  simp only [executeArm, fetchInstruction, hthumb, Bool.false_eq_true, if_false, hpipe,
    ite_true, ite_false, ne_eq, not_false_eq_true, if_true,
    memReadWord_iwram s (s.regs 15) hr15, ht, Option.some_bind, Option.bind_eq_bind]
  rw [evalCond_update15, hcond]
  norm_num

/-- Register file for the C3 counterexample and witness: r15 at the
start of internal WRAM. -/
def c3Regs : Nat → Nat := fun i => if i = 15 then 0x03000000 else 0

/-- Input state for C3: SYSTEM mode with Z clear and the instruction
0x01A00000 (`MOVEQ r0, r0`, condition EQ) in the prefetch latch, so
the condition fails. -/
def c3State : Emu := { emu0 with regs := c3Regs, pipeline := 0x01A00000 }

/-- Witness for C3's amended statement, at the concrete state. -/
theorem c3_cond_failed_advances_r15_witness :
    executeArm 1 c3State = some { c3State with
      pipeline := read32 c3State.iWRAM ((c3State.regs 15 &&& 0xFFFFFFFC) &&& 0x7FFF),
      regs := Function.update c3State.regs 15 ((c3State.regs 15 + 4) &&& 0xFFFFFFFF),
      cycle := c3State.cycle + 1 } :=
  c3_cond_failed_advances_r15 c3State 1 (by decide) (by decide) (by decide) (by decide)
    (by decide)

/-- Counterexample for C3 as stated: the claim says a condition-failed
instruction leaves all registers of S unchanged, but executing the
condition-failed `MOVEQ r0, r0` advances r15 from 0x03000000 to
0x03000004 while consuming the claimed single cycle. -/
theorem c3_cond_failed_still_moves_r15 :
    evalCond ((c3State.pipeline >>> 28) &&& 0xF) c3State = false ∧
    c3State.regs 15 = 0x03000000 ∧
    (executeArm 1 c3State).map (fun s2 => s2.regs 15) = some 0x03000004 ∧
    (executeArm 1 c3State).map (fun s2 => s2.cycle) = some (c3State.cycle + 1) :=
  ⟨rfl, rfl, rfl, rfl⟩

end Gba

namespace Gba

/-- A full `dmaTransfer` scan in which only channel `ch` does anything:
channels before `ch` are disabled in `s`, channel `ch` runs to `t`, and
channels after `ch` are disabled in `t`. -/
theorem dmaTransfer_only (g ch : Nat) (s t : Emu) (hch : ch < 4)
    (hother : ∀ j, j ≠ ch → (s.dmaRegs j).control &&& DMA_ENB = 0)
    (hrun : dmaChannelRun g 0 ch s = t)
    (hkeep : ∀ j, j ≠ ch → (t.dmaRegs j).control = (s.dmaRegs j).control) :
    dmaTransfer (g + 1) 0 s = t := by
  interval_cases ch
  · simp only [dmaTransfer]
    rw [hrun]
    rw [dmaChannelRun_skip g 0 1 t (by rw [hkeep 1 (by omega)]; exact hother 1 (by omega))]
    rw [dmaChannelRun_skip g 0 2 t (by rw [hkeep 2 (by omega)]; exact hother 2 (by omega))]
    rw [dmaChannelRun_skip g 0 3 t (by rw [hkeep 3 (by omega)]; exact hother 3 (by omega))]
  · simp only [dmaTransfer]
    rw [dmaChannelRun_skip g 0 0 s (hother 0 (by omega))]
    rw [hrun]
    rw [dmaChannelRun_skip g 0 2 t (by rw [hkeep 2 (by omega)]; exact hother 2 (by omega))]
    rw [dmaChannelRun_skip g 0 3 t (by rw [hkeep 3 (by omega)]; exact hother 3 (by omega))]
  · simp only [dmaTransfer]
    rw [dmaChannelRun_skip g 0 0 s (hother 0 (by omega))]
    rw [dmaChannelRun_skip g 0 1 s (hother 1 (by omega))]
    rw [hrun]
    rw [dmaChannelRun_skip g 0 3 t (by rw [hkeep 3 (by omega)]; exact hother 3 (by omega))]
  · simp only [dmaTransfer]
    rw [dmaChannelRun_skip g 0 0 s (hother 0 (by omega))]
    rw [dmaChannelRun_skip g 0 1 s (hother 1 (by omega))]
    rw [dmaChannelRun_skip g 0 2 s (hother 2 (by omega))]
    rw [hrun]

set_option maxHeartbeats 16000000 in
/-- `dmaTransfer` for an immediate event when exactly channel `ch` is
enabled, in the scenario of `dmaChannelRun_immediate`. -/
theorem dmaTransfer_immediate (s : Emu) (ch dst src n g : Nat)
    (hch : ch < 4)
    (hcount : s.dmaCount ch = n)
    (hdst0 : s.dmaDest ch = dst) (hsrc0 : s.dmaSrc ch = src)
    (henb : (s.dmaRegs ch).control &&& DMA_ENB ≠ 0)
    (htim : ((s.dmaRegs ch).control >>> 12) &&& 3 = 0)
    (h32 : (s.dmaRegs ch).control &&& DMA_32 ≠ 0)
    (hdm : ((s.dmaRegs ch).control >>> 5) &&& 3 = 0)
    (hsm : ((s.dmaRegs ch).control >>> 7) &&& 3 = 0)
    (hd1 : dst >>> 24 = 2) (hd2 : dst % 4 = 0) (hd3 : dst % 0x1000000 + 4 * n < 0x1000000)
    (hs1 : src >>> 24 = 3) (hs3 : src % 0x1000000 + 4 * n < 0x1000000)
    (hother : ∀ j, j ≠ ch → (s.dmaRegs j).control &&& DMA_ENB = 0)
    (hfuel : n + 2 ≤ g) :
    ∃ m2, dmaTransfer (g + 1) 0 s =
      { s with eWRAM := m2,
               eepromIdx := if ch = 3 then 0 else s.eepromIdx,
               dmaDest := Function.update s.dmaDest ch (dst + 4 * n),
               dmaSrc := Function.update s.dmaSrc ch (src + 4 * n),
               i_f := if (s.dmaRegs ch).control &&& DMA_IRQ ≠ 0 then (s.i_f ||| (((1 <<< 8) <<< ch) &&& 0xFFFF)) &&& 0xFFFF else s.i_f,
               haltcnt := if (s.dmaRegs ch).control &&& DMA_IRQ ≠ 0 then s.haltcnt &&& 0x7F else s.haltcnt,
               dmaCount := Function.update s.dmaCount ch (if (s.dmaRegs ch).control &&& DMA_REP ≠ 0 then (s.dmaRegs ch).count &&& 0xFFFF else 0xFFFFFFFF),
               dmaRegs := if (s.dmaRegs ch).control &&& DMA_REP ≠ 0 then s.dmaRegs else Function.update s.dmaRegs ch { s.dmaRegs ch with control := (s.dmaRegs ch).control &&& (0xFFFF ^^^ DMA_ENB) } } := by
  obtain ⟨m2, himm⟩ := dmaChannelRun_immediate s ch dst src n g
    hcount hdst0 hsrc0 henb htim h32 hdm hsm hd1 hd2 hd3 hs1 hs3 hfuel
  refine ⟨m2, dmaTransfer_only g ch s _ hch hother himm ?_⟩
  intro j hj
  by_cases hr : (s.dmaRegs ch).control &&& DMA_REP ≠ 0
  · simp [hr]
  · simp [hr, Function.update_noteq hj]

set_option maxHeartbeats 16000000 in
/-- `dmaTransfer` for an immediate event when exactly channel `ch` is
enabled, in the scenario of `dmaChannelRun_immediate2`. -/
theorem dmaTransfer_immediate2 (s : Emu) (ch u dst src n g : Nat)
    (hch : ch < 4)
    (hcount : s.dmaCount ch = n)
    (hdst0 : s.dmaDest ch = dst) (hsrc0 : s.dmaSrc ch = src)
    (henb : (s.dmaRegs ch).control &&& DMA_ENB ≠ 0)
    (htim : ((s.dmaRegs ch).control >>> 12) &&& 3 = 0)
    (hu : ((s.dmaRegs ch).control &&& DMA_32 ≠ 0 ∧ u = 4) ∨
      ((s.dmaRegs ch).control &&& DMA_32 = 0 ∧ u = 2))
    (hdm : ((s.dmaRegs ch).control >>> 5) &&& 3 = 0 ∨ ((s.dmaRegs ch).control >>> 5) &&& 3 = 3)
    (hsm : ((s.dmaRegs ch).control >>> 7) &&& 3 = 0)
    (hd1 : dst >>> 24 = 2) (hd2 : dst % u = 0) (hd3 : dst % 0x1000000 + u * n < 0x1000000)
    (hs1 : src >>> 24 = 3) (hs3 : src % 0x1000000 + u * n < 0x1000000)
    (hother : ∀ j, j ≠ ch → (s.dmaRegs j).control &&& DMA_ENB = 0)
    (hfuel : n + 2 ≤ g) :
    ∃ m2, dmaTransfer (g + 1) 0 s =
      { s with eWRAM := m2,
               eepromIdx := if ch = 3 then 0 else s.eepromIdx,
               dmaDest := Function.update s.dmaDest ch
                 (if (s.dmaRegs ch).control &&& DMA_REP ≠ 0 ∧ ((s.dmaRegs ch).control >>> 5) &&& 3 = 3
                  then (s.dmaRegs ch).destination &&& 0xFFFFFFFF else dst + u * n),
               dmaSrc := Function.update s.dmaSrc ch (src + u * n),
               i_f := if (s.dmaRegs ch).control &&& DMA_IRQ ≠ 0 then (s.i_f ||| (((1 <<< 8) <<< ch) &&& 0xFFFF)) &&& 0xFFFF else s.i_f,
               haltcnt := if (s.dmaRegs ch).control &&& DMA_IRQ ≠ 0 then s.haltcnt &&& 0x7F else s.haltcnt,
               dmaCount := Function.update s.dmaCount ch (if (s.dmaRegs ch).control &&& DMA_REP ≠ 0 then (s.dmaRegs ch).count &&& 0xFFFF else 0xFFFFFFFF),
               dmaRegs := if (s.dmaRegs ch).control &&& DMA_REP ≠ 0 then s.dmaRegs else Function.update s.dmaRegs ch { s.dmaRegs ch with control := (s.dmaRegs ch).control &&& (0xFFFF ^^^ DMA_ENB) } } := by
  obtain ⟨m2, himm⟩ := dmaChannelRun_immediate2 s ch u dst src n g
    hcount hdst0 hsrc0 henb htim hu hdm hsm hd1 hd2 hd3 hs1 hs3 hfuel
  refine ⟨m2, dmaTransfer_only g ch s _ hch hother himm ?_⟩
  intro j hj
  by_cases hr : (s.dmaRegs ch).control &&& DMA_REP ≠ 0
  · simp [hr]
  · simp [hr, Function.update_noteq hj]

set_option maxHeartbeats 16000000 in
/-- C4: a write to DMA channel `ch`'s high control byte that flips the
enable bit from 0 to 1 latches the source, destination and count
registers, aligns the latched addresses by the unit size `u` (4 bytes
in 32-bit mode, 2 bytes in 16-bit mode), and, with immediate timing,
runs the whole transfer at once; when the count reaches zero the
channel-`ch` interrupt is raised iff the IRQ bit of the new control
word `c1` is set, the count is reloaded iff the Repeat bit is set and
with end-reload destination mode the destination is reloaded from the
raw (unaligned) register, and otherwise the enable bit is cleared.
Stated for an external-WRAM destination, an internal-WRAM source,
incrementing source mode and destination mode 0 (increment) or 3
(increment with end reload). -/
theorem c4_dma_enable_flip_latches_aligns_and_runs_immediately
    (s : Emu) (ch v c1 u dstR srcR n fuel : Nat)
    (hch : ch < 4)
    (hold : getByteN (s.dmaRegs ch).control 1 &&& 0x80 = 0)
    (hflip : (v &&& 0xFF) &&& 0x80 ≠ 0)
    (hc : setByteN (s.dmaRegs ch).control 1 (v &&& 0xFF) &&& 0xFFFF = c1)
    (henb : c1 &&& DMA_ENB ≠ 0)
    (htim : (c1 >>> 12) &&& 3 = 0)
    (hu : (c1 &&& DMA_32 ≠ 0 ∧ u = 4) ∨ (c1 &&& DMA_32 = 0 ∧ u = 2))
    (hdm : (c1 >>> 5) &&& 3 = 0 ∨ (c1 >>> 5) &&& 3 = 3)
    (hsm : (c1 >>> 7) &&& 3 = 0)
    (hdst : (s.dmaRegs ch).destination = dstR) (hd4 : dstR < 0x100000000)
    (hsrc : (s.dmaRegs ch).source = srcR) (hs4 : srcR < 0x100000000)
    (hcnt : (s.dmaRegs ch).count = n) (hn : n < 0x10000)
    (hd1 : dstR >>> 24 = 2) (hd3 : dstR % 0x1000000 / u * u + u * n < 0x1000000)
    (hs1 : srcR >>> 24 = 3) (hs3 : srcR % 0x1000000 / u * u + u * n < 0x1000000)
    (hother : ∀ j, j ≠ ch → (s.dmaRegs j).control &&& DMA_ENB = 0)
    (hfuel : n + 4 ≤ fuel) :
    ∃ m2, dmaLoad fuel ch v s =
      { s with
        eWRAM := m2,
        eepromIdx := if ch = 3 then 0 else s.eepromIdx,
        dmaDest := Function.update s.dmaDest ch
          (if c1 &&& DMA_REP ≠ 0 ∧ (c1 >>> 5) &&& 3 = 3 then dstR
           else dstR / u * u + u * n),
        dmaSrc := Function.update s.dmaSrc ch (srcR / u * u + u * n),
        i_f := if c1 &&& DMA_IRQ ≠ 0 then (s.i_f ||| (((1 <<< 8) <<< ch) &&& 0xFFFF)) &&& 0xFFFF else s.i_f,
        haltcnt := if c1 &&& DMA_IRQ ≠ 0 then s.haltcnt &&& 0x7F else s.haltcnt,
        dmaCount := Function.update s.dmaCount ch (if c1 &&& DMA_REP ≠ 0 then n else 0xFFFFFFFF),
        dmaRegs := Function.update s.dmaRegs ch
          { s.dmaRegs ch with control := if c1 &&& DMA_REP ≠ 0 then c1 else c1 &&& (0xFFFF ^^^ DMA_ENB) } } := by
  obtain ⟨f, rfl⟩ : ∃ f, fuel = f + 1 := ⟨fuel - 1, by omega⟩
  simp only [dmaLoad, IMMEDIATELY]
  rw [hdst, hsrc, hcnt]
  rw [if_pos (flip_cond _ _ hold hflip)]
  rw [hc]
  have hd1' : dstR / 16777216 = 2 := by
    rw [Nat.shiftRight_eq_div_pow] at hd1; norm_num at hd1; exact hd1
  have hs1' : srcR / 16777216 = 3 := by
    rw [Nat.shiftRight_eq_div_pow] at hs1; norm_num at hs1; exact hs1
  rcases hu with ⟨h32, rfl⟩ | ⟨h16, rfl⟩
  · rw [if_pos h32]
    dsimp only
    rw [show dstR &&& 4294967295 &&& 4294967292 = dstR / 4 * 4 by rw [andM32, andAlign4]; omega]
    rw [show srcR &&& 4294967295 &&& 4294967292 = srcR / 4 * 4 by rw [andM32, andAlign4]; omega]
    rw [show n &&& 65535 = n by rw [andM16]; omega]
    obtain ⟨g, rfl⟩ : ∃ g, f = g + 1 := ⟨f - 1, by omega⟩
    obtain ⟨m2, hti⟩ := dmaTransfer_immediate2
      { s with dmaRegs := Function.update s.dmaRegs ch { source := srcR, destination := dstR, count := n, control := c1 },
               dmaSrc := Function.update s.dmaSrc ch (srcR / 4 * 4),
               dmaDest := Function.update s.dmaDest ch (dstR / 4 * 4),
               dmaCount := Function.update s.dmaCount ch n }
      ch 4 (dstR / 4 * 4) (srcR / 4 * 4) n g hch
      (by simp) (by simp) (by simp)
      (by simpa using henb) (by simpa using htim)
      (Or.inl ⟨by simpa using h32, rfl⟩)
      (by rcases hdm with h | h
          · exact Or.inl (by simpa using h)
          · exact Or.inr (by simpa using h))
      (by simpa using hsm)
      (by rw [Nat.shiftRight_eq_div_pow]; norm_num; omega)
      (by omega) (by omega)
      (by rw [Nat.shiftRight_eq_div_pow]; norm_num; omega)
      (by omega)
      (by intro j hj; simpa [Function.update_noteq hj] using hother j hj)
      (by omega)
    rw [hti]
    dsimp only
    refine ⟨m2, ?_⟩
    rcases hdm with hdm | hdm <;> by_cases hr : c1 &&& DMA_REP ≠ 0 <;> by_cases hq : c1 &&& DMA_IRQ ≠ 0 <;>
      simp [hdm, hr, hq, Function.update_idem, andM16, andM32,
        Nat.mod_eq_of_lt hn, Nat.mod_eq_of_lt hd4]
  · rw [if_neg (by simpa using h16)]
    dsimp only
    rw [show dstR &&& 4294967295 &&& 4294967294 = dstR / 2 * 2 by rw [andM32, andAlign2]; omega]
    rw [show srcR &&& 4294967295 &&& 4294967294 = srcR / 2 * 2 by rw [andM32, andAlign2]; omega]
    rw [show n &&& 65535 = n by rw [andM16]; omega]
    obtain ⟨g, rfl⟩ : ∃ g, f = g + 1 := ⟨f - 1, by omega⟩
    obtain ⟨m2, hti⟩ := dmaTransfer_immediate2
      { s with dmaRegs := Function.update s.dmaRegs ch { source := srcR, destination := dstR, count := n, control := c1 },
               dmaSrc := Function.update s.dmaSrc ch (srcR / 2 * 2),
               dmaDest := Function.update s.dmaDest ch (dstR / 2 * 2),
               dmaCount := Function.update s.dmaCount ch n }
      ch 2 (dstR / 2 * 2) (srcR / 2 * 2) n g hch
      (by simp) (by simp) (by simp)
      (by simpa using henb) (by simpa using htim)
      (Or.inr ⟨by simpa using h16, rfl⟩)
      (by rcases hdm with h | h
          · exact Or.inl (by simpa using h)
          · exact Or.inr (by simpa using h))
      (by simpa using hsm)
      (by rw [Nat.shiftRight_eq_div_pow]; norm_num; omega)
      (by omega) (by omega)
      (by rw [Nat.shiftRight_eq_div_pow]; norm_num; omega)
      (by omega)
      (by intro j hj; simpa [Function.update_noteq hj] using hother j hj)
      (by omega)
    rw [hti]
    dsimp only
    refine ⟨m2, ?_⟩
    rcases hdm with hdm | hdm <;> by_cases hr : c1 &&& DMA_REP ≠ 0 <;> by_cases hq : c1 &&& DMA_IRQ ≠ 0 <;>
      simp [hdm, hr, hq, Function.update_idem, andM16, andM32,
        Nat.mod_eq_of_lt hn, Nat.mod_eq_of_lt hd4]

/-- C4 witness channel registers: an unaligned internal-WRAM source, an
unaligned external-WRAM destination, count 2, and destination mode 3
(increment with end reload) preset in the low control byte. -/
def c4Chan : DmaChan :=
  { source := 0x03000013, destination := 0x02000022, count := 2, control := 0x60 }

/-- C4 witness state: the zero machine with channel 0 configured. -/
def c4State : Emu := { emu0 with dmaRegs := Function.update emu0.dmaRegs 0 c4Chan }

/-- Witness for C4: writing control byte 0xC6 (enable, IRQ, repeat,
32-bit, immediate) to channel 0 aligns the latched addresses down to
0x02000020 / 0x03000010, runs two units, raises the DMA-0 interrupt,
reloads the count, and end-reloads the destination to the raw
register value 0x02000022. -/
theorem c4_dma_enable_flip_latches_aligns_and_runs_immediately_witness :
    ∃ m2, dmaLoad 8 0 0xC6 c4State =
      { c4State with
        eWRAM := m2,
        eepromIdx := if (0 : Nat) = 3 then 0 else c4State.eepromIdx,
        dmaDest := Function.update c4State.dmaDest 0
          (if (0xC660 : Nat) &&& DMA_REP ≠ 0 ∧ ((0xC660 : Nat) >>> 5) &&& 3 = 3 then 0x02000022
           else 0x02000022 / 4 * 4 + 4 * 2),
        dmaSrc := Function.update c4State.dmaSrc 0 (0x03000013 / 4 * 4 + 4 * 2),
        i_f := if (0xC660 : Nat) &&& DMA_IRQ ≠ 0 then (c4State.i_f ||| (((1 <<< 8) <<< 0) &&& 0xFFFF)) &&& 0xFFFF else c4State.i_f,
        haltcnt := if (0xC660 : Nat) &&& DMA_IRQ ≠ 0 then c4State.haltcnt &&& 0x7F else c4State.haltcnt,
        dmaCount := Function.update c4State.dmaCount 0 (if (0xC660 : Nat) &&& DMA_REP ≠ 0 then 2 else 0xFFFFFFFF),
        dmaRegs := Function.update c4State.dmaRegs 0
          { c4State.dmaRegs 0 with control := if (0xC660 : Nat) &&& DMA_REP ≠ 0 then 0xC660 else 0xC660 &&& (0xFFFF ^^^ DMA_ENB) } } :=
  c4_dma_enable_flip_latches_aligns_and_runs_immediately c4State 0 0xC6 0xC660 4 0x02000022 0x03000013 2 8
    (by decide) (by rfl) (by decide) (by rfl) (by decide) (by decide)
    (Or.inl ⟨by decide, rfl⟩) (Or.inr (by decide)) (by decide)
    (by rfl) (by decide) (by rfl) (by decide) (by rfl) (by decide)
    (by decide) (by decide) (by decide) (by decide)
    (by intro j hj
        simp [c4State, Function.update_noteq hj, emu0, Nat.zero_and])
    (by decide)

end Gba
